import Mathlib

/-! # CableCam controller: the 50 Hz control cycle of `controller.c`

A shallow embedding of `getStickPositionRaw`, `stickCycle` and `controllercycle`.

Conventions of the embedding
* The file-scope variables of `controller.c`, `activesettings` and `controllerstatus`
  are the fields of one record `State`, passed explicitly.
* What a tick reads from the hardware (`getDuty`, `ENCODER_VALUE`, `is1Hz`, `HAL_GetTick`)
  is the record `Inputs`; one tick sees one encoder reading.
* A value stored in an `int16_t`, `uint16_t` or `int32_t` variable of the source is wrapped
  with `int16`, `uint16`, `int32`; expressions are evaluated in (unbounded) `Int`, like the
  32 bit `int` of the target for the operand sizes that occur.
* `double` is modelled by exact rationals `ℚ`.
* Integer division is the truncating division `Int.tdiv` (which gives 0 for a zero divisor).
* `CycleResult.TIM3_CCR3` is the value of the expression assigned to the ESC register; the
  16 bit register, and the trace sample read back from it, hold `escRegister` of it.
* Serial diagnostics (`PrintSerial_*`) have no effect on the state and are left out.
-/

namespace CableCam

/-! ## Machine integers -/

/-- Value held by an `int16_t` after storing the integer `x`. -/
def int16 (x : Int) : Int := (x + 32768) % 65536 - 32768

/-- Value held by a `uint16_t` after storing the integer `x`. -/
def uint16 (x : Int) : Int := x % 65536

/-- Value held by an `int32_t` after storing the integer `x`. -/
def int32 (x : Int) : Int := (x + 2147483648) % 4294967296 - 2147483648

/-- Conversion of a `double` to an integer: truncation toward zero. -/
def truncate (q : ℚ) : Int := Int.tdiv q.num q.den

/-! ## Data model -/

/-- CableCam mode, `activesettings.mode`. The source tests for `MODE_PASSTHROUGH`,
`MODE_LIMITER` and `MODE_ABSOLUTE_POSITION`; the remaining mode is named after the spec. -/
inductive Mode where
  | MODE_PASSTHROUGH
  | MODE_LIMITER
  | MODE_ENDPOINT
  | MODE_ABSOLUTE_POSITION
  deriving DecidableEq

/-- Arming state, `controllerstatus.safemode`. -/
inductive SAFE_MODE where
  | INVALID_RC
  | NOT_NEUTRAL_AT_STARTUP
  | PROGRAMMING
  | OPERATIONAL
  deriving DecidableEq

/-- Per-tick status tag, `controllerstatus.monitor`. -/
inductive CONTROLLER_MONITOR where
  | FREE
  | ENDPOINTBRAKE
  | EMERGENCYBRAKE
  deriving DecidableEq

open Mode SAFE_MODE CONTROLLER_MONITOR

/-- Modelled from the spec: the record `activesettings`, whose declaration (`config.h`) is not
among the sources. The pulse-width and cap fields are integers, the PID gains, the endpoints,
`max_position_error` and `stick_speed_factor` are `double`. -/
structure Settings where
  P : ℚ
  I : ℚ
  D : ℚ
  stick_neutral_pos : Int
  stick_neutral_range : Int
  stick_max_accel : Int
  stick_max_speed : Int
  stick_max_accel_safemode : Int
  stick_max_speed_safemode : Int
  esc_neutral_pos : Int
  esc_neutral_range : Int
  esc_scale : Int
  esc_direction : Int
  pos_start : ℚ
  pos_end : ℚ
  max_position_error : ℚ
  stick_speed_factor : ℚ
  mode : Mode
  rc_channel_speed : Nat
  rc_channel_programming : Nat
  rc_channel_endpoint : Nat
  rc_channel_max_accel : Nat
  rc_channel_max_speed : Nat

/-- The record `controllerstatus`, with the fields `controller.c` uses (its declaration is
not among the sources). The trace ring itself is represented by the sample a tick writes,
see `CycleResult.sample`. -/
structure ControllerStatus where
  safemode : SAFE_MODE
  monitor : CONTROLLER_MONITOR
  cyclemonitor_position : Nat

/-- One entry of the trace ring, with the fields `controllercycle` writes. -/
structure cyclemonitor_t where
  distance_to_stop : ℚ
  esc : Int
  pos : ℚ
  speed : ℚ
  stick : Int
  tick : Nat

/-- All state that persists between ticks. -/
structure State where
  activesettings : Settings
  controllerstatus : ControllerStatus
  stick_last_value : Int
  yalt : ℚ
  ealt : ℚ
  esum : ℚ
  pos_current_old : Int
  pos_target : ℚ
  pos_target_old : ℚ
  endpointclicks : Int
  lastendpointswitch : Int
  stickintegral : Int
  led_warn : Bool

/-- What one tick reads from its collaborators: the duty of each RC channel (`getDuty`,
0 when there is no valid frame), the encoder count, the 1 Hz flag and the millisecond
clock. -/
structure Inputs where
  getDuty : Nat → Nat
  ENCODER_VALUE : Int
  is1Hz : Bool
  HAL_GetTick : Nat

/-- The sampling period `Ta`. -/
def Ta : ℚ := 2 / 100

def getStick (st : State) : Int := st.stick_last_value

def initController (st : State) : State :=
  { st with controllerstatus :=
      { st.controllerstatus with safemode := INVALID_RC, monitor := FREE } }

/-- The state at power-up: the initialisers of the file-scope variables, then
`initController`. -/
def initState (settings : Settings) : State :=
  initController
    { activesettings := settings
      controllerstatus := { safemode := INVALID_RC, monitor := FREE, cyclemonitor_position := 0 }
      stick_last_value := 0
      yalt := 0
      ealt := 0
      esum := 0
      pos_current_old := 0
      pos_target := 0
      pos_target_old := 0
      endpointclicks := 0
      lastendpointswitch := 0
      stickintegral := 0
      led_warn := false }

def abs_d (v : ℚ) : ℚ := if v < 0 then -v else v

def getProgrammingSwitch (st : State) (inp : Inputs) : Int :=
  uint16 (inp.getDuty st.activesettings.rc_channel_programming)

def getEndPointSwitch (st : State) (inp : Inputs) : Int :=
  uint16 (inp.getDuty st.activesettings.rc_channel_endpoint)

def getMaxAccelPoti (st : State) (inp : Inputs) : Int :=
  uint16 (inp.getDuty st.activesettings.rc_channel_max_accel)

def getMaxSpeedPoti (st : State) (inp : Inputs) : Int :=
  uint16 (inp.getDuty st.activesettings.rc_channel_max_speed)

/-! ## getStickPositionRaw -/

/-- The local `value` of `getStickPositionRaw`: the duty rebased to the neutral position. -/
def rawValue (st : State) (inp : Inputs) : Int :=
  int16 ((inp.getDuty st.activesettings.rc_channel_speed : Int)
    - st.activesettings.stick_neutral_pos)

/-- The stick position centred around 0 with the neutral range removed, and the state
(`safemode` may move from `INVALID_RC` to `NOT_NEUTRAL_AT_STARTUP`). -/
def getStickPositionRaw (st : State) (inp : Inputs) : Int × State :=
  let value := rawValue st inp
  let range := st.activesettings.stick_neutral_range
  if value = -st.activesettings.stick_neutral_pos then
    (0, st)
  else if (st.controllerstatus.safemode = INVALID_RC
            ∨ st.controllerstatus.safemode = NOT_NEUTRAL_AT_STARTUP)
          ∧ (value > range ∨ value < -range) then
    if st.controllerstatus.safemode = INVALID_RC then
      (0, { st with controllerstatus :=
              { st.controllerstatus with safemode := NOT_NEUTRAL_AT_STARTUP } })
    else
      (0, st)
  else if value > range then
    (int16 (value - range), st)
  else if value < -range then
    (int16 (value + range), st)
  else
    (0, st)

/-! ## stickCycle -/

/-- How a call of `stickCycle` left the function: through the `return value` at its end,
through a hard failsafe (`stick_last_value = 0; return 0;`) or through an emergency brake
(`stick_last_value = value; return 0;`). -/
inductive StickExit where
  | completed
  | hard_failsafe
  | emergency_brake
  deriving DecidableEq

open StickExit

/-- Result of `stickCycle`: the returned stick value, the state and the return path. -/
structure StickResult where
  value : Int
  st : State
  exit : StickExit

/-- Control flow inside the endpoint guard: either the function has returned 0 (with the
given state), or it is still running with the local `value`. -/
inductive Flow where
  | returned (st : State) (exit : StickExit)
  | running (value : Int) (st : State)

/-- Sequencing: a block that has returned skips what follows. -/
def Flow.andThen (f : Flow) (k : Int → State → Flow) : Flow :=
  match f with
  | Flow.returned st e => Flow.returned st e
  | Flow.running v st => k v st

/-- The local `maxaccel`: `stick_max_accel`, or the safemode cap when not OPERATIONAL. -/
def maxaccel (st : State) : Int :=
  int16 (if st.controllerstatus.safemode ≠ OPERATIONAL
    then st.activesettings.stick_max_accel_safemode else st.activesettings.stick_max_accel)

/-- The local `maxspeed`: `stick_max_speed`, or the safemode cap when not OPERATIONAL. -/
def maxspeed (st : State) : Int :=
  int16 (if st.controllerstatus.safemode ≠ OPERATIONAL
    then st.activesettings.stick_max_speed_safemode else st.activesettings.stick_max_speed)

/-- The acceleration limiter (lines 239-257). -/
def accelLimit (maxaccel last value : Int) : Int :=
  let diff := int16 (value - last)
  if diff > maxaccel then int16 (last + maxaccel)
  else if diff < -maxaccel then int16 (last - maxaccel)
  else value

/-- The speed limiter (lines 263-270). -/
def speedLimit (maxspeed value : Int) : Int :=
  if value > maxspeed * 10 then int16 (maxspeed * 10)
  else if value < -maxspeed * 10 then int16 (-maxspeed * 10)
  else value

/-- The endpoint ordering self-heal (lines 288-293). -/
def orderEndpoints (st : State) : State :=
  if st.activesettings.pos_start > st.activesettings.pos_end then
    { st with activesettings :=
        { st.activesettings with
            pos_start := st.activesettings.pos_end
            pos_end := st.activesettings.pos_start } }
  else st

/-- The emergency brake of the upper endpoint (lines 349-359). -/
def upperEmergency (speed : Int) (pos brakedistance : ℚ) (value : Int) (st : State) : Flow :=
  if pos + brakedistance ≥ st.activesettings.pos_end + st.activesettings.max_position_error
      ∧ speed > 0 then
    Flow.returned
      { st with
          controllerstatus := { st.controllerstatus with monitor := EMERGENCYBRAKE }
          led_warn := true
          stick_last_value := value }
      emergency_brake
  else Flow.running value st

/-- The upper endpoint block (lines 315-360). -/
def upperEndpoint (maxaccel speed : Int) (pos brakedistance : ℚ) (value : Int) (st : State) :
    Flow :=
  let dir := int16 st.activesettings.esc_direction
  if pos + brakedistance ≥ st.activesettings.pos_end then
    if dir * value > 0 then
      let value1 := int16 (st.stick_last_value - maxaccel * dir)
      let value2 := if value1 * dir < 0 then 0 else value1
      let st1 := { st with
        controllerstatus := { st.controllerstatus with monitor := ENDPOINTBRAKE }
        led_warn := true }
      if pos ≥ st.activesettings.pos_end then
        Flow.returned { st1 with stick_last_value := 0 } hard_failsafe
      else upperEmergency speed pos brakedistance value2 st1
    else
      upperEmergency speed pos brakedistance value
        { st with
            controllerstatus := { st.controllerstatus with monitor := FREE }
            led_warn := false }
  else Flow.running value st

/-- The emergency brake of the lower endpoint (lines 397-407). -/
def lowerEmergency (speed : Int) (pos brakedistance : ℚ) (value : Int) (st : State) : Flow :=
  if pos - brakedistance ≤ st.activesettings.pos_start - st.activesettings.max_position_error
      ∧ speed < 0 then
    Flow.returned
      { st with
          controllerstatus := { st.controllerstatus with monitor := EMERGENCYBRAKE }
          led_warn := true
          stick_last_value := value }
      emergency_brake
  else Flow.running value st

/-- The lower endpoint block (lines 363-408). -/
def lowerEndpoint (maxaccel speed : Int) (pos brakedistance : ℚ) (value : Int) (st : State) :
    Flow :=
  let dir := int16 st.activesettings.esc_direction
  if pos - brakedistance ≤ st.activesettings.pos_start then
    if dir * value < 0 then
      let value1 := int16 (st.stick_last_value + maxaccel * dir)
      let value2 := if value1 * dir > 0 then 0 else value1
      let st1 := { st with
        controllerstatus := { st.controllerstatus with monitor := ENDPOINTBRAKE }
        led_warn := true }
      if pos ≤ st.activesettings.pos_start then
        Flow.returned { st1 with stick_last_value := 0 } hard_failsafe
      else lowerEmergency speed pos brakedistance value2 st1
    else
      lowerEmergency speed pos brakedistance value
        { st with
            controllerstatus := { st.controllerstatus with monitor := FREE }
            led_warn := false }
  else Flow.running value st

/-- The endpoint guard (lines 274-409): self-heal, upper block, lower block. It runs in
OPERATIONAL safemode and in the modes other than PASSTHROUGH and LIMITER. -/
def endpointGuard (maxaccel speed : Int) (pos brakedistance : ℚ) (value : Int) (st : State) :
    Flow :=
  if st.controllerstatus.safemode = OPERATIONAL
      ∧ st.activesettings.mode ≠ MODE_PASSTHROUGH ∧ st.activesettings.mode ≠ MODE_LIMITER then
    (upperEndpoint maxaccel speed pos brakedistance value (orderEndpoints st)).andThen
      (lowerEndpoint maxaccel speed pos brakedistance)
  else Flow.running value st

/-- The local `value` after the acceleration and the speed limiter (line 270). -/
def limited (st : State) (value : Int) : Int :=
  speedLimit (maxspeed st) (accelLimit (maxaccel st) st.stick_last_value value)

/-- The filters of `stickCycle` (lines 225-411): none in PASSTHROUGH, else the limiters and
the endpoint guard. -/
def stickFilter (speed : Int) (pos brakedistance : ℚ) (value : Int) (st : State) : Flow :=
  if st.activesettings.mode ≠ MODE_PASSTHROUGH then
    endpointGuard (maxaccel st) speed pos brakedistance (limited st value) st
  else Flow.running value st

/-- Evaluation of the programming switch (lines 432-451). -/
def programmingSwitch (st : State) (inp : Inputs) : State :=
  if getProgrammingSwitch st inp > 1200 then
    { st with controllerstatus := { st.controllerstatus with safemode := OPERATIONAL } }
  else
    { st with
        endpointclicks :=
          if st.controllerstatus.safemode ≠ PROGRAMMING then 0 else st.endpointclicks
        controllerstatus := { st.controllerstatus with safemode := PROGRAMMING } }

/-- Evaluation of the endpoint programming switch (lines 459-489). -/
def endPointSwitch (st : State) (inp : Inputs) : State :=
  let currentendpointswitch := getEndPointSwitch st inp
  let st1 :=
    if currentendpointswitch > 1200 ∧ st.controllerstatus.safemode = PROGRAMMING
        ∧ st.lastendpointswitch ≤ 1200 ∧ st.lastendpointswitch ≠ 0 then
      let pos : ℚ := (int32 inp.ENCODER_VALUE : Int)
      if st.endpointclicks = 0 then
        { st with
            activesettings := { st.activesettings with pos_start := pos }
            endpointclicks := 1 }
      else if st.activesettings.pos_start < pos then
        { st with activesettings := { st.activesettings with pos_end := pos } }
      else
        { st with activesettings :=
            { st.activesettings with
                pos_end := st.activesettings.pos_start
                pos_start := pos } }
    else st
  { st1 with lastendpointswitch := currentendpointswitch }

/-- The max-accel potentiometer (lines 492-500). -/
def maxAccelPoti (st : State) (inp : Inputs) : State :=
  let max_accel := getMaxAccelPoti st inp
  let s := st.activesettings
  if max_accel ≠ 0 ∧ max_accel > s.stick_neutral_pos + s.stick_neutral_range then
    { st with activesettings :=
        { s with
            stick_max_accel := 1 + Int.tdiv (Int.tdiv
              (max_accel - s.stick_neutral_pos - s.stick_neutral_range) s.esc_scale) 2 } }
  else st

/-- The max-speed potentiometer (lines 502-506). -/
def maxSpeedPoti (st : State) (inp : Inputs) : State :=
  let max_speed := getMaxSpeedPoti st inp
  let s := st.activesettings
  if max_speed ≠ 0 ∧ max_speed > s.stick_neutral_pos + s.stick_neutral_range then
    { st with activesettings :=
        { s with
            stick_max_speed := 1 + Int.tdiv
              ((max_speed - s.stick_neutral_pos - s.stick_neutral_range) * 10) s.esc_scale } }
  else st

/-- The guess of the motor direction (lines 513-538). -/
def guessDirection (st : State) (pos : ℚ) : State :=
  if st.activesettings.esc_direction = 0 then
    if pos > 500 ∨ pos < -500 then
      if (st.stickintegral > 0 ∧ pos > 0) ∨ (st.stickintegral < 0 ∧ pos < 0) then
        { st with activesettings := { st.activesettings with esc_direction := 1 } }
      else
        { st with activesettings := { st.activesettings with esc_direction := -1 } }
    else st
  else st

/-- The part of `stickCycle` after the filters (lines 412-540): commit `stick_last_value`,
evaluate the switches and the potentiometers, guess the direction. -/
def stickTail (inp : Inputs) (pos : ℚ) (value : Int) (st : State) : State :=
  guessDirection
    (maxSpeedPoti
      (maxAccelPoti
        (endPointSwitch
          (programmingSwitch { st with stick_last_value := value } inp) inp) inp) inp) pos

/-- The state and the local `value` when the filters of `stickCycle` start (lines 218-222). -/
def stickStart (st : State) (inp : Inputs) : Int × State :=
  let r := getStickPositionRaw st inp
  (int16 (r.1 * 10), { r.2 with stickintegral := int32 (r.2.stickintegral + r.1) })

/-- The local `speed` of `stickCycle`: the signed encoder speed. -/
def stickSpeed (st : State) (inp : Inputs) : Int :=
  int32 (inp.ENCODER_VALUE - st.pos_current_old)

/-- The function `stickCycle(pos, brakedistance)`. -/
def stickCycle (st : State) (inp : Inputs) (pos brakedistance : ℚ) : StickResult :=
  let start := stickStart st inp
  match stickFilter (stickSpeed st inp) pos brakedistance start.1 start.2 with
  | Flow.returned st1 e => { value := 0, st := st1, exit := e }
  | Flow.running value st1 =>
    { value := value, st := stickTail inp pos value st1, exit := completed }

/-! ## controllercycle -/

def resetThrottle (st : State) : State :=
  { st with esum := 0, ealt := 0, yalt := 0 }

def resetPosTarget (st : State) (inp : Inputs) : State :=
  { st with pos_target := (inp.ENCODER_VALUE : ℚ), pos_target_old := (inp.ENCODER_VALUE : ℚ) }

/-- What one tick produces: the state carried to the next tick, the value of the expression
that the tick assigns to the ESC register `TIM3->CCR3` (an `int`, before the conversion to
the width of the register; the register then holds `escRegister` of it), the locals
`esc_output`, `stick_filtered_value`, `speed_current` and `distance_to_stop`, and the write
to the trace ring (index and sample), if any. -/
structure CycleResult where
  st : State
  TIM3_CCR3 : Int
  esc_output : Int
  stick_filtered_value : Int
  speed_current : ℚ
  distance_to_stop : ℚ
  sample : Option (Nat × cyclemonitor_t)

/-- The first statement of `controllercycle` (line 559): `monitor` is reset to FREE. -/
def resetMonitor (st : State) : State :=
  { st with controllerstatus := { st.controllerstatus with monitor := FREE } }

/-- The local `speed_current` of `controllercycle`. -/
def speedCurrent (st : State) (inp : Inputs) : ℚ :=
  abs_d ((int32 (st.pos_current_old - int32 inp.ENCODER_VALUE) : Int) : ℚ)

/-- The local `distance_to_stop` of `controllercycle` (lines 588-594). -/
def distanceToStop (st : State) (inp : Inputs) : ℚ :=
  let time_to_stop : ℚ :=
    abs_d ((Int.tdiv (getStick st) st.activesettings.stick_max_accel : Int) : ℚ)
  speedCurrent st inp * time_to_stop / 2

/-- The position handed to `stickCycle` (lines 597-605): the old target in
ABSOLUTE_POSITION mode, else the encoder position. -/
def referencePos (st : State) (inp : Inputs) : ℚ :=
  if st.activesettings.mode = MODE_ABSOLUTE_POSITION then st.pos_target_old
  else ((int32 inp.ENCODER_VALUE : Int) : ℚ)

/-- The call of `stickCycle` that a tick makes (lines 559, 588-605): `monitor` has been reset
to FREE, the position is the reference position and the brake distance is
`distance_to_stop`. -/
def tickStick (st : State) (inp : Inputs) : StickResult :=
  stickCycle (resetMonitor st) inp (referencePos st inp) (distanceToStop st inp)

/-- The ABSOLUTE_POSITION branch of the output stage (lines 633-689): the new `esc_output`
and the state. -/
def positionLoop (st : State) (inp : Inputs) (pos : ℚ) (stick_filtered_value : Int) :
    Int × State :=
  let s := st.activesettings
  let target := st.pos_target + (stick_filtered_value : ℚ) * s.stick_speed_factor
  let pos_target :=
    if st.controllerstatus.safemode = OPERATIONAL then
      if target > s.pos_end then s.pos_end
      else if target < s.pos_start then s.pos_start
      else target
    else target
  let e := pos_target - pos
  let esum := st.esum + e
  let st1 := { st with pos_target := pos_target, pos_target_old := pos_target, esum := esum }
  if e ≥ s.max_position_error ∨ e ≤ -s.max_position_error then
    let st2 := resetPosTarget (resetThrottle st1) inp
    (0, { st2 with controllerstatus := { st2.controllerstatus with monitor := EMERGENCYBRAKE } })
  else
    let y := (s.P * e) + (s.I * Ta * esum) + (s.D / Ta) * (e - st.ealt)
    (if s.esc_direction = 1 then int16 (truncate y) else int16 (truncate (-y)),
      { st1 with ealt := e, yalt := y })

/-- The output stage before the PWM mapping (lines 613-697). -/
def outputStage (st : State) (inp : Inputs) (pos : ℚ) (stick_filtered_value : Int) :
    Int × State :=
  if st.activesettings.mode ≠ MODE_PASSTHROUGH ∧ st.activesettings.mode ≠ MODE_LIMITER then
    if st.activesettings.mode = MODE_ABSOLUTE_POSITION then
      positionLoop st inp pos stick_filtered_value
    else (stick_filtered_value, st)
  else (stick_filtered_value, st)

/-- The PWM mapping (lines 699-710): the value of the `int` expression assigned to
`TIM3->CCR3`. -/
def pwm (s : Settings) (esc_output : Int) : Int :=
  if esc_output > 0 then
    s.esc_neutral_pos + s.esc_neutral_range + Int.tdiv esc_output s.esc_scale
  else if esc_output < 0 then
    s.esc_neutral_pos - s.esc_neutral_range + Int.tdiv esc_output s.esc_scale
  else s.esc_neutral_pos

/-- Modelled from the spec: the ESC channel register takes an unsigned 16 bit value
(`pwm_write(value: u16)`); the declaration of `TIM3->CCR3` is not among the sources. This is
the content of the register after the assignment of the integer `value`: a negative value
wraps. -/
def escRegister (value : Int) : Int := uint16 value

/-- Advance of the trace ring head (lines 725-729). -/
def nextSamplePosition (CYCLEMONITOR_SAMPLE_COUNT position : Nat) : Nat :=
  if position + 1 > CYCLEMONITOR_SAMPLE_COUNT then 0 else position + 1

/-- The function `controllercycle()`: one tick. `CYCLEMONITOR_SAMPLE_COUNT` is the
build-time capacity of the trace ring. -/
def controllercycle (CYCLEMONITOR_SAMPLE_COUNT : Nat) (st : State) (inp : Inputs) :
    CycleResult :=
  let pos : ℚ := ((int32 inp.ENCODER_VALUE : Int) : ℚ)
  let speed_current := speedCurrent st inp
  let distance_to_stop := distanceToStop st inp
  let r := tickStick st inp
  let out := outputStage r.st inp pos r.value
  let ccr3 := pwm out.2.activesettings out.1
  let active : Bool := decide (speed_current ≠ 0 ∨ out.1 ≠ 0)
  let position := out.2.controllerstatus.cyclemonitor_position
  let st1 : State :=
    if active then
      { out.2 with controllerstatus :=
          { out.2.controllerstatus with
              cyclemonitor_position := nextSamplePosition CYCLEMONITOR_SAMPLE_COUNT position } }
    else out.2
  { st := { st1 with pos_current_old := int32 inp.ENCODER_VALUE }
    TIM3_CCR3 := ccr3
    esc_output := out.1
    stick_filtered_value := r.value
    speed_current := speed_current
    distance_to_stop := distance_to_stop
    sample :=
      if active then
        some (position,
          { distance_to_stop := distance_to_stop
            esc := escRegister ccr3
            pos := pos
            speed := speed_current
            stick := getStick out.2
            tick := inp.HAL_GetTick })
      else none }

/-- The state after a sequence of ticks, one per element of the list of inputs. -/
def runTicks (CYCLEMONITOR_SAMPLE_COUNT : Nat) : List Inputs → State → State
  | [], st => st
  | inp :: rest, st =>
    runTicks CYCLEMONITOR_SAMPLE_COUNT rest (controllercycle CYCLEMONITOR_SAMPLE_COUNT st inp).st

/-! ## Predicates, abbreviations and example data used by the theorems -/

/-! ### Predicates on the control flow and frames -/

/-- A property of every way a block can end: `R` for a return, `Q` for running on. -/
def Flow.All (R : State → StickExit → Prop) (Q : Int → State → Prop) : Flow → Prop
  | Flow.returned st e => R st e
  | Flow.running v st => Q v st

/-- The settings that no tick writes: everything but the caps fed by the potentiometers,
the endpoints and the motor direction. -/
def Settings.fixed (s : Settings) : Settings :=
  { s with stick_max_accel := 0, stick_max_speed := 0, esc_direction := 0,
           pos_start := 0, pos_end := 0 }

/-- The blocks of the endpoint guard write `monitor`, the warning LED and `stick_last_value`,
nothing else. -/
def GuardFrame (st0 st : State) : Prop :=
  st.activesettings = st0.activesettings ∧ st.controllerstatus.safemode = st0.controllerstatus.safemode
  ∧ st.controllerstatus.cyclemonitor_position = st0.controllerstatus.cyclemonitor_position
  ∧ st.yalt = st0.yalt ∧ st.ealt = st0.ealt ∧ st.esum = st0.esum
  ∧ st.pos_current_old = st0.pos_current_old ∧ st.pos_target = st0.pos_target
  ∧ st.pos_target_old = st0.pos_target_old ∧ st.endpointclicks = st0.endpointclicks
  ∧ st.lastendpointswitch = st0.lastendpointswitch ∧ st.stickintegral = st0.stickintegral

/-- What `stickCycle` leaves alone: the settings no tick writes, the trace head, the PID
carry, the position target and the previous encoder reading. -/
def CycleFrame (st0 st : State) : Prop :=
  st.activesettings.fixed = st0.activesettings.fixed
  ∧ st.controllerstatus.cyclemonitor_position = st0.controllerstatus.cyclemonitor_position
  ∧ st.yalt = st0.yalt ∧ st.ealt = st0.ealt ∧ st.esum = st0.esum
  ∧ st.pos_current_old = st0.pos_current_old ∧ st.pos_target = st0.pos_target
  ∧ st.pos_target_old = st0.pos_target_old

/-- What the part of `stickCycle` after the filters leaves alone, besides `CycleFrame`:
`monitor`, the stick integral and the warning LED. -/
def TailFrame (st0 st : State) : Prop :=
  CycleFrame st0 st ∧ st.controllerstatus.monitor = st0.controllerstatus.monitor
  ∧ st.stick_last_value = st0.stick_last_value ∧ st.stickintegral = st0.stickintegral
  ∧ st.led_warn = st0.led_warn

/-! ### Example settings, states and inputs -/

/-- Example settings: ENDPOINT mode, travel range 0..1000, tolerance 50, direction +1. -/
def exampleSettings : Settings :=
  { P := 1
    I := 0
    D := 0
    stick_neutral_pos := 1500
    stick_neutral_range := 20
    stick_max_accel := 10
    stick_max_speed := 100
    stick_max_accel_safemode := 5
    stick_max_speed_safemode := 50
    esc_neutral_pos := 1500
    esc_neutral_range := 30
    esc_scale := 10
    esc_direction := 1
    pos_start := 0
    pos_end := 1000
    max_position_error := 50
    stick_speed_factor := 1
    mode := MODE_ENDPOINT
    rc_channel_speed := 0
    rc_channel_programming := 1
    rc_channel_endpoint := 2
    rc_channel_max_accel := 3
    rc_channel_max_speed := 4 }

/-- Channel readings: speed, programming switch, endpoint switch, the two potentiometers;
every other channel reads 0. -/
def channels (speed programming endpoint accel maxspeed : Nat) : Nat → Nat
  | 0 => speed
  | 1 => programming
  | 2 => endpoint
  | 3 => accel
  | 4 => maxspeed
  | _ => 0

/-- An OPERATIONAL state of the example settings whose previous encoder reading was `old`
and whose last filtered stick value was `last`. -/
def operationalState (settings : Settings) (old last : Int) : State :=
  { initState settings with
      controllerstatus :=
        { safemode := OPERATIONAL, monitor := FREE, cyclemonitor_position := 0 }
      pos_current_old := old
      stick_last_value := last }

/-- Inputs of one tick: the stick on the speed channel, the programming switch high, the
other channels without signal, and the encoder reading. -/
def stickInputs (speed : Nat) (encoder : Int) : Inputs :=
  { getDuty := channels speed 1500 0 0 0
    ENCODER_VALUE := encoder
    is1Hz := false
    HAL_GetTick := 0 }

/-- The runaway condition at the upper endpoint (line 349), endpoints taken after the
ordering self-heal. -/
def runawayUpper (st : State) (inp : Inputs) (pos brakedistance : ℚ) : Prop :=
  pos + brakedistance ≥
      (orderEndpoints st).activesettings.pos_end + st.activesettings.max_position_error
    ∧ stickSpeed st inp > 0

/-- The runaway condition at the lower endpoint (line 397), endpoints taken after the
ordering self-heal. -/
def runawayLower (st : State) (inp : Inputs) (pos brakedistance : ℚ) : Prop :=
  pos - brakedistance ≤
      (orderEndpoints st).activesettings.pos_start - st.activesettings.max_position_error
    ∧ stickSpeed st inp < 0

instance (st : State) (inp : Inputs) (pos b : ℚ) : Decidable (runawayUpper st inp pos b) := by
  unfold runawayUpper; infer_instance

instance (st : State) (inp : Inputs) (pos b : ℚ) : Decidable (runawayLower st inp pos b) := by
  unfold runawayLower; infer_instance

/-- The two ways the endpoint guard returns: the emergency brake with
`monitor = EMERGENCYBRAKE`, the hard failsafe with `monitor = ENDPOINTBRAKE`. -/
def ReturnTag (s : State) (e : StickExit) : Prop :=
  (e = emergency_brake ∧ s.controllerstatus.monitor = EMERGENCYBRAKE)
  ∨ (e = hard_failsafe ∧ s.controllerstatus.monitor = ENDPOINTBRAKE ∧ s.stick_last_value = 0)

/-- A state of the given safemode whose previous encoder reading was `old` and whose last
filtered stick value was `last`. -/
def stateIn (safemode : SAFE_MODE) (settings : Settings) (old last : Int) : State :=
  { initState settings with
      controllerstatus := { safemode := safemode, monitor := FREE, cyclemonitor_position := 0 }
      pos_current_old := old
      stick_last_value := last }

/-- Inputs of one tick with the programming switch low. -/
def programmingInputs (speed : Nat) (encoder : Int) : Inputs :=
  { getDuty := channels speed 1000 0 0 0
    ENCODER_VALUE := encoder
    is1Hz := false
    HAL_GetTick := 0 }

/-- All paths of a block keep a bound on the running value and on `stick_last_value`. -/
def Flow.Bounded (B : Int) (f : Flow) : Prop :=
  f.All (fun s _ => -B ≤ s.stick_last_value ∧ s.stick_last_value ≤ B)
    (fun v s => (-B ≤ v ∧ v ≤ B) ∧ (-B ≤ s.stick_last_value ∧ s.stick_last_value ≤ B))

/-- Inputs of one tick: speed channel and programming switch as given, no signal on the
other channels. -/
def tickInputs (speed programming : Nat) (encoder : Int) : Inputs :=
  { getDuty := channels speed programming 0 0 0
    ENCODER_VALUE := encoder
    is1Hz := false
    HAL_GetTick := 0 }

/-- Inputs of a tick without any RC signal: every channel reads duty 0. -/
def noSignal (encoder : Int) : Inputs :=
  { getDuty := fun _ => 0
    ENCODER_VALUE := encoder
    is1Hz := false
    HAL_GetTick := 0 }

/-- A tick without RC signal: every channel reads duty 0. -/
def Inputs.noFrame (inp : Inputs) : Prop := ∀ channel, inp.getDuty channel = 0

/-- The carry state of C8: the settings are the given ones, the controller is not
OPERATIONAL, and the stick value, the position target, the PID sums and the previous
encoder reading are 0. -/
def Idle (settings : Settings) (st : State) : Prop :=
  st.activesettings = settings ∧ st.controllerstatus.safemode ≠ OPERATIONAL
  ∧ st.stick_last_value = 0 ∧ st.pos_target = 0 ∧ st.pos_target_old = 0
  ∧ st.esum = 0 ∧ st.ealt = 0 ∧ st.pos_current_old = 0

/-- The ramp of the upper endpoint brake (lines 324-328): one step `A` toward neutral, not
crossing zero. -/
def rampUpper (last A dir : Int) : Int :=
  if (last - A * dir) * dir < 0 then 0 else last - A * dir

/-- The ramp of the lower endpoint brake (lines 372-376). -/
def rampLower (last A dir : Int) : Int :=
  if (last + A * dir) * dir > 0 then 0 else last + A * dir

/-- The local `value` of `stickCycle` after the acceleration and the speed limiter. -/
def clampedValue (st : State) (inp : Inputs) : Int :=
  limited (stickStart st inp).2 (stickStart st inp).1

/-! ### Endpoint programming -/

/-- The condition under which the endpoint-switch block sets an endpoint (line 460): a
rising edge of the endpoint switch while the safemode is PROGRAMMING. -/
def endpointClick (st : State) (inp : Inputs) : Prop :=
  getEndPointSwitch st inp > 1200 ∧ st.controllerstatus.safemode = PROGRAMMING
    ∧ st.lastendpointswitch ≤ 1200 ∧ st.lastendpointswitch ≠ 0

instance (st : State) (inp : Inputs) : Decidable (endpointClick st inp) := by
  unfold endpointClick; infer_instance

/-- The same condition seen from the entry of a `stickCycle` call that runs to completion:
the programming switch of this call is not above 1200 (so the safemode is PROGRAMMING when
the endpoint switch is evaluated) and the endpoint switch has a rising edge. -/
def clickAccepted (st : State) (inp : Inputs) : Prop :=
  getEndPointSwitch st inp > 1200 ∧ ¬ getProgrammingSwitch st inp > 1200
    ∧ st.lastendpointswitch ≤ 1200 ∧ st.lastendpointswitch ≠ 0

instance (st : State) (inp : Inputs) : Decidable (clickAccepted st inp) := by
  unfold clickAccepted; infer_instance

/-- The condition under which `stickCycle` runs the endpoint guard (lines 225, 274). -/
def guardActive (st : State) : Prop :=
  st.controllerstatus.safemode = OPERATIONAL
    ∧ st.activesettings.mode ≠ MODE_PASSTHROUGH ∧ st.activesettings.mode ≠ MODE_LIMITER

instance (st : State) : Decidable (guardActive st) := by
  unfold guardActive; infer_instance

/-- The state after the ordering self-heal, which runs when the endpoint guard does. -/
def selfHealed (st : State) : State :=
  if guardActive st then orderEndpoints st else st

/-- The value of `endpointclicks` after the programming-switch evaluation (lines 432-451) of
a call entered in state `st`. -/
def clicksAfterSwitch (st : State) (inp : Inputs) : Int :=
  if ¬ getProgrammingSwitch st inp > 1200 ∧ st.controllerstatus.safemode ≠ PROGRAMMING then 0
  else st.endpointclicks

/-- Inputs of one tick during endpoint programming: stick in neutral (1500), programming
switch low (1000), the endpoint switch and the encoder as given. -/
def clickInputs (endpoint : Nat) (encoder : Int) : Inputs :=
  { getDuty := channels 1500 1000 endpoint 0 0
    ENCODER_VALUE := encoder
    is1Hz := false
    HAL_GetTick := 0 }

/-- The state a call of `stickCycle` is in when its filters are done, relative to the entry
state `st`: the settings are those after the self-heal, `endpointclicks` and
`lastendpointswitch` are untouched, and the safemode is PROGRAMMING exactly if it was. -/
def AfterFilters (st s : State) : Prop :=
  s.activesettings = (selfHealed st).activesettings
  ∧ s.endpointclicks = st.endpointclicks
  ∧ s.lastendpointswitch = st.lastendpointswitch
  ∧ (s.controllerstatus.safemode = PROGRAMMING ↔ st.controllerstatus.safemode = PROGRAMMING)
  ∧ (s.controllerstatus.safemode = OPERATIONAL ↔ st.controllerstatus.safemode = OPERATIONAL)

/-- The endpoints and the click counter `(pos_start, pos_end, endpointclicks)` that a call of
`stickCycle` entered in state `st` leaves when it runs to completion: those after the
self-heal and the programming-switch evaluation, updated by an accepted click at the
encoder position. -/
def programmedEndpoints (st : State) (inp : Inputs) : ℚ × ℚ × Int :=
  let h := (selfHealed st).activesettings
  let c := clicksAfterSwitch st inp
  let p : ℚ := (int32 inp.ENCODER_VALUE : Int)
  if clickAccepted st inp then
    if c = 0 then (p, h.pos_end, 1)
    else if h.pos_start < p then (h.pos_start, p, c)
    else (p, h.pos_start, c)
  else (h.pos_start, h.pos_end, c)

/-- A PROGRAMMING state of the given settings with the endpoint switch released on the
previous tick (`lastendpointswitch = 1000`) and the given click counter. -/
def armedForClick (settings : Settings) (clicks : Int) : State :=
  { stateIn PROGRAMMING settings 0 0 with
      lastendpointswitch := 1000
      endpointclicks := clicks }

/-! ### Reference functions that follow the words of the spec -/

/-- The reference dead-band function of the spec (section 4.3, steps 1 to 3), over unbounded
integers: `d` is the duty of the speed channel, `N` the neutral position and `R` the neutral
range. A duty of 0 (no valid frame) gives 0; in the startup safemodes a stick outside the
neutral range gives 0; otherwise the neutral range is removed from `raw = d - N`. -/
def deadbandReference (safemode : SAFE_MODE) (d N R : Int) : Int :=
  if d = 0 then 0
  else if (safemode = INVALID_RC ∨ safemode = NOT_NEUTRAL_AT_STARTUP) ∧ |d - N| > R then 0
  else if d - N > R then d - N - R
  else if d - N < -R then d - N + R
  else 0

/-- The startup-gate case of the spec: a valid frame with the stick outside the neutral
range while the safemode is INVALID_RC or NOT_NEUTRAL_AT_STARTUP. -/
def startupGate (safemode : SAFE_MODE) (d N R : Int) : Prop :=
  d ≠ 0 ∧ (safemode = INVALID_RC ∨ safemode = NOT_NEUTRAL_AT_STARTUP) ∧ |d - N| > R

instance (safemode : SAFE_MODE) (d N R : Int) : Decidable (startupGate safemode d N R) := by
  unfold startupGate; infer_instance

/-- The ramp of the spec (section 8, convergence of the ramp): after `k` ticks the filtered
value is `sign(v) * min(|v|, k * A)`. -/
def rampReference (v A : Int) (k : Nat) : Int :=
  Int.sign v * min |v| ((k : Int) * A)

/-- A tick of a steady run that started in state `st`: the speed channel delivers the
dead-banded, scaled value `v`, the programming switch agrees with the safemode of `st`, and
the potentiometer channels do not write the caps (no frame, or not above the threshold
`stick_neutral_pos + stick_neutral_range`). -/
def Held (st : State) (v : Int) (inp : Inputs) : Prop :=
  (stickStart st inp).1 = v
  ∧ (getProgrammingSwitch st inp > 1200 ↔ st.controllerstatus.safemode = OPERATIONAL)
  ∧ ¬(getMaxAccelPoti st inp ≠ 0 ∧ getMaxAccelPoti st inp
        > st.activesettings.stick_neutral_pos + st.activesettings.stick_neutral_range)
  ∧ ¬(getMaxSpeedPoti st inp ≠ 0 ∧ getMaxSpeedPoti st inp
        > st.activesettings.stick_neutral_pos + st.activesettings.stick_neutral_range)

instance (st : State) (v : Int) (inp : Inputs) : Decidable (Held st v inp) := by
  unfold Held; infer_instance

/-- State `s` has the caps and the fixed settings of state `st`. -/
def CapsKept (st s : State) : Prop :=
  s.activesettings.fixed = st.activesettings.fixed
  ∧ s.activesettings.stick_max_accel = st.activesettings.stick_max_accel
  ∧ s.activesettings.stick_max_speed = st.activesettings.stick_max_speed

/-- The invariant of a steady run from `st`: caps, fixed settings and safemode as in `st`,
and `stick_last_value` on the ramp after `k` ticks. -/
def Steady (st : State) (v A : Int) (s : State) (k : Nat) : Prop :=
  CapsKept st s ∧ s.controllerstatus.safemode = st.controllerstatus.safemode
  ∧ s.stick_last_value = rampReference v A k

/-- The example settings in LIMITER mode. -/
def limiterSettings : Settings :=
  { exampleSettings with mode := MODE_LIMITER }

/-! ### The position loop -/

/-- The local `pos` of `controllercycle`: the encoder count `pos_current` as a double. -/
def encoderPos (inp : Inputs) : ℚ := ((int32 inp.ENCODER_VALUE : Int) : ℚ)

/-- The target of the position loop after the stick advance and the endpoint clamp
(lines 633-648); `st` is the state after `stickCycle`. -/
def advancedTarget (st : State) (stick_filtered_value : Int) : ℚ :=
  let s := st.activesettings
  let target := st.pos_target + (stick_filtered_value : ℚ) * s.stick_speed_factor
  if st.controllerstatus.safemode = OPERATIONAL then
    if target > s.pos_end then s.pos_end
    else if target < s.pos_start then s.pos_start
    else target
  else target

/-- The local `e` of the position loop (line 657): target minus position. -/
def trackingError (st : State) (pos : ℚ) (stick_filtered_value : Int) : ℚ :=
  advancedTarget st stick_filtered_value - pos

/-- The local `y` of the position loop (line 670), from the error `e` and the PID carry of
the state. -/
def pidOutput (st : State) (e : ℚ) : ℚ :=
  (st.activesettings.P * e) + (st.activesettings.I * Ta * (st.esum + e))
    + (st.activesettings.D / Ta) * (e - st.ealt)

/-- The target of a tick in ABSOLUTE_POSITION mode, after the stick advance and the clamp. -/
def tickTarget (st : State) (inp : Inputs) : ℚ :=
  advancedTarget (tickStick st inp).st (tickStick st inp).value

/-- The error `e` of a tick in ABSOLUTE_POSITION mode. -/
def tickError (st : State) (inp : Inputs) : ℚ :=
  trackingError (tickStick st inp).st (encoderPos inp) (tickStick st inp).value

/-- The example settings in ABSOLUTE_POSITION mode. -/
def absoluteSettings : Settings :=
  { exampleSettings with mode := MODE_ABSOLUTE_POSITION }

/-- A state of the given safemode that tracks `target` while the encoder stood at `encoder`
on the previous tick; the PID carry and the last stick value are 0. -/
def trackingState (safemode : SAFE_MODE) (settings : Settings) (target : ℚ) (encoder : Int) :
    State :=
  { stateIn safemode settings encoder 0 with
      pos_target := target
      pos_target_old := target }

/-- Whether a tick logs a sample (line 716): the encoder moved or the ESC command is not 0. -/
def tickActive (CYCLEMONITOR_SAMPLE_COUNT : Nat) (st : State) (inp : Inputs) : Prop :=
  (controllercycle CYCLEMONITOR_SAMPLE_COUNT st inp).speed_current ≠ 0
    ∨ (controllercycle CYCLEMONITOR_SAMPLE_COUNT st inp).esc_output ≠ 0

instance (n : Nat) (st : State) (inp : Inputs) : Decidable (tickActive n st inp) := by
  unfold tickActive; infer_instance

/-- An OPERATIONAL example state whose trace head stands at `position`. -/
def tracingState (position : Nat) (old : Int) : State :=
  { initState exampleSettings with
      controllerstatus :=
        { safemode := OPERATIONAL, monitor := FREE, cyclemonitor_position := position }
      pos_current_old := old }

/-- What the filters of a call entered in state `st` hand to the part after them, besides the
endpoints: the fixed settings, the caps, the motor direction, the click counter and the edge
memory of `st`, and the safemode and the stick integral that `stickStart` left. -/
def BeforeTail (st : State) (inp : Inputs) (s : State) : Prop :=
  CapsKept st s
  ∧ s.activesettings.esc_direction = st.activesettings.esc_direction
  ∧ s.stickintegral = (stickStart st inp).2.stickintegral
  ∧ s.controllerstatus.safemode = (stickStart st inp).2.controllerstatus.safemode
  ∧ s.endpointclicks = st.endpointclicks
  ∧ s.lastendpointswitch = st.lastendpointswitch

/-- Inputs of one tick with a reading on every channel. -/
def channelInputs (speed programming endpoint accel maxspeed : Nat) (encoder : Int) : Inputs :=
  { getDuty := channels speed programming endpoint accel maxspeed
    ENCODER_VALUE := encoder
    is1Hz := false
    HAL_GetTick := 0 }

/-- Every tick of the run from `st` leaves `stickCycle` through a failsafe return. -/
def allFailsafe (CYCLEMONITOR_SAMPLE_COUNT : Nat) : List Inputs → State → Prop
  | [], _ => True
  | inp :: rest, st =>
    (tickStick st inp).exit ≠ completed
      ∧ allFailsafe CYCLEMONITOR_SAMPLE_COUNT rest
          (controllercycle CYCLEMONITOR_SAMPLE_COUNT st inp).st

instance instDecidableAllFailsafe (n : Nat) :
    (ticks : List Inputs) → (st : State) → Decidable (allFailsafe n ticks st)
  | [], _ => isTrue trivial
  | inp :: rest, st =>
    match instDecidableAllFailsafe n rest (controllercycle n st inp).st with
    | isTrue h =>
      if hr : (tickStick st inp).exit ≠ completed then isTrue ⟨hr, h⟩
      else isFalse (fun hh => hr hh.1)
    | isFalse h => isFalse (fun hh => h hh.2)

/-- The state `st` at another place: other endpoints, another tolerance and another previous
encoder reading, everything else as in `st`. -/
def relocated (st : State) (pos_start pos_end max_position_error : ℚ) (pos_current_old : Int) :
    State :=
  { st with
      activesettings :=
        { st.activesettings with
            pos_start := pos_start
            pos_end := pos_end
            max_position_error := max_position_error }
      pos_current_old := pos_current_old }

/-- The inputs `inp` with another encoder reading. -/
def atEncoder (inp : Inputs) (encoder : Int) : Inputs :=
  { inp with ENCODER_VALUE := encoder }

/-- The example settings with the largest acceleration cap an `int16_t` holds. -/
def steepSettings : Settings :=
  { exampleSettings with stick_max_accel := 32767 }

/-- The three ticks of the stale edge memory: a tick that completes with the endpoint switch
released (1000), a tick beyond `pos_end` with the stick forward and the endpoint switch
pressed (1800), and a tick with the stick in neutral, the programming switch low and the
endpoint switch still pressed. -/
def staleClickTicks : List Inputs :=
  [channelInputs 1500 1500 1000 0 0 1055, channelInputs 1700 1500 1800 0 0 1060,
    channelInputs 1500 1000 1800 0 0 1060]

/-! # Theorems -/

/-! ## Basic facts about the machine integers -/

theorem int16_one : int16 1 = 1 := by decide

theorem int16_neg_one : int16 (-1) = -1 := by decide

theorem int16_zero : int16 0 = 0 := by decide

theorem int16_of_fits (x : Int) (h1 : -32768 ≤ x) (h2 : x ≤ 32767) : int16 x = x := by
  unfold int16; omega

theorem int16_lower (x : Int) : -32768 ≤ int16 x := by
  unfold int16; omega

theorem int16_upper (x : Int) : int16 x ≤ 32767 := by
  unfold int16; omega

theorem Flow.All.andThen {R : State → StickExit → Prop} {Q Q2 : Int → State → Prop}
    {f : Flow} {k : Int → State → Flow}
    (hf : f.All R Q) (hk : ∀ v st, Q v st → (k v st).All R Q2) :
    (f.andThen k).All R Q2 := by
  cases f with
  | returned st e => exact hf
  | running v st => exact hk v st hf

theorem Flow.All.mono {R R2 : State → StickExit → Prop} {Q Q2 : Int → State → Prop}
    {f : Flow} (hf : f.All R Q) (hR : ∀ st e, R st e → R2 st e)
    (hQ : ∀ v st, Q v st → Q2 v st) : f.All R2 Q2 := by
  cases f with
  | returned st e => exact hR st e hf
  | running v st => exact hQ v st hf

/-! ## Frame properties -/

theorem getStickPositionRaw_state (st : State) (inp : Inputs) :
    (getStickPositionRaw st inp).2 = st ∨
    (st.controllerstatus.safemode = INVALID_RC ∧
      (getStickPositionRaw st inp).2 = { st with controllerstatus :=
        { st.controllerstatus with safemode := NOT_NEUTRAL_AT_STARTUP } }) := by
  simp only [getStickPositionRaw]
  split_ifs <;> simp_all

theorem stickStart_activesettings (st : State) (inp : Inputs) :
    (stickStart st inp).2.activesettings = st.activesettings := by
  rcases getStickPositionRaw_state st inp with h | ⟨_, h⟩ <;> simp [stickStart, h]

theorem stickStart_stick_last_value (st : State) (inp : Inputs) :
    (stickStart st inp).2.stick_last_value = st.stick_last_value := by
  rcases getStickPositionRaw_state st inp with h | ⟨_, h⟩ <;> simp [stickStart, h]

theorem stickStart_monitor (st : State) (inp : Inputs) :
    (stickStart st inp).2.controllerstatus.monitor = st.controllerstatus.monitor := by
  rcases getStickPositionRaw_state st inp with h | ⟨_, h⟩ <;> simp [stickStart, h]

theorem stickStart_safemode_operational (st : State) (inp : Inputs)
    (h : st.controllerstatus.safemode = OPERATIONAL) :
    (stickStart st inp).2.controllerstatus.safemode = OPERATIONAL := by
  rcases getStickPositionRaw_state st inp with h1 | ⟨h1, _⟩
  · simp [stickStart, h1, h]
  · rw [h] at h1; exact absurd h1 (by decide)

theorem stickStart_safemode_not_operational (st : State) (inp : Inputs)
    (h : st.controllerstatus.safemode ≠ OPERATIONAL) :
    (stickStart st inp).2.controllerstatus.safemode ≠ OPERATIONAL := by
  rcases getStickPositionRaw_state st inp with h1 | ⟨_, h1⟩
  · simpa [stickStart, h1] using h
  · simp [stickStart, h1]

theorem stickStart_maxaccel (st : State) (inp : Inputs) :
    maxaccel (stickStart st inp).2 = maxaccel st := by
  unfold maxaccel
  rw [stickStart_activesettings]
  by_cases h : st.controllerstatus.safemode = OPERATIONAL
  · simp [stickStart_safemode_operational st inp h, h]
  · simp [stickStart_safemode_not_operational st inp h, h]

theorem stickStart_maxspeed (st : State) (inp : Inputs) :
    maxspeed (stickStart st inp).2 = maxspeed st := by
  unfold maxspeed
  rw [stickStart_activesettings]
  by_cases h : st.controllerstatus.safemode = OPERATIONAL
  · simp [stickStart_safemode_operational st inp h, h]
  · simp [stickStart_safemode_not_operational st inp h, h]

theorem orderEndpoints_fixed (st : State) :
    (orderEndpoints st).activesettings.fixed = st.activesettings.fixed := by
  unfold orderEndpoints; split_ifs <;> rfl

theorem orderEndpoints_esc_direction (st : State) :
    (orderEndpoints st).activesettings.esc_direction = st.activesettings.esc_direction := by
  unfold orderEndpoints; split_ifs <;> rfl

theorem orderEndpoints_max_position_error (st : State) :
    (orderEndpoints st).activesettings.max_position_error
      = st.activesettings.max_position_error := by
  unfold orderEndpoints; split_ifs <;> rfl

theorem orderEndpoints_stick_last_value (st : State) :
    (orderEndpoints st).stick_last_value = st.stick_last_value := by
  unfold orderEndpoints; split_ifs <;> rfl

theorem orderEndpoints_controllerstatus (st : State) :
    (orderEndpoints st).controllerstatus = st.controllerstatus := by
  unfold orderEndpoints; split_ifs <;> rfl

theorem orderEndpoints_ordered (st : State) :
    (orderEndpoints st).activesettings.pos_start ≤ (orderEndpoints st).activesettings.pos_end := by
  unfold orderEndpoints; split_ifs with h
  · exact le_of_lt h
  · exact not_lt.mp h

theorem orderEndpoints_of_ordered (st : State)
    (h : st.activesettings.pos_start ≤ st.activesettings.pos_end) : orderEndpoints st = st := by
  unfold orderEndpoints; rw [if_neg (not_lt.mpr h)]

theorem upperEndpoint_frame (A speed : Int) (pos b : ℚ) (v : Int) (st : State) :
    (upperEndpoint A speed pos b v st).All (fun s _ => GuardFrame st s)
      (fun _ s => GuardFrame st s ∧ s.stick_last_value = st.stick_last_value) := by
  simp only [upperEndpoint, upperEmergency]
  split_ifs <;> simp [Flow.All, GuardFrame]

theorem lowerEndpoint_frame (A speed : Int) (pos b : ℚ) (v : Int) (st : State) :
    (lowerEndpoint A speed pos b v st).All (fun s _ => GuardFrame st s)
      (fun _ s => GuardFrame st s ∧ s.stick_last_value = st.stick_last_value) := by
  simp only [lowerEndpoint, lowerEmergency]
  split_ifs <;> simp [Flow.All, GuardFrame]

theorem CycleFrame.same (st : State) : CycleFrame st st := by
  simp [CycleFrame]

theorem CycleFrame.trans {a b c : State} (h1 : CycleFrame a b) (h2 : CycleFrame b c) :
    CycleFrame a c := by
  simp only [CycleFrame] at *
  simp_all

theorem GuardFrame.cycleFrame {a b : State} (h : GuardFrame a b) : CycleFrame a b := by
  simp only [GuardFrame, CycleFrame] at *
  simp_all

theorem orderEndpoints_cycleFrame (st : State) : CycleFrame st (orderEndpoints st) := by
  simp only [orderEndpoints]; split_ifs <;> simp [CycleFrame, Settings.fixed]

theorem stickStart_cycleFrame (st : State) (inp : Inputs) :
    CycleFrame st (stickStart st inp).2 := by
  rcases getStickPositionRaw_state st inp with h | ⟨_, h⟩ <;> simp [stickStart, h, CycleFrame]

theorem TailFrame.comp {a b c : State} (h1 : TailFrame a b) (h2 : TailFrame b c) :
    TailFrame a c := by
  simp only [TailFrame, CycleFrame] at *
  simp_all

theorem programmingSwitch_tailFrame (st : State) (inp : Inputs) :
    TailFrame st (programmingSwitch st inp) := by
  simp only [programmingSwitch]; split_ifs <;> simp [TailFrame, CycleFrame]

theorem endPointSwitch_tailFrame (st : State) (inp : Inputs) :
    TailFrame st (endPointSwitch st inp) := by
  simp only [endPointSwitch]; split_ifs <;> simp [TailFrame, CycleFrame, Settings.fixed]

theorem maxAccelPoti_tailFrame (st : State) (inp : Inputs) :
    TailFrame st (maxAccelPoti st inp) := by
  simp only [maxAccelPoti]; split_ifs <;> simp [TailFrame, CycleFrame, Settings.fixed]

theorem maxSpeedPoti_tailFrame (st : State) (inp : Inputs) :
    TailFrame st (maxSpeedPoti st inp) := by
  simp only [maxSpeedPoti]; split_ifs <;> simp [TailFrame, CycleFrame, Settings.fixed]

theorem guessDirection_tailFrame (st : State) (pos : ℚ) :
    TailFrame st (guessDirection st pos) := by
  simp only [guessDirection]; split_ifs <;> simp [TailFrame, CycleFrame, Settings.fixed]

theorem stickTail_tailFrame (inp : Inputs) (pos : ℚ) (value : Int) (st : State) :
    TailFrame { st with stick_last_value := value } (stickTail inp pos value st) := by
  unfold stickTail
  exact (((programmingSwitch_tailFrame _ inp).comp (endPointSwitch_tailFrame _ inp)).comp
    ((maxAccelPoti_tailFrame _ inp).comp (maxSpeedPoti_tailFrame _ inp))).comp
    (guessDirection_tailFrame _ pos)

theorem stickTail_stick_last_value (inp : Inputs) (pos : ℚ) (value : Int) (st : State) :
    (stickTail inp pos value st).stick_last_value = value :=
  (stickTail_tailFrame inp pos value st).2.2.1

theorem stickTail_monitor (inp : Inputs) (pos : ℚ) (value : Int) (st : State) :
    (stickTail inp pos value st).controllerstatus.monitor = st.controllerstatus.monitor :=
  (stickTail_tailFrame inp pos value st).2.1

theorem stickTail_cycleFrame (inp : Inputs) (pos : ℚ) (value : Int) (st : State) :
    CycleFrame st (stickTail inp pos value st) := by
  have h := (stickTail_tailFrame inp pos value st).1
  simp only [CycleFrame] at *
  exact h

/-- The endpoint guard keeps `CycleFrame` on every path. -/
theorem endpointGuard_frame (A speed : Int) (pos b : ℚ) (v : Int) (st : State) :
    (endpointGuard A speed pos b v st).All (fun s _ => CycleFrame st s)
      (fun _ s => CycleFrame st s) := by
  unfold endpointGuard
  split_ifs
  · refine Flow.All.andThen (Q := fun _ s => CycleFrame st s) ?_ ?_
    · exact (upperEndpoint_frame A speed pos b v (orderEndpoints st)).mono
        (fun s _ h => (orderEndpoints_cycleFrame st).trans h.cycleFrame)
        (fun _ s h => (orderEndpoints_cycleFrame st).trans h.1.cycleFrame)
    · intro w s hs
      exact (lowerEndpoint_frame A speed pos b w s).mono
        (fun s2 _ h => hs.trans h.cycleFrame) (fun _ s2 h => hs.trans h.1.cycleFrame)
  · exact CycleFrame.same st

theorem stickFilter_frame (speed : Int) (pos b : ℚ) (v : Int) (st : State) :
    (stickFilter speed pos b v st).All (fun s _ => CycleFrame st s)
      (fun _ s => CycleFrame st s) := by
  unfold stickFilter
  split_ifs
  · exact endpointGuard_frame _ _ _ _ _ _
  · exact CycleFrame.same st

/-- A property of `stickCycle` follows from the property of its filters on each path. -/
theorem stickCycle_of_filter (st : State) (inp : Inputs) (pos b : ℚ)
    (P : StickResult → Prop)
    (h : (stickFilter (stickSpeed st inp) pos b (stickStart st inp).1 (stickStart st inp).2).All
      (fun s e => P { value := 0, st := s, exit := e })
      (fun v s => P { value := v, st := stickTail inp pos v s, exit := completed })) :
    P (stickCycle st inp pos b) := by
  unfold stickCycle
  simp only []
  cases hf : stickFilter (stickSpeed st inp) pos b (stickStart st inp).1 (stickStart st inp).2 with
  | returned s e => rw [hf] at h; exact h
  | running v s => rw [hf] at h; exact h

theorem resetMonitor_cycleFrame (st : State) : CycleFrame st (resetMonitor st) := by
  simp [CycleFrame, resetMonitor]

theorem resetMonitor_activesettings (st : State) :
    (resetMonitor st).activesettings = st.activesettings := rfl

theorem resetMonitor_safemode (st : State) :
    (resetMonitor st).controllerstatus.safemode = st.controllerstatus.safemode := rfl

theorem resetMonitor_stick_last_value (st : State) :
    (resetMonitor st).stick_last_value = st.stick_last_value := rfl

theorem stickCycle_cycleFrame (st : State) (inp : Inputs) (pos b : ℚ) :
    CycleFrame st (stickCycle st inp pos b).st := by
  apply stickCycle_of_filter st inp pos b (fun r => CycleFrame st r.st)
  exact (stickFilter_frame _ pos b _ _).mono
    (fun s _ h => (stickStart_cycleFrame st inp).trans h)
    (fun v s h => ((stickStart_cycleFrame st inp).trans h).trans (stickTail_cycleFrame inp pos v s))

theorem CycleFrame.mode {a b : State} (h : CycleFrame a b) :
    b.activesettings.mode = a.activesettings.mode := by
  show b.activesettings.fixed.mode = a.activesettings.fixed.mode
  rw [h.1]

theorem CycleFrame.esc_neutral_pos {a b : State} (h : CycleFrame a b) :
    b.activesettings.esc_neutral_pos = a.activesettings.esc_neutral_pos := by
  show b.activesettings.fixed.esc_neutral_pos = a.activesettings.fixed.esc_neutral_pos
  rw [h.1]

/-! ## Sign of the filtered value at an overshot endpoint -/

theorem upperEndpoint_overshot_sign (A speed : Int) (pos b : ℚ) (v : Int) (st : State)
    (hdir : st.activesettings.esc_direction = 1 ∨ st.activesettings.esc_direction = -1)
    (hb : 0 ≤ b) (hpos : pos ≥ st.activesettings.pos_end) :
    (upperEndpoint A speed pos b v st).All (fun _ _ => True)
      (fun w s => st.activesettings.esc_direction * w ≤ 0 ∧ GuardFrame st s) := by
  have hpb : pos + b ≥ st.activesettings.pos_end := by linarith
  simp only [upperEndpoint, upperEmergency, if_pos hpb, if_pos hpos]
  rcases hdir with hd | hd <;> rw [hd] <;> simp only [int16_one, int16_neg_one]
    <;> split_ifs <;> simp [Flow.All, GuardFrame] <;> omega

theorem lowerEndpoint_keeps_nonpos (A speed : Int) (pos b : ℚ) (v : Int) (st : State)
    (hdir : st.activesettings.esc_direction = 1 ∨ st.activesettings.esc_direction = -1)
    (h : st.activesettings.esc_direction * v ≤ 0) :
    (lowerEndpoint A speed pos b v st).All (fun _ _ => True)
      (fun w _ => st.activesettings.esc_direction * w ≤ 0) := by
  simp only [lowerEndpoint, lowerEmergency]
  rcases hdir with hd | hd <;> rw [hd] at h ⊢ <;> simp only [int16_one, int16_neg_one]
    <;> split_ifs <;> simp only [Flow.All] <;> omega

theorem lowerEndpoint_overshot_sign (A speed : Int) (pos b : ℚ) (v : Int) (st : State)
    (hdir : st.activesettings.esc_direction = 1 ∨ st.activesettings.esc_direction = -1)
    (hb : 0 ≤ b) (hpos : pos ≤ st.activesettings.pos_start) :
    (lowerEndpoint A speed pos b v st).All (fun _ _ => True)
      (fun w _ => 0 ≤ st.activesettings.esc_direction * w) := by
  have hpb : pos - b ≤ st.activesettings.pos_start := by linarith
  simp only [lowerEndpoint, lowerEmergency, if_pos hpb, if_pos hpos]
  rcases hdir with hd | hd <;> rw [hd] <;> simp only [int16_one, int16_neg_one]
    <;> split_ifs <;> simp [Flow.All] <;> omega

theorem abs_d_nonneg (v : ℚ) : 0 ≤ abs_d v := by
  unfold abs_d; split_ifs with h
  · linarith
  · exact not_lt.mp h

theorem distanceToStop_nonneg (st : State) (inp : Inputs) : 0 ≤ distanceToStop st inp := by
  simp only [distanceToStop, speedCurrent]
  exact div_nonneg (mul_nonneg (abs_d_nonneg _) (abs_d_nonneg _)) (by norm_num)

/-- The endpoint guard is what `stickFilter` runs in OPERATIONAL safemode and a bounded
mode. -/
theorem stickFilter_bounded (st : State) (inp : Inputs) (pos b : ℚ)
    (hsafe : st.controllerstatus.safemode = OPERATIONAL)
    (hmode : st.activesettings.mode = MODE_ENDPOINT
      ∨ st.activesettings.mode = MODE_ABSOLUTE_POSITION) :
    stickFilter (stickSpeed st inp) pos b (stickStart st inp).1 (stickStart st inp).2
      = (upperEndpoint (maxaccel st) (stickSpeed st inp) pos b
          (limited (stickStart st inp).2 (stickStart st inp).1)
          (orderEndpoints (stickStart st inp).2)).andThen
        (lowerEndpoint (maxaccel st) (stickSpeed st inp) pos b) := by
  have h1 := stickStart_safemode_operational st inp hsafe
  have h2 := stickStart_activesettings st inp
  have hm : (stickStart st inp).2.activesettings.mode ≠ MODE_PASSTHROUGH
      ∧ (stickStart st inp).2.activesettings.mode ≠ MODE_LIMITER := by
    rw [h2]; rcases hmode with h | h <;> rw [h] <;> exact ⟨by decide, by decide⟩
  simp only [stickFilter, endpointGuard, if_pos hm.1, if_pos (And.intro h1 hm), stickStart_maxaccel]

theorem pwm_zero (s : Settings) : pwm s 0 = s.esc_neutral_pos := by
  simp [pwm]

theorem outputStage_endpoint (st : State) (inp : Inputs) (pos : ℚ) (v : Int)
    (hmode : st.activesettings.mode = MODE_ENDPOINT) : outputStage st inp pos v = (v, st) := by
  simp [outputStage, hmode]

theorem tickStick_cycleFrame (st : State) (inp : Inputs) :
    CycleFrame st (tickStick st inp).st := by
  unfold tickStick
  exact (resetMonitor_cycleFrame st).trans (stickCycle_cycleFrame _ inp _ _)

/-- In ENDPOINT mode the ESC command is the value `stickCycle` returns and the PWM is its
image under the PWM mapping. -/
theorem controllercycle_endpoint (n : Nat) (st : State) (inp : Inputs)
    (hmode : st.activesettings.mode = MODE_ENDPOINT) :
    (controllercycle n st inp).esc_output = (tickStick st inp).value
    ∧ (controllercycle n st inp).TIM3_CCR3
        = pwm (tickStick st inp).st.activesettings (tickStick st inp).value
    ∧ (controllercycle n st inp).st.controllerstatus.monitor
        = (tickStick st inp).st.controllerstatus.monitor := by
  have hm : (tickStick st inp).st.activesettings.mode = MODE_ENDPOINT := by
    rw [(tickStick_cycleFrame st inp).mode, hmode]
  simp only [controllercycle, outputStage_endpoint _ inp _ _ hm]
  refine ⟨trivial, trivial, ?_⟩
  split_ifs <;> rfl

theorem endpointGuard_overshot_upper (A speed : Int) (pos b : ℚ) (v : Int) (st : State)
    (hdir : st.activesettings.esc_direction = 1 ∨ st.activesettings.esc_direction = -1)
    (hb : 0 ≤ b) (hpos : pos ≥ st.activesettings.pos_end) :
    ((upperEndpoint A speed pos b v st).andThen (lowerEndpoint A speed pos b)).All
      (fun _ _ => True) (fun w _ => st.activesettings.esc_direction * w ≤ 0) := by
  refine Flow.All.andThen (upperEndpoint_overshot_sign A speed pos b v st hdir hb hpos) ?_
  intro w s hs
  have ha : s.activesettings = st.activesettings := hs.2.1
  have := lowerEndpoint_keeps_nonpos A speed pos b w s (by rw [ha]; exact hdir)
    (by rw [ha]; exact hs.1)
  rw [ha] at this
  exact this

theorem endpointGuard_overshot_lower (A speed : Int) (pos b : ℚ) (v : Int) (st : State)
    (hdir : st.activesettings.esc_direction = 1 ∨ st.activesettings.esc_direction = -1)
    (hb : 0 ≤ b) (hpos : pos ≤ st.activesettings.pos_start) :
    ((upperEndpoint A speed pos b v st).andThen (lowerEndpoint A speed pos b)).All
      (fun _ _ => True) (fun w _ => 0 ≤ st.activesettings.esc_direction * w) := by
  refine Flow.All.andThen
    ((upperEndpoint_frame A speed pos b v st).mono (fun _ _ _ => trivial) (fun _ _ h => h.1)) ?_
  intro w s hs
  have ha : s.activesettings = st.activesettings := hs.1
  have := lowerEndpoint_overshot_sign A speed pos b w s (by rw [ha]; exact hdir) hb
    (by rw [ha]; exact hpos)
  rw [ha] at this
  exact this

/-- C1, at the level of `stickCycle`: past an endpoint, the returned value is zero or points
back into the range. -/
theorem stickCycle_overshot (st : State) (inp : Inputs) (pos b : ℚ)
    (hsafe : st.controllerstatus.safemode = OPERATIONAL)
    (hmode : st.activesettings.mode = MODE_ENDPOINT
      ∨ st.activesettings.mode = MODE_ABSOLUTE_POSITION)
    (hdir : st.activesettings.esc_direction = 1 ∨ st.activesettings.esc_direction = -1)
    (hord : st.activesettings.pos_start ≤ st.activesettings.pos_end) (hb : 0 ≤ b) :
    (pos ≥ st.activesettings.pos_end →
      st.activesettings.esc_direction * (stickCycle st inp pos b).value ≤ 0)
    ∧ (pos ≤ st.activesettings.pos_start →
      0 ≤ st.activesettings.esc_direction * (stickCycle st inp pos b).value) := by
  have h2 := stickStart_activesettings st inp
  have hord2 : orderEndpoints (stickStart st inp).2 = (stickStart st inp).2 :=
    orderEndpoints_of_ordered _ (by rw [h2]; exact hord)
  constructor
  · intro hpos
    apply stickCycle_of_filter st inp pos b
      (fun r => st.activesettings.esc_direction * r.value ≤ 0)
    rw [stickFilter_bounded st inp pos b hsafe hmode, hord2]
    have := endpointGuard_overshot_upper (maxaccel st) (stickSpeed st inp) pos b
      (limited (stickStart st inp).2 (stickStart st inp).1) (stickStart st inp).2
      (by rw [h2]; exact hdir) hb (by rw [h2]; exact hpos)
    rw [h2] at this
    exact this.mono (fun _ _ _ => by simp) (fun _ _ h => h)
  · intro hpos
    apply stickCycle_of_filter st inp pos b
      (fun r => 0 ≤ st.activesettings.esc_direction * r.value)
    rw [stickFilter_bounded st inp pos b hsafe hmode, hord2]
    have := endpointGuard_overshot_lower (maxaccel st) (stickSpeed st inp) pos b
      (limited (stickStart st inp).2 (stickStart st inp).1) (stickStart st inp).2
      (by rw [h2]; exact hdir) hb (by rw [h2]; exact hpos)
    rw [h2] at this
    exact this.mono (fun _ _ _ => by simp) (fun _ _ h => h)

/-! ## C1 -/

/-- C1: in ENDPOINT mode, OPERATIONAL, with `esc_direction` +1 or -1 and ordered endpoints,
a tick whose encoder position is at or past `pos_end` writes the PWM `esc_neutral_pos` or
an ESC command pointing away from the endpoint (`esc_direction * esc_output < 0`); at or
before `pos_start` it writes `esc_neutral_pos` or a command with
`esc_direction * esc_output > 0`. -/
theorem C1_overshot_endpoint_command (n : Nat) (st : State) (inp : Inputs)
    (hmode : st.activesettings.mode = MODE_ENDPOINT)
    (hsafe : st.controllerstatus.safemode = OPERATIONAL)
    (hdir : st.activesettings.esc_direction = 1 ∨ st.activesettings.esc_direction = -1)
    (hord : st.activesettings.pos_start ≤ st.activesettings.pos_end) :
    (((int32 inp.ENCODER_VALUE : Int) : ℚ) ≥ st.activesettings.pos_end →
      (controllercycle n st inp).TIM3_CCR3 = st.activesettings.esc_neutral_pos
      ∨ st.activesettings.esc_direction * (controllercycle n st inp).esc_output < 0)
    ∧ (((int32 inp.ENCODER_VALUE : Int) : ℚ) ≤ st.activesettings.pos_start →
      (controllercycle n st inp).TIM3_CCR3 = st.activesettings.esc_neutral_pos
      ∨ st.activesettings.esc_direction * (controllercycle n st inp).esc_output > 0) := by
  obtain ⟨hout, hpwm, _⟩ := controllercycle_endpoint n st inp hmode
  have hN := (tickStick_cycleFrame st inp).esc_neutral_pos
  have href : referencePos st inp = ((int32 inp.ENCODER_VALUE : Int) : ℚ) := by
    simp [referencePos, hmode]
  have hsign := stickCycle_overshot (resetMonitor st) inp (referencePos st inp)
    (distanceToStop st inp) hsafe (Or.inl hmode) hdir hord (distanceToStop_nonneg _ _)
  change (_ → st.activesettings.esc_direction * (tickStick st inp).value ≤ 0)
    ∧ (_ → 0 ≤ st.activesettings.esc_direction * (tickStick st inp).value) at hsign
  rw [href] at hsign
  rw [hout, hpwm]
  by_cases hz : (tickStick st inp).value = 0
  · rw [hz, pwm_zero, hN]; exact ⟨fun _ => Or.inl rfl, fun _ => Or.inl rfl⟩
  · have hne : st.activesettings.esc_direction * (tickStick st inp).value ≠ 0 := by
      rcases hdir with hd | hd <;> rw [hd] <;> omega
    constructor
    · intro h; right; have := hsign.1 h; omega
    · intro h; right; have := hsign.2 h; omega

/-- Witness of C1: encoder at 1060 past `pos_end = 1000`, stick pushed forward. -/
theorem C1_overshot_endpoint_command_witness :
    (controllercycle 100 (operationalState exampleSettings 1055 0)
        (stickInputs 1700 1060)).TIM3_CCR3 = exampleSettings.esc_neutral_pos
    ∨ exampleSettings.esc_direction * (controllercycle 100
        (operationalState exampleSettings 1055 0) (stickInputs 1700 1060)).esc_output < 0 :=
  (C1_overshot_endpoint_command 100 (operationalState exampleSettings 1055 0)
    (stickInputs 1700 1060) rfl rfl (Or.inl rfl)
    (by norm_num [operationalState, initState, initController, exampleSettings])).1
    (by norm_num [operationalState, initState, initController, exampleSettings, stickInputs,
      int32])

/-! ## C2: a runaway always returns 0 -/

theorem orderEndpoints_activesettings_congr (a b : State)
    (h : a.activesettings = b.activesettings) :
    (orderEndpoints a).activesettings = (orderEndpoints b).activesettings := by
  simp only [orderEndpoints, h]
  split_ifs <;> simp [h]

theorem runawayUpper_resetMonitor (st : State) (inp : Inputs) (pos b : ℚ) :
    runawayUpper (resetMonitor st) inp pos b ↔ runawayUpper st inp pos b := by
  unfold runawayUpper
  rw [orderEndpoints_activesettings_congr (resetMonitor st) st rfl]
  rfl

theorem runawayLower_resetMonitor (st : State) (inp : Inputs) (pos b : ℚ) :
    runawayLower (resetMonitor st) inp pos b ↔ runawayLower st inp pos b := by
  unfold runawayLower
  rw [orderEndpoints_activesettings_congr (resetMonitor st) st rfl]
  rfl

theorem upperEndpoint_runaway (A speed : Int) (pos b : ℚ) (v : Int) (st : State)
    (hmpe : 0 ≤ st.activesettings.max_position_error)
    (h : pos + b ≥ st.activesettings.pos_end + st.activesettings.max_position_error)
    (hs : speed > 0) :
    (upperEndpoint A speed pos b v st).All (fun _ _ => True) (fun _ _ => False) := by
  have hpb : pos + b ≥ st.activesettings.pos_end := by linarith
  simp only [upperEndpoint, upperEmergency, if_pos hpb, if_pos (And.intro h hs)]
  split_ifs <;> simp [Flow.All]

theorem lowerEndpoint_runaway (A speed : Int) (pos b : ℚ) (v : Int) (st : State)
    (hmpe : 0 ≤ st.activesettings.max_position_error)
    (h : pos - b ≤ st.activesettings.pos_start - st.activesettings.max_position_error)
    (hs : speed < 0) :
    (lowerEndpoint A speed pos b v st).All (fun _ _ => True) (fun _ _ => False) := by
  have hpb : pos - b ≤ st.activesettings.pos_start := by linarith
  simp only [lowerEndpoint, lowerEmergency, if_pos hpb, if_pos (And.intro h hs)]
  split_ifs <;> simp [Flow.All]

theorem endpointGuard_runaway (A speed : Int) (pos b : ℚ) (v : Int) (st : State)
    (hmpe : 0 ≤ st.activesettings.max_position_error)
    (h : (pos + b ≥ st.activesettings.pos_end + st.activesettings.max_position_error
          ∧ speed > 0)
      ∨ (pos - b ≤ st.activesettings.pos_start - st.activesettings.max_position_error
          ∧ speed < 0)) :
    ((upperEndpoint A speed pos b v st).andThen (lowerEndpoint A speed pos b)).All
      (fun _ _ => True) (fun _ _ => False) := by
  rcases h with ⟨h, hs⟩ | ⟨h, hs⟩
  · exact Flow.All.andThen (upperEndpoint_runaway A speed pos b v st hmpe h hs)
      (fun _ _ hf => hf.elim)
  · refine Flow.All.andThen
      ((upperEndpoint_frame A speed pos b v st).mono (fun _ _ _ => trivial) (fun _ _ hf => hf.1)) ?_
    intro w s hf
    have ha : s.activesettings = st.activesettings := hf.1
    exact lowerEndpoint_runaway A speed pos b w s (by rw [ha]; exact hmpe)
      (by rw [ha]; exact h) hs

theorem stickCycle_runaway (st : State) (inp : Inputs) (pos b : ℚ)
    (hsafe : st.controllerstatus.safemode = OPERATIONAL)
    (hmode : st.activesettings.mode = MODE_ENDPOINT
      ∨ st.activesettings.mode = MODE_ABSOLUTE_POSITION)
    (hmpe : 0 ≤ st.activesettings.max_position_error)
    (h : runawayUpper st inp pos b ∨ runawayLower st inp pos b) :
    (stickCycle st inp pos b).value = 0 := by
  apply stickCycle_of_filter st inp pos b (fun r => r.value = 0)
  rw [stickFilter_bounded st inp pos b hsafe hmode]
  have ha := orderEndpoints_activesettings_congr _ _ (stickStart_activesettings st inp)
  have hm := orderEndpoints_max_position_error st
  have hg := endpointGuard_runaway (maxaccel st) (stickSpeed st inp) pos b
    (limited (stickStart st inp).2 (stickStart st inp).1) (orderEndpoints (stickStart st inp).2)
    (by rw [ha, hm]; exact hmpe)
    (by rw [ha, hm]; exact h)
  exact hg.mono (fun _ _ _ => rfl) (fun _ _ hf => hf.elim)

/-- C2: in OPERATIONAL safemode and a bounded mode, with `max_position_error >= 0` and any
`esc_direction`, a call of `stickCycle` under a runaway condition (upper endpoint with
signed speed > 0, or lower endpoint with signed speed < 0, endpoints after the self-heal)
returns 0; in ENDPOINT mode the tick then writes the PWM `esc_neutral_pos`. -/
theorem C2_runaway_returns_zero (n : Nat) (st : State) (inp : Inputs)
    (hsafe : st.controllerstatus.safemode = OPERATIONAL)
    (hmode : st.activesettings.mode = MODE_ENDPOINT
      ∨ st.activesettings.mode = MODE_ABSOLUTE_POSITION)
    (hmpe : 0 ≤ st.activesettings.max_position_error) :
    (∀ pos brakedistance : ℚ,
      runawayUpper st inp pos brakedistance ∨ runawayLower st inp pos brakedistance →
      (stickCycle st inp pos brakedistance).value = 0)
    ∧ (st.activesettings.mode = MODE_ENDPOINT →
      runawayUpper st inp ((int32 inp.ENCODER_VALUE : Int) : ℚ) (distanceToStop st inp)
        ∨ runawayLower st inp ((int32 inp.ENCODER_VALUE : Int) : ℚ) (distanceToStop st inp) →
      (controllercycle n st inp).TIM3_CCR3 = st.activesettings.esc_neutral_pos) := by
  refine ⟨fun pos b h => stickCycle_runaway st inp pos b hsafe hmode hmpe h, ?_⟩
  intro hm h
  obtain ⟨_, hpwm, _⟩ := controllercycle_endpoint n st inp hm
  have href : referencePos st inp = ((int32 inp.ENCODER_VALUE : Int) : ℚ) := by
    simp [referencePos, hm]
  have hz : (tickStick st inp).value = 0 := by
    unfold tickStick
    rw [href]
    exact stickCycle_runaway (resetMonitor st) inp _ _ hsafe hmode hmpe
      (h.imp (runawayUpper_resetMonitor st inp _ _).mpr (runawayLower_resetMonitor st inp _ _).mpr)
  rw [hpwm, hz, pwm_zero, (tickStick_cycleFrame st inp).esc_neutral_pos]

/-- Witness of C2: the scenario pos = 1060, pos_end = 1000, max_position_error = 50,
speed = +5, with the stick pushed forward. -/
theorem C2_runaway_returns_zero_witness :
    (stickCycle (operationalState exampleSettings 1055 0) (stickInputs 1700 1060) 1060 0).value
      = 0 :=
  (C2_runaway_returns_zero 100 (operationalState exampleSettings 1055 0) (stickInputs 1700 1060)
    rfl (Or.inl rfl)
    (by norm_num [operationalState, initState, initController, exampleSettings])).1 1060 0
    (Or.inl (by
      norm_num [runawayUpper, orderEndpoints, stickSpeed, operationalState, initState,
        initController, exampleSettings, stickInputs, int32]))

/-! ## C3: the monitor tag under a runaway -/

theorem Flow.All.and {R R2 : State → StickExit → Prop} {Q Q2 : Int → State → Prop} {f : Flow}
    (h1 : f.All R Q) (h2 : f.All R2 Q2) :
    f.All (fun s e => R s e ∧ R2 s e) (fun v s => Q v s ∧ Q2 v s) := by
  cases f with
  | returned st e => exact ⟨h1, h2⟩
  | running v st => exact ⟨h1, h2⟩

theorem upperEndpoint_returnTag (A speed : Int) (pos b : ℚ) (v : Int) (st : State) :
    (upperEndpoint A speed pos b v st).All ReturnTag (fun _ _ => True) := by
  simp only [upperEndpoint, upperEmergency]
  split_ifs <;> simp [Flow.All, ReturnTag]

theorem lowerEndpoint_returnTag (A speed : Int) (pos b : ℚ) (v : Int) (st : State) :
    (lowerEndpoint A speed pos b v st).All ReturnTag (fun _ _ => True) := by
  simp only [lowerEndpoint, lowerEmergency]
  split_ifs <;> simp [Flow.All, ReturnTag]

theorem stickFilter_returnTag (speed : Int) (pos b : ℚ) (v : Int) (st : State) :
    (stickFilter speed pos b v st).All ReturnTag (fun _ _ => True) := by
  unfold stickFilter endpointGuard
  split_ifs
  · exact Flow.All.andThen (upperEndpoint_returnTag _ _ _ _ _ _)
      (fun w s _ => lowerEndpoint_returnTag _ _ _ _ w s)
  · trivial
  · trivial

/-- Every return path of `stickCycle`: completed, emergency brake or hard failsafe. -/
theorem stickCycle_exit (st : State) (inp : Inputs) (pos b : ℚ) :
    (stickCycle st inp pos b).exit = completed
    ∨ ((stickCycle st inp pos b).value = 0
        ∧ ReturnTag (stickCycle st inp pos b).st (stickCycle st inp pos b).exit) := by
  apply stickCycle_of_filter st inp pos b
    (fun r => r.exit = completed ∨ (r.value = 0 ∧ ReturnTag r.st r.exit))
  exact (stickFilter_returnTag _ pos b _ _).mono (fun _ _ h => Or.inr ⟨rfl, h⟩)
    (fun _ _ _ => Or.inl rfl)

theorem stickCycle_runaway_exit (st : State) (inp : Inputs) (pos b : ℚ)
    (hsafe : st.controllerstatus.safemode = OPERATIONAL)
    (hmode : st.activesettings.mode = MODE_ENDPOINT
      ∨ st.activesettings.mode = MODE_ABSOLUTE_POSITION)
    (hmpe : 0 ≤ st.activesettings.max_position_error)
    (h : runawayUpper st inp pos b ∨ runawayLower st inp pos b) :
    ReturnTag (stickCycle st inp pos b).st (stickCycle st inp pos b).exit := by
  apply stickCycle_of_filter st inp pos b (fun r => ReturnTag r.st r.exit)
  have ht := stickFilter_returnTag (stickSpeed st inp) pos b (stickStart st inp).1
    (stickStart st inp).2
  rw [stickFilter_bounded st inp pos b hsafe hmode] at ht ⊢
  have ha := orderEndpoints_activesettings_congr _ _ (stickStart_activesettings st inp)
  have hm := orderEndpoints_max_position_error st
  have hg := endpointGuard_runaway (maxaccel st) (stickSpeed st inp) pos b
    (limited (stickStart st inp).2 (stickStart st inp).1) (orderEndpoints (stickStart st inp).2)
    (by rw [ha, hm]; exact hmpe)
    (by rw [ha, hm]; exact h)
  exact (ht.and hg).mono (fun _ _ hf => hf.1) (fun _ _ hf => hf.2.elim)

theorem positionLoop_monitor (st : State) (inp : Inputs) (pos : ℚ) (v : Int) :
    (positionLoop st inp pos v).2.controllerstatus.monitor = EMERGENCYBRAKE
    ∨ (positionLoop st inp pos v).2.controllerstatus.monitor = st.controllerstatus.monitor := by
  simp only [positionLoop]
  split_ifs <;> simp [resetPosTarget, resetThrottle]

theorem outputStage_monitor (st : State) (inp : Inputs) (pos : ℚ) (v : Int) :
    (outputStage st inp pos v).2.controllerstatus.monitor = EMERGENCYBRAKE
    ∨ (outputStage st inp pos v).2.controllerstatus.monitor = st.controllerstatus.monitor := by
  unfold outputStage
  split_ifs
  · exact positionLoop_monitor st inp pos v
  · exact Or.inr rfl
  · exact Or.inr rfl

theorem controllercycle_monitor (n : Nat) (st : State) (inp : Inputs) :
    (controllercycle n st inp).st.controllerstatus.monitor = EMERGENCYBRAKE
    ∨ (controllercycle n st inp).st.controllerstatus.monitor
        = (tickStick st inp).st.controllerstatus.monitor := by
  have h := outputStage_monitor (tickStick st inp).st inp ((int32 inp.ENCODER_VALUE : Int) : ℚ)
    (tickStick st inp).value
  simp only [controllercycle]
  split_ifs <;> exact h

/-- C3 as amended: in OPERATIONAL safemode and a bounded mode with
`max_position_error >= 0`, a tick under a runaway condition (upper endpoint with speed > 0,
or lower endpoint with speed < 0) ends with `monitor = EMERGENCYBRAKE`, unless `stickCycle`
left through the hard failsafe; then `stick_last_value` is 0 and ENDPOINT mode ends the tick
with `monitor = ENDPOINTBRAKE`. -/
theorem C3_runaway_monitor (n : Nat) (st : State) (inp : Inputs)
    (hsafe : st.controllerstatus.safemode = OPERATIONAL)
    (hmode : st.activesettings.mode = MODE_ENDPOINT
      ∨ st.activesettings.mode = MODE_ABSOLUTE_POSITION)
    (hmpe : 0 ≤ st.activesettings.max_position_error)
    (h : runawayUpper st inp (referencePos st inp) (distanceToStop st inp)
      ∨ runawayLower st inp (referencePos st inp) (distanceToStop st inp)) :
    ((tickStick st inp).exit ≠ hard_failsafe →
      (controllercycle n st inp).st.controllerstatus.monitor = EMERGENCYBRAKE)
    ∧ ((tickStick st inp).exit = hard_failsafe →
      (tickStick st inp).st.stick_last_value = 0
      ∧ (st.activesettings.mode = MODE_ENDPOINT →
        (controllercycle n st inp).st.controllerstatus.monitor = ENDPOINTBRAKE)) := by
  have ht : ReturnTag (tickStick st inp).st (tickStick st inp).exit :=
    stickCycle_runaway_exit (resetMonitor st) inp _ _ hsafe hmode hmpe
      (h.imp (runawayUpper_resetMonitor st inp _ _).mpr (runawayLower_resetMonitor st inp _ _).mpr)
  constructor
  · intro hne
    rcases ht with ⟨_, hm⟩ | ⟨he, _⟩
    · rcases controllercycle_monitor n st inp with h1 | h1
      · exact h1
      · rw [h1, hm]
    · exact absurd he hne
  · intro he
    rcases ht with ⟨he2, _⟩ | ⟨_, hm, hl⟩
    · rw [he] at he2; exact absurd he2 (by decide)
    · exact ⟨hl, fun hmd => by rw [(controllercycle_endpoint n st inp hmd).2.2, hm]⟩

/-- Witness of C3 as amended: pos = 1060, pos_end = 1000, max_position_error = 50,
speed = +5 and the stick in neutral: the emergency brake is raised. -/
theorem C3_runaway_monitor_witness :
    (controllercycle 100 (operationalState exampleSettings 1055 0)
      (stickInputs 1500 1060)).st.controllerstatus.monitor = EMERGENCYBRAKE :=
  (C3_runaway_monitor 100 (operationalState exampleSettings 1055 0) (stickInputs 1500 1060)
    rfl (Or.inl rfl) (by decide!) (Or.inl (by decide!))).1 (by decide!)

/-- Counterexample to C3: the same scenario with the stick pushed forward. The runaway
condition holds at the upper endpoint, but the hard failsafe returns first and the tick ends
with `monitor = ENDPOINTBRAKE`. -/
theorem C3_runaway_monitor_counterexample :
    (operationalState exampleSettings 1055 0).controllerstatus.safemode = OPERATIONAL
    ∧ (operationalState exampleSettings 1055 0).activesettings.mode = MODE_ENDPOINT
    ∧ runawayUpper (operationalState exampleSettings 1055 0) (stickInputs 1700 1060)
        (referencePos (operationalState exampleSettings 1055 0) (stickInputs 1700 1060))
        (distanceToStop (operationalState exampleSettings 1055 0) (stickInputs 1700 1060))
    ∧ (controllercycle 100 (operationalState exampleSettings 1055 0)
        (stickInputs 1700 1060)).st.controllerstatus.monitor = ENDPOINTBRAKE
    ∧ (controllercycle 100 (operationalState exampleSettings 1055 0)
        (stickInputs 1700 1060)).st.controllerstatus.monitor ≠ EMERGENCYBRAKE := by
  decide!

/-! ## C4 and C5: the acceleration and the speed limit of the committed stick value -/

/-- C4, the code at the failing input: LIMITER mode, the user has switched to PROGRAMMING
at full speed (`stick_last_value = 1000`, safemode caps 5 and 50) and holds the stick. The
call completes without a failsafe, the effective acceleration cap is 5, and the committed
`stick_last_value` jumps from 1000 to 500. -/
theorem C4_speed_cap_jump :
    (stateIn PROGRAMMING { exampleSettings with mode := MODE_LIMITER } 0 1000).activesettings.mode
      ≠ MODE_PASSTHROUGH
    ∧ maxaccel (stateIn PROGRAMMING { exampleSettings with mode := MODE_LIMITER } 0 1000) = 5
    ∧ (stateIn PROGRAMMING { exampleSettings with mode := MODE_LIMITER } 0 1000).stick_last_value
      = 1000
    ∧ (stickCycle (stateIn PROGRAMMING { exampleSettings with mode := MODE_LIMITER } 0 1000)
        (programmingInputs 1620 0) 0 0).exit = completed
    ∧ (stickCycle (stateIn PROGRAMMING { exampleSettings with mode := MODE_LIMITER } 0 1000)
        (programmingInputs 1620 0) 0 0).st.stick_last_value = 500 := by
  decide!

theorem accelLimit_range (A last v : Int) (hv1 : -32768 ≤ v) (hv2 : v ≤ 32767) :
    -32768 ≤ accelLimit A last v ∧ accelLimit A last v ≤ 32767 := by
  simp only [accelLimit]
  split_ifs
  · exact ⟨int16_lower _, int16_upper _⟩
  · exact ⟨int16_lower _, int16_upper _⟩
  · exact ⟨hv1, hv2⟩

theorem speedLimit_bound (V v : Int) (hV : 0 ≤ V) (hv1 : -32768 ≤ v) (hv2 : v ≤ 32767) :
    -(V * 10) ≤ speedLimit V v ∧ speedLimit V v ≤ V * 10 := by
  simp only [speedLimit]
  split_ifs with h1 h2
  · rw [int16_of_fits _ (by omega) (by omega)]; omega
  · rw [int16_of_fits _ (by omega) (by omega)]; omega
  · omega

theorem limited_bound (st : State) (v : Int) (hV : 0 ≤ maxspeed st) (hv1 : -32768 ≤ v)
    (hv2 : v ≤ 32767) :
    -(maxspeed st * 10) ≤ limited st v ∧ limited st v ≤ maxspeed st * 10 := by
  unfold limited
  have h := accelLimit_range (maxaccel st) st.stick_last_value v hv1 hv2
  exact speedLimit_bound _ _ hV h.1 h.2

theorem stickStart_value_range (st : State) (inp : Inputs) :
    -32768 ≤ (stickStart st inp).1 ∧ (stickStart st inp).1 ≤ 32767 := by
  simp only [stickStart]
  exact ⟨int16_lower _, int16_upper _⟩

theorem upperEndpoint_bounded (A speed : Int) (pos b : ℚ) (v : Int) (st : State) (B : Int)
    (hA : 0 ≤ A)
    (hdir : st.activesettings.esc_direction = 1 ∨ st.activesettings.esc_direction = -1
      ∨ st.activesettings.esc_direction = 0)
    (hfit : B + A ≤ 32767)
    (hv : -B ≤ v ∧ v ≤ B) (hl : -B ≤ st.stick_last_value ∧ st.stick_last_value ≤ B) :
    (upperEndpoint A speed pos b v st).Bounded B := by
  simp only [Flow.Bounded, upperEndpoint, upperEmergency]
  rcases hdir with hd | hd | hd <;> rw [hd]
    <;> simp only [int16_one, int16_neg_one, int16_zero, int16]
    <;> split_ifs <;> simp only [Flow.All] <;> omega

theorem lowerEndpoint_bounded (A speed : Int) (pos b : ℚ) (v : Int) (st : State) (B : Int)
    (hA : 0 ≤ A)
    (hdir : st.activesettings.esc_direction = 1 ∨ st.activesettings.esc_direction = -1
      ∨ st.activesettings.esc_direction = 0)
    (hfit : B + A ≤ 32767)
    (hv : -B ≤ v ∧ v ≤ B) (hl : -B ≤ st.stick_last_value ∧ st.stick_last_value ≤ B) :
    (lowerEndpoint A speed pos b v st).Bounded B := by
  simp only [Flow.Bounded, lowerEndpoint, lowerEmergency]
  rcases hdir with hd | hd | hd <;> rw [hd]
    <;> simp only [int16_one, int16_neg_one, int16_zero, int16]
    <;> split_ifs <;> simp only [Flow.All] <;> omega

theorem endpointGuard_bounded (A speed : Int) (pos b : ℚ) (v : Int) (st : State) (B : Int)
    (hA : 0 ≤ A)
    (hdir : st.activesettings.esc_direction = 1 ∨ st.activesettings.esc_direction = -1
      ∨ st.activesettings.esc_direction = 0)
    (hfit : B + A ≤ 32767)
    (hv : -B ≤ v ∧ v ≤ B) (hl : -B ≤ st.stick_last_value ∧ st.stick_last_value ≤ B) :
    (endpointGuard A speed pos b v st).Bounded B := by
  unfold endpointGuard
  split_ifs
  · have hu := (upperEndpoint_bounded A speed pos b v (orderEndpoints st) B hA
      (by rw [orderEndpoints_esc_direction]; exact hdir) hfit hv
      (by rw [orderEndpoints_stick_last_value]; exact hl)).and
      (upperEndpoint_frame A speed pos b v (orderEndpoints st))
    refine Flow.All.andThen (hu.mono (fun _ _ h => h.1) (fun _ _ h => h)) ?_
    intro w s hs
    have ha : s.activesettings = (orderEndpoints st).activesettings := hs.2.1.1
    exact lowerEndpoint_bounded A speed pos b w s B hA
      (by rw [ha, orderEndpoints_esc_direction]; exact hdir) hfit hs.1.1 hs.1.2
  · exact ⟨hv, hl⟩

/-- C5 as amended: in a non-PASSTHROUGH mode with effective speed cap `V >= 0`, the
committed `stick_last_value` satisfies `|stick_last_value| <= V * 10` for every previous
value when the endpoint guard is not engaged (safemode not OPERATIONAL, or LIMITER mode);
with the guard engaged it does when the previous `stick_last_value` satisfied the bound
(for an acceleration cap `A >= 0`, a tri-state `esc_direction` and `V * 10 + A` within
int16). -/
theorem C5_speed_cap (st : State) (inp : Inputs) (pos brakedistance : ℚ)
    (hmode : st.activesettings.mode ≠ MODE_PASSTHROUGH) (hV : 0 ≤ maxspeed st) :
    (¬(st.controllerstatus.safemode = OPERATIONAL ∧ st.activesettings.mode ≠ MODE_LIMITER) →
      -(maxspeed st * 10) ≤ (stickCycle st inp pos brakedistance).st.stick_last_value
      ∧ (stickCycle st inp pos brakedistance).st.stick_last_value ≤ maxspeed st * 10)
    ∧ (0 ≤ maxaccel st →
      (st.activesettings.esc_direction = 1 ∨ st.activesettings.esc_direction = -1
        ∨ st.activesettings.esc_direction = 0) →
      maxspeed st * 10 + maxaccel st ≤ 32767 →
      (-(maxspeed st * 10) ≤ st.stick_last_value ∧ st.stick_last_value ≤ maxspeed st * 10) →
      -(maxspeed st * 10) ≤ (stickCycle st inp pos brakedistance).st.stick_last_value
      ∧ (stickCycle st inp pos brakedistance).st.stick_last_value ≤ maxspeed st * 10) := by
  have ha := stickStart_activesettings st inp
  have hlim := limited_bound (stickStart st inp).2 (stickStart st inp).1
    (by rw [stickStart_maxspeed]; exact hV) (stickStart_value_range st inp).1
    (stickStart_value_range st inp).2
  rw [stickStart_maxspeed] at hlim
  have hm : (stickStart st inp).2.activesettings.mode ≠ MODE_PASSTHROUGH := by
    rw [ha]; exact hmode
  constructor
  · intro hng
    apply stickCycle_of_filter st inp pos brakedistance
      (fun r => -(maxspeed st * 10) ≤ r.st.stick_last_value
        ∧ r.st.stick_last_value ≤ maxspeed st * 10)
    have hc : ¬((stickStart st inp).2.controllerstatus.safemode = OPERATIONAL
        ∧ (stickStart st inp).2.activesettings.mode ≠ MODE_PASSTHROUGH
        ∧ (stickStart st inp).2.activesettings.mode ≠ MODE_LIMITER) := by
      rintro ⟨h1, _, h3⟩
      apply hng
      rw [ha] at h3
      refine ⟨?_, h3⟩
      by_contra hs
      exact stickStart_safemode_not_operational st inp hs h1
    simp only [stickFilter, endpointGuard, if_pos hm, if_neg hc, Flow.All,
      stickTail_stick_last_value]
    exact hlim
  · intro hA hdir hfit hl
    apply stickCycle_of_filter st inp pos brakedistance
      (fun r => -(maxspeed st * 10) ≤ r.st.stick_last_value
        ∧ r.st.stick_last_value ≤ maxspeed st * 10)
    simp only [stickFilter, if_pos hm]
    have hg := endpointGuard_bounded (maxaccel (stickStart st inp).2) (stickSpeed st inp) pos
      brakedistance (limited (stickStart st inp).2 (stickStart st inp).1) (stickStart st inp).2
      (maxspeed st * 10) (by rw [stickStart_maxaccel]; exact hA) (by rw [ha]; exact hdir)
      (by rw [stickStart_maxaccel]; exact hfit) hlim
      (by rw [stickStart_stick_last_value]; exact hl)
    exact hg.mono (fun _ _ h => h)
      (fun v s h => by rw [stickTail_stick_last_value]; exact h.1)

/-- Witness of C5 as amended: the ramp before the upper endpoint, started inside the cap. -/
theorem C5_speed_cap_witness :
    -(maxspeed (operationalState exampleSettings 985 400) * 10)
      ≤ (stickCycle (operationalState exampleSettings 985 400) (stickInputs 1700 990)
          990 20).st.stick_last_value
    ∧ (stickCycle (operationalState exampleSettings 985 400) (stickInputs 1700 990)
          990 20).st.stick_last_value
      ≤ maxspeed (operationalState exampleSettings 985 400) * 10 :=
  (C5_speed_cap (operationalState exampleSettings 985 400) (stickInputs 1700 990) 990 20
    (by decide) (by decide)).2 (by decide) (Or.inl rfl) (by decide) (by decide)

/-- Counterexample to C5: ENDPOINT mode, OPERATIONAL, speed cap 50 (just lowered), previous
`stick_last_value = 1000`, stick held forward, 10 counts before `pos_end` with a brake
distance of 20. The endpoint guard replaces the clamped value 500 by its ramp
`1000 - 10 = 990`, which is committed although `V * 10 = 500`. -/
theorem C5_speed_cap_counterexample :
    (operationalState { exampleSettings with stick_max_speed := 50 } 985 1000).activesettings.mode
      ≠ MODE_PASSTHROUGH
    ∧ maxspeed (operationalState { exampleSettings with stick_max_speed := 50 } 985 1000) = 50
    ∧ (stickCycle (operationalState { exampleSettings with stick_max_speed := 50 } 985 1000)
        (stickInputs 1620 990) 990 20).exit = completed
    ∧ (stickCycle (operationalState { exampleSettings with stick_max_speed := 50 } 985 1000)
        (stickInputs 1620 990) 990 20).st.stick_last_value = 990
    ∧ ¬ ((stickCycle (operationalState { exampleSettings with stick_max_speed := 50 } 985 1000)
        (stickInputs 1620 990) 990 20).st.stick_last_value
          ≤ maxspeed (operationalState { exampleSettings with stick_max_speed := 50 } 985 1000)
            * 10) := by
  decide!

/-! ## C6 and C7: the startup states -/

theorem endPointSwitch_controllerstatus (st : State) (inp : Inputs) :
    (endPointSwitch st inp).controllerstatus = st.controllerstatus := by
  simp only [endPointSwitch]; split_ifs <;> rfl

theorem maxAccelPoti_controllerstatus (st : State) (inp : Inputs) :
    (maxAccelPoti st inp).controllerstatus = st.controllerstatus := by
  simp only [maxAccelPoti]; split_ifs <;> rfl

theorem maxSpeedPoti_controllerstatus (st : State) (inp : Inputs) :
    (maxSpeedPoti st inp).controllerstatus = st.controllerstatus := by
  simp only [maxSpeedPoti]; split_ifs <;> rfl

theorem guessDirection_controllerstatus (st : State) (pos : ℚ) :
    (guessDirection st pos).controllerstatus = st.controllerstatus := by
  simp only [guessDirection]; split_ifs <;> rfl

/-- After the part of `stickCycle` behind the filters, `safemode` is what the programming
switch says. -/
theorem stickTail_safemode (inp : Inputs) (pos : ℚ) (value : Int) (st : State) :
    (stickTail inp pos value st).controllerstatus.safemode
      = if getProgrammingSwitch st inp > 1200 then OPERATIONAL else PROGRAMMING := by
  unfold stickTail
  rw [guessDirection_controllerstatus, maxSpeedPoti_controllerstatus,
    maxAccelPoti_controllerstatus, endPointSwitch_controllerstatus]
  simp only [programmingSwitch, getProgrammingSwitch]
  split_ifs <;> rfl

theorem positionLoop_safemode (st : State) (inp : Inputs) (pos : ℚ) (v : Int) :
    (positionLoop st inp pos v).2.controllerstatus.safemode = st.controllerstatus.safemode := by
  simp only [positionLoop]
  split_ifs <;> simp [resetPosTarget, resetThrottle]

theorem outputStage_safemode (st : State) (inp : Inputs) (pos : ℚ) (v : Int) :
    (outputStage st inp pos v).2.controllerstatus.safemode = st.controllerstatus.safemode := by
  unfold outputStage
  split_ifs
  · exact positionLoop_safemode st inp pos v
  · rfl
  · rfl

theorem controllercycle_safemode (n : Nat) (st : State) (inp : Inputs) :
    (controllercycle n st inp).st.controllerstatus.safemode
      = (tickStick st inp).st.controllerstatus.safemode := by
  have h := outputStage_safemode (tickStick st inp).st inp ((int32 inp.ENCODER_VALUE : Int) : ℚ)
    (tickStick st inp).value
  simp only [controllercycle]
  split_ifs <;> exact h

/-- Outside OPERATIONAL safemode the endpoint guard is skipped and `stickCycle` runs
through to its last statement. -/
theorem stickCycle_not_operational (st : State) (inp : Inputs) (pos b : ℚ)
    (h : st.controllerstatus.safemode ≠ OPERATIONAL) :
    stickCycle st inp pos b =
      { value := if st.activesettings.mode ≠ MODE_PASSTHROUGH
          then limited (stickStart st inp).2 (stickStart st inp).1 else (stickStart st inp).1
        st := stickTail inp pos
          (if st.activesettings.mode ≠ MODE_PASSTHROUGH
            then limited (stickStart st inp).2 (stickStart st inp).1 else (stickStart st inp).1)
          (stickStart st inp).2
        exit := completed } := by
  have hs := stickStart_safemode_not_operational st inp h
  have ha := stickStart_activesettings st inp
  simp only [stickCycle, stickFilter, endpointGuard, ha]
  split_ifs <;> simp_all

theorem getProgrammingSwitch_congr (a b : State) (inp : Inputs)
    (h : a.activesettings = b.activesettings) :
    getProgrammingSwitch a inp = getProgrammingSwitch b inp := by
  simp only [getProgrammingSwitch, h]

/-- A tick that starts outside OPERATIONAL safemode ends in the safemode the programming
switch says, whatever the speed channel delivers. -/
theorem controllercycle_safemode_not_operational (n : Nat) (st : State) (inp : Inputs)
    (h : st.controllerstatus.safemode ≠ OPERATIONAL) :
    (controllercycle n st inp).st.controllerstatus.safemode
      = if getProgrammingSwitch st inp > 1200 then OPERATIONAL else PROGRAMMING := by
  rw [controllercycle_safemode]
  unfold tickStick
  rw [stickCycle_not_operational (resetMonitor st) inp _ _ h]
  simp only []
  rw [stickTail_safemode,
    getProgrammingSwitch_congr _ (resetMonitor st) inp (stickStart_activesettings _ inp)]
  rfl

/-- C6, the code on the ticks of the claim: on a tick that starts in INVALID_RC or
NOT_NEUTRAL_AT_STARTUP and receives a valid frame with the stick outside the neutral range,
`getStickPositionRaw` returns 0 and leaves `safemode = NOT_NEUTRAL_AT_STARTUP`, but the
programming switch is evaluated all the same: the tick ends in OPERATIONAL (switch above
1200) or PROGRAMMING, never in NOT_NEUTRAL_AT_STARTUP. -/
theorem C6_startup_gate_overwritten (n : Nat) (st : State) (inp : Inputs)
    (hstart : st.controllerstatus.safemode = INVALID_RC
      ∨ st.controllerstatus.safemode = NOT_NEUTRAL_AT_STARTUP)
    (hvalid : rawValue st inp ≠ -st.activesettings.stick_neutral_pos)
    (hout : rawValue st inp > st.activesettings.stick_neutral_range
      ∨ rawValue st inp < -st.activesettings.stick_neutral_range) :
    (getStickPositionRaw st inp).1 = 0
    ∧ (getStickPositionRaw st inp).2.controllerstatus.safemode = NOT_NEUTRAL_AT_STARTUP
    ∧ (controllercycle n st inp).st.controllerstatus.safemode ≠ NOT_NEUTRAL_AT_STARTUP
    ∧ (controllercycle n st inp).st.controllerstatus.safemode
      = if getProgrammingSwitch st inp > 1200 then OPERATIONAL else PROGRAMMING := by
  have hno : st.controllerstatus.safemode ≠ OPERATIONAL := by
    rcases hstart with h | h <;> rw [h] <;> decide
  have h := controllercycle_safemode_not_operational n st inp hno
  have hg : (getStickPositionRaw st inp).1 = 0
      ∧ (getStickPositionRaw st inp).2.controllerstatus.safemode = NOT_NEUTRAL_AT_STARTUP := by
    simp only [getStickPositionRaw, if_neg hvalid, if_pos (And.intro hstart hout)]
    rcases hstart with h1 | h1
    · simp [h1]
    · simp [h1]
  refine ⟨hg.1, hg.2, ?_, h⟩
  rw [h]
  split_ifs <;> decide

/-- Witness of C6: power-up state, first frame with the stick at 1700 (neutral 1500 +- 20)
and the programming switch high: the tick ends in OPERATIONAL. -/
theorem C6_startup_gate_overwritten_witness :
    (controllercycle 100 (initState exampleSettings)
      (tickInputs 1700 1500 0)).st.controllerstatus.safemode = OPERATIONAL :=
  ((C6_startup_gate_overwritten 100 (initState exampleSettings) (tickInputs 1700 1500 0)
    (Or.inl rfl) (by decide) (Or.inl (by decide))).2.2.2).trans (by decide)

/-- C7, the code at the failing input: from the power-up state, for every settings, one
tick in which every channel reads duty 0 ends in PROGRAMMING, not in INVALID_RC. -/
theorem C7_no_signal_leaves_invalid_rc (n : Nat) (settings : Settings) (encoder : Int) :
    (initState settings).controllerstatus.safemode = INVALID_RC
    ∧ (controllercycle n (initState settings) (noSignal encoder)).st.controllerstatus.safemode
      = PROGRAMMING := by
  refine ⟨rfl, ?_⟩
  rw [controllercycle_safemode_not_operational n _ _
    (show (initState settings).controllerstatus.safemode ≠ OPERATIONAL by
      simp [initState, initController])]
  simp [getProgrammingSwitch, noSignal, uint16]

/-! ## C8: no signal, no motion -/

theorem getStickPositionRaw_noSignal (st : State) (inp : Inputs) (hd : inp.noFrame)
    (hN1 : 0 ≤ st.activesettings.stick_neutral_pos)
    (hN2 : st.activesettings.stick_neutral_pos ≤ 32767) :
    getStickPositionRaw st inp = (0, st) := by
  have hr : rawValue st inp = -st.activesettings.stick_neutral_pos := by
    simp only [rawValue, hd st.activesettings.rc_channel_speed, int16]
    omega
  simp only [getStickPositionRaw, if_pos hr]

theorem limited_zero (st : State) (hA : 0 ≤ maxaccel st) (hV : 0 ≤ maxspeed st)
    (hl : st.stick_last_value = 0) : limited st 0 = 0 := by
  simp only [limited, accelLimit, speedLimit, hl, int16]
  split_ifs <;> omega

theorem stickTail_noSignal (inp : Inputs) (hd : inp.noFrame) (value : Int) (st : State) :
    stickTail inp 0 value st =
      { st with
          stick_last_value := value
          endpointclicks :=
            if st.controllerstatus.safemode ≠ PROGRAMMING then 0 else st.endpointclicks
          controllerstatus := { st.controllerstatus with safemode := PROGRAMMING }
          lastendpointswitch := 0 } := by
  simp [stickTail, programmingSwitch, endPointSwitch, maxAccelPoti, maxSpeedPoti, guessDirection,
    getProgrammingSwitch, getEndPointSwitch, getMaxAccelPoti, getMaxSpeedPoti, hd _, uint16]

theorem truncate_zero : truncate 0 = 0 := by
  simp [truncate]

theorem positionLoop_idle (st : State) (inp : Inputs) (henc : inp.ENCODER_VALUE = 0)
    (hsm : st.controllerstatus.safemode ≠ OPERATIONAL)
    (ht : st.pos_target = 0) (hes : st.esum = 0) (hea : st.ealt = 0) :
    (positionLoop st inp 0 0).1 = 0
    ∧ (positionLoop st inp 0 0).2.activesettings = st.activesettings
    ∧ (positionLoop st inp 0 0).2.controllerstatus.safemode = st.controllerstatus.safemode
    ∧ (positionLoop st inp 0 0).2.stick_last_value = st.stick_last_value
    ∧ (positionLoop st inp 0 0).2.pos_target = 0
    ∧ (positionLoop st inp 0 0).2.pos_target_old = 0
    ∧ (positionLoop st inp 0 0).2.esum = 0
    ∧ (positionLoop st inp 0 0).2.ealt = 0 := by
  simp only [positionLoop, if_neg hsm, ht, hes, hea]
  split_ifs <;> simp [resetPosTarget, resetThrottle, henc, truncate_zero, int16_zero]

theorem outputStage_idle (st : State) (inp : Inputs) (henc : inp.ENCODER_VALUE = 0)
    (hsm : st.controllerstatus.safemode ≠ OPERATIONAL)
    (ht : st.pos_target = 0) (hto : st.pos_target_old = 0) (hes : st.esum = 0)
    (hea : st.ealt = 0) :
    (outputStage st inp 0 0).1 = 0
    ∧ (outputStage st inp 0 0).2.activesettings = st.activesettings
    ∧ (outputStage st inp 0 0).2.controllerstatus.safemode = st.controllerstatus.safemode
    ∧ (outputStage st inp 0 0).2.stick_last_value = st.stick_last_value
    ∧ (outputStage st inp 0 0).2.pos_target = 0
    ∧ (outputStage st inp 0 0).2.pos_target_old = 0
    ∧ (outputStage st inp 0 0).2.esum = 0
    ∧ (outputStage st inp 0 0).2.ealt = 0 := by
  unfold outputStage
  split_ifs
  · exact positionLoop_idle st inp henc hsm ht hes hea
  · exact ⟨rfl, rfl, rfl, rfl, ht, hto, hes, hea⟩
  · exact ⟨rfl, rfl, rfl, rfl, ht, hto, hes, hea⟩

/-- One tick without signal from an idle state: the PWM is `esc_neutral_pos` and the state
is idle again. -/
theorem idle_tick (cap : Nat) (settings : Settings) (st : State) (inp : Inputs)
    (hidle : Idle settings st) (hd : inp.noFrame) (henc : inp.ENCODER_VALUE = 0)
    (hN1 : 0 ≤ settings.stick_neutral_pos) (hN2 : settings.stick_neutral_pos ≤ 32767)
    (hA : 0 ≤ int16 settings.stick_max_accel_safemode)
    (hV : 0 ≤ int16 settings.stick_max_speed_safemode) :
    Idle settings (controllercycle cap st inp).st
    ∧ (controllercycle cap st inp).TIM3_CCR3 = settings.esc_neutral_pos
    ∧ (controllercycle cap st inp).st.stick_last_value = 0 := by
  obtain ⟨hs, hsm, hl, hpt, hpto, hes, hea, hpo⟩ := hidle
  have href : referencePos st inp = 0 := by
    simp only [referencePos, hpto, henc]
    split_ifs <;> simp [int32]
  have hraw := getStickPositionRaw_noSignal (resetMonitor st) inp hd
    (by rw [resetMonitor_activesettings, hs]; exact hN1)
    (by rw [resetMonitor_activesettings, hs]; exact hN2)
  have hstart1 : (stickStart (resetMonitor st) inp).1 = 0 := by
    simp [stickStart, hraw, int16_zero]
  have hlim : limited (stickStart (resetMonitor st) inp).2 0 = 0 := by
    apply limited_zero
    · rw [stickStart_maxaccel]
      simp only [maxaccel, resetMonitor_safemode, resetMonitor_activesettings, hs]
      rw [if_pos hsm]; exact hA
    · rw [stickStart_maxspeed]
      simp only [maxspeed, resetMonitor_safemode, resetMonitor_activesettings, hs]
      rw [if_pos hsm]; exact hV
    · rw [stickStart_stick_last_value]; exact hl
  have hval : (if (resetMonitor st).activesettings.mode ≠ MODE_PASSTHROUGH
      then limited (stickStart (resetMonitor st) inp).2 (stickStart (resetMonitor st) inp).1
      else (stickStart (resetMonitor st) inp).1) = 0 := by
    rw [hstart1, hlim]; split_ifs <;> rfl
  have htick : tickStick st inp =
      { value := 0
        st := stickTail inp 0 0 (stickStart (resetMonitor st) inp).2
        exit := completed } := by
    unfold tickStick
    rw [stickCycle_not_operational (resetMonitor st) inp _ _ hsm, hval, href]
  have hS := stickTail_noSignal inp hd 0 (stickStart (resetMonitor st) inp).2
  have hpos : ((int32 inp.ENCODER_VALUE : Int) : ℚ) = 0 := by
    simp [henc, int32]
  obtain ⟨_, _, _, hf4, hf5, _, hf7, hf8⟩ := tickStick_cycleFrame st inp
  have hvalue : (tickStick st inp).value = 0 := by rw [htick]
  have hSa : (tickStick st inp).st.activesettings = settings := by
    rw [htick]
    show (stickTail inp 0 0 (stickStart (resetMonitor st) inp).2).activesettings = settings
    rw [hS]
    exact (stickStart_activesettings _ inp).trans hs
  have hSs : (tickStick st inp).st.controllerstatus.safemode ≠ OPERATIONAL := by
    rw [htick]
    show (stickTail inp 0 0 (stickStart (resetMonitor st) inp).2).controllerstatus.safemode
      ≠ OPERATIONAL
    rw [hS]
    simp
  have hSl : (tickStick st inp).st.stick_last_value = 0 := by
    rw [htick]
    exact stickTail_stick_last_value _ _ _ _
  have hout := outputStage_idle (tickStick st inp).st inp henc hSs
    (by rw [hf7, hpt]) (by rw [hf8, hpto]) (by rw [hf5, hes]) (by rw [hf4, hea])
  simp only [controllercycle, hpos, hvalue]
  obtain ⟨h1, h2, h3, h4, h5, h6, h7, h8⟩ := hout
  refine ⟨⟨?_, ?_, ?_, ?_, ?_, ?_, ?_, ?_⟩, ?_, ?_⟩
  · split_ifs <;> simp [h2, hSa]
  · split_ifs <;> simp [h3, hSs]
  · split_ifs <;> simp [h4, hSl]
  · split_ifs <;> simp [h5]
  · split_ifs <;> simp [h6]
  · split_ifs <;> simp [h7]
  · split_ifs <;> simp [h8]
  · simp [henc, int32]
  · rw [h1, pwm_zero, h2, hSa]
  · split_ifs <;> simp [h4, hSl]

theorem initState_idle (settings : Settings) : Idle settings (initState settings) := by
  simp [Idle, initState, initController]

theorem runTicks_idle (cap : Nat) (settings : Settings) (ticks : List Inputs)
    (hN1 : 0 ≤ settings.stick_neutral_pos) (hN2 : settings.stick_neutral_pos ≤ 32767)
    (hA : 0 ≤ int16 settings.stick_max_accel_safemode)
    (hV : 0 ≤ int16 settings.stick_max_speed_safemode)
    (hticks : ∀ t ∈ ticks, t.noFrame ∧ t.ENCODER_VALUE = 0) (st : State)
    (hidle : Idle settings st) : Idle settings (runTicks cap ticks st) := by
  induction ticks generalizing st with
  | nil => exact hidle
  | cons t rest ih =>
    have ht := hticks t (List.mem_cons_self t rest)
    exact ih (fun u hu => hticks u (List.mem_cons_of_mem t hu)) _
      (idle_tick cap settings st t hidle ht.1 ht.2 hN1 hN2 hA hV).1

/-- C8: from the power-up state, with the encoder staying at 0, non-negative caps (the
safemode caps within int16), `stick_max_accel != 0` and a neutral position that is a
pulse width within int16: for every mode and every sequence of ticks in which every RC
channel reads duty 0, the next such tick writes the PWM `esc_neutral_pos` and leaves
`stick_last_value = 0`. -/
theorem C8_no_signal_neutral (cap : Nat) (settings : Settings) (ticks : List Inputs)
    (inp : Inputs)
    (hN : 0 ≤ settings.stick_neutral_pos ∧ settings.stick_neutral_pos ≤ 32767)
    (hcaps : 0 ≤ settings.stick_max_accel ∧ 0 ≤ settings.stick_max_speed
      ∧ 0 ≤ settings.stick_max_accel_safemode ∧ 0 ≤ settings.stick_max_speed_safemode)
    (hfit : settings.stick_max_accel_safemode ≤ 32767
      ∧ settings.stick_max_speed_safemode ≤ 32767)
    (hacc : settings.stick_max_accel ≠ 0)
    (hticks : ∀ t ∈ ticks, t.noFrame ∧ t.ENCODER_VALUE = 0)
    (hinp : inp.noFrame ∧ inp.ENCODER_VALUE = 0) :
    (controllercycle cap (runTicks cap ticks (initState settings)) inp).TIM3_CCR3
      = settings.esc_neutral_pos
    ∧ (controllercycle cap (runTicks cap ticks (initState settings)) inp).st.stick_last_value
      = 0 := by
  have hA : 0 ≤ int16 settings.stick_max_accel_safemode := by
    rw [int16_of_fits _ (by omega) hfit.1]; exact hcaps.2.2.1
  have hV : 0 ≤ int16 settings.stick_max_speed_safemode := by
    rw [int16_of_fits _ (by omega) hfit.2]; exact hcaps.2.2.2
  have hidle := runTicks_idle cap settings ticks hN.1 hN.2 hA hV hticks _
    (initState_idle settings)
  exact (idle_tick cap settings _ inp hidle hinp.1 hinp.2 hN.1 hN.2 hA hV).2

/-- Witness of C8: the third tick without signal, in ABSOLUTE_POSITION mode. -/
theorem C8_no_signal_neutral_witness :
    (controllercycle 100
      (runTicks 100 [noSignal 0, noSignal 0]
        (initState { exampleSettings with mode := MODE_ABSOLUTE_POSITION }))
      (noSignal 0)).TIM3_CCR3 = 1500
    ∧ (controllercycle 100
      (runTicks 100 [noSignal 0, noSignal 0]
        (initState { exampleSettings with mode := MODE_ABSOLUTE_POSITION }))
      (noSignal 0)).st.stick_last_value = 0 :=
  C8_no_signal_neutral 100 { exampleSettings with mode := MODE_ABSOLUTE_POSITION }
    [noSignal 0, noSignal 0] (noSignal 0) (by decide) (by decide) (by decide) (by decide)
    (by
      intro t ht
      simp only [List.mem_cons, List.mem_singleton, List.not_mem_nil, or_false] at ht
      rcases ht with rfl | rfl <;> exact ⟨fun _ => rfl, rfl⟩)
    ⟨fun _ => rfl, rfl⟩

/-! ## C9: the ramp of the endpoint brake -/

theorem upperEndpoint_ramp (A speed : Int) (pos b : ℚ) (v : Int) (st : State)
    (hdir : st.activesettings.esc_direction = 1 ∨ st.activesettings.esc_direction = -1)
    (h1 : pos + b ≥ st.activesettings.pos_end) (h2 : pos < st.activesettings.pos_end)
    (h3 : st.activesettings.esc_direction * v > 0)
    (hne : ¬(pos + b ≥ st.activesettings.pos_end + st.activesettings.max_position_error
      ∧ speed > 0))
    (hfit : -32768 ≤ st.stick_last_value - A * st.activesettings.esc_direction
      ∧ st.stick_last_value - A * st.activesettings.esc_direction ≤ 32767) :
    (upperEndpoint A speed pos b v st).All (fun _ _ => False)
      (fun w s => w = (if (st.stick_last_value - A * st.activesettings.esc_direction)
                        * st.activesettings.esc_direction < 0 then 0
                      else st.stick_last_value - A * st.activesettings.esc_direction)
        ∧ GuardFrame st s) := by
  have hd : int16 st.activesettings.esc_direction = st.activesettings.esc_direction := by
    rcases hdir with h | h <;> rw [h] <;> decide
  simp only [upperEndpoint, upperEmergency, hd, if_pos h1, if_pos h3, if_neg (not_le.mpr h2),
    if_neg hne, hd, int16_of_fits _ hfit.1 hfit.2]
  simp [Flow.All, GuardFrame]

theorem lowerEndpoint_ramp (A speed : Int) (pos b : ℚ) (v : Int) (st : State)
    (hdir : st.activesettings.esc_direction = 1 ∨ st.activesettings.esc_direction = -1)
    (h1 : pos - b ≤ st.activesettings.pos_start) (h2 : pos > st.activesettings.pos_start)
    (h3 : st.activesettings.esc_direction * v < 0)
    (hne : ¬(pos - b ≤ st.activesettings.pos_start - st.activesettings.max_position_error
      ∧ speed < 0))
    (hfit : -32768 ≤ st.stick_last_value + A * st.activesettings.esc_direction
      ∧ st.stick_last_value + A * st.activesettings.esc_direction ≤ 32767) :
    (lowerEndpoint A speed pos b v st).All (fun _ _ => False)
      (fun w s => w = (if (st.stick_last_value + A * st.activesettings.esc_direction)
                        * st.activesettings.esc_direction > 0 then 0
                      else st.stick_last_value + A * st.activesettings.esc_direction)
        ∧ GuardFrame st s) := by
  have hd : int16 st.activesettings.esc_direction = st.activesettings.esc_direction := by
    rcases hdir with h | h <;> rw [h] <;> decide
  simp only [lowerEndpoint, lowerEmergency, hd, if_pos h1, if_pos h3, if_neg (not_le.mpr h2),
    if_neg hne, hd, int16_of_fits _ hfit.1 hfit.2]
  simp [Flow.All, GuardFrame]

/-- The upper block lets a value pass that does not command motion toward the
upper endpoint, unless its emergency brake fires. -/
theorem upperEndpoint_pass (A speed : Int) (pos b : ℚ) (v : Int) (st : State)
    (hdir : st.activesettings.esc_direction = 1 ∨ st.activesettings.esc_direction = -1)
    (hv : st.activesettings.esc_direction * v ≤ 0)
    (hne : ¬(pos + b ≥ st.activesettings.pos_end + st.activesettings.max_position_error
      ∧ speed > 0)) :
    (upperEndpoint A speed pos b v st).All (fun _ _ => False)
      (fun w s => w = v ∧ GuardFrame st s ∧ s.stick_last_value = st.stick_last_value) := by
  have hd : int16 st.activesettings.esc_direction = st.activesettings.esc_direction := by
    rcases hdir with h | h <;> rw [h] <;> decide
  simp only [upperEndpoint, upperEmergency, hd, if_neg (not_lt.mpr hv), if_neg hne]
  split_ifs <;> simp [Flow.All, GuardFrame]

/-- The lower block lets a value pass that does not command motion toward the
lower endpoint, unless its emergency brake fires. -/
theorem lowerEndpoint_pass (A speed : Int) (pos b : ℚ) (v : Int) (st : State)
    (hdir : st.activesettings.esc_direction = 1 ∨ st.activesettings.esc_direction = -1)
    (hv : 0 ≤ st.activesettings.esc_direction * v)
    (hne : ¬(pos - b ≤ st.activesettings.pos_start - st.activesettings.max_position_error
      ∧ speed < 0)) :
    (lowerEndpoint A speed pos b v st).All (fun _ _ => False)
      (fun w s => w = v ∧ GuardFrame st s ∧ s.stick_last_value = st.stick_last_value) := by
  have hd : int16 st.activesettings.esc_direction = st.activesettings.esc_direction := by
    rcases hdir with h | h <;> rw [h] <;> decide
  simp only [lowerEndpoint, lowerEmergency, hd, if_neg (not_lt.mpr hv), if_neg hne]
  split_ifs <;> simp [Flow.All, GuardFrame]

theorem stickCycle_ramp_upper (st : State) (inp : Inputs) (pos b : ℚ)
    (hsafe : st.controllerstatus.safemode = OPERATIONAL)
    (hmode : st.activesettings.mode = MODE_ENDPOINT
      ∨ st.activesettings.mode = MODE_ABSOLUTE_POSITION)
    (hdir : st.activesettings.esc_direction = 1 ∨ st.activesettings.esc_direction = -1)
    (hnu : ¬ runawayUpper st inp pos b) (hnl : ¬ runawayLower st inp pos b)
    (h1 : pos + b ≥ (orderEndpoints st).activesettings.pos_end)
    (h2 : pos < (orderEndpoints st).activesettings.pos_end)
    (h3 : st.activesettings.esc_direction * clampedValue st inp > 0)
    (hfit : -32768 ≤ st.stick_last_value - maxaccel st * st.activesettings.esc_direction
      ∧ st.stick_last_value - maxaccel st * st.activesettings.esc_direction ≤ 32767) :
    (stickCycle st inp pos b).value
        = rampUpper st.stick_last_value (maxaccel st) st.activesettings.esc_direction
    ∧ (stickCycle st inp pos b).st.stick_last_value
        = rampUpper st.stick_last_value (maxaccel st) st.activesettings.esc_direction := by
  have ha := orderEndpoints_activesettings_congr _ _ (stickStart_activesettings st inp)
  have hd := orderEndpoints_esc_direction st
  have hm := orderEndpoints_max_position_error st
  have hl : (orderEndpoints (stickStart st inp).2).stick_last_value = st.stick_last_value := by
    rw [orderEndpoints_stick_last_value, stickStart_stick_last_value]
  apply stickCycle_of_filter st inp pos b
    (fun r => r.value = rampUpper st.stick_last_value (maxaccel st) st.activesettings.esc_direction
      ∧ r.st.stick_last_value
        = rampUpper st.stick_last_value (maxaccel st) st.activesettings.esc_direction)
  rw [stickFilter_bounded st inp pos b hsafe hmode]
  have hu := upperEndpoint_ramp (maxaccel st) (stickSpeed st inp) pos b (clampedValue st inp)
    (orderEndpoints (stickStart st inp).2) (by rw [ha, hd]; exact hdir) (by rw [ha]; exact h1)
    (by rw [ha]; exact h2) (by rw [ha, hd]; exact h3) (by rw [ha, hm]; exact hnu)
    (by rw [ha, hd, hl]; exact hfit)
  rw [ha, hd, hl] at hu
  refine (Flow.All.andThen hu ?_).mono (fun _ _ h => h.elim)
    (fun w s h => ⟨h, by rw [stickTail_stick_last_value]; exact h⟩)
  intro w s hs
  have hsa : s.activesettings = (orderEndpoints st).activesettings := hs.2.1.trans ha
  have hw : 0 ≤ st.activesettings.esc_direction * w := by
    rw [hs.1]
    rcases hdir with h | h <;> rw [h] <;> split_ifs <;> omega
  refine (lowerEndpoint_pass (maxaccel st) (stickSpeed st inp) pos b w s
    (by rw [hsa, hd]; exact hdir) (by rw [hsa, hd]; exact hw)
    (by rw [hsa, hm]; exact hnl)).mono (fun _ _ h => h) (fun w2 _ h => ?_)
  rw [h.1]; exact hs.1

theorem stickCycle_ramp_lower (st : State) (inp : Inputs) (pos b : ℚ)
    (hsafe : st.controllerstatus.safemode = OPERATIONAL)
    (hmode : st.activesettings.mode = MODE_ENDPOINT
      ∨ st.activesettings.mode = MODE_ABSOLUTE_POSITION)
    (hdir : st.activesettings.esc_direction = 1 ∨ st.activesettings.esc_direction = -1)
    (hnu : ¬ runawayUpper st inp pos b) (hnl : ¬ runawayLower st inp pos b)
    (h1 : pos - b ≤ (orderEndpoints st).activesettings.pos_start)
    (h2 : pos > (orderEndpoints st).activesettings.pos_start)
    (h3 : st.activesettings.esc_direction * clampedValue st inp < 0)
    (hfit : -32768 ≤ st.stick_last_value + maxaccel st * st.activesettings.esc_direction
      ∧ st.stick_last_value + maxaccel st * st.activesettings.esc_direction ≤ 32767) :
    (stickCycle st inp pos b).value
        = rampLower st.stick_last_value (maxaccel st) st.activesettings.esc_direction
    ∧ (stickCycle st inp pos b).st.stick_last_value
        = rampLower st.stick_last_value (maxaccel st) st.activesettings.esc_direction := by
  have ha := orderEndpoints_activesettings_congr _ _ (stickStart_activesettings st inp)
  have hd := orderEndpoints_esc_direction st
  have hm := orderEndpoints_max_position_error st
  have hl : (orderEndpoints (stickStart st inp).2).stick_last_value = st.stick_last_value := by
    rw [orderEndpoints_stick_last_value, stickStart_stick_last_value]
  apply stickCycle_of_filter st inp pos b
    (fun r => r.value = rampLower st.stick_last_value (maxaccel st) st.activesettings.esc_direction
      ∧ r.st.stick_last_value
        = rampLower st.stick_last_value (maxaccel st) st.activesettings.esc_direction)
  rw [stickFilter_bounded st inp pos b hsafe hmode]
  have hu := upperEndpoint_pass (maxaccel st) (stickSpeed st inp) pos b (clampedValue st inp)
    (orderEndpoints (stickStart st inp).2) (by rw [ha, hd]; exact hdir)
    (by rw [ha, hd]; exact le_of_lt h3) (by rw [ha, hm]; exact hnu)
  refine (Flow.All.andThen hu ?_).mono (fun _ _ h => h.elim)
    (fun w s h => ⟨h, by rw [stickTail_stick_last_value]; exact h⟩)
  intro w s hs
  have hsa : s.activesettings = (orderEndpoints st).activesettings := hs.2.1.1.trans ha
  have hsl : s.stick_last_value = st.stick_last_value := hs.2.2.trans hl
  have hlow := lowerEndpoint_ramp (maxaccel st) (stickSpeed st inp) pos b w s
    (by rw [hsa, hd]; exact hdir) (by rw [hsa]; exact h1) (by rw [hsa]; exact h2)
    (by rw [hsa, hd, hs.1]; exact h3) (by rw [hsa, hm]; exact hnl)
    (by rw [hsa, hd, hsl]; exact hfit)
  rw [hsa, hd, hsl] at hlow
  exact hlow.mono (fun _ _ h => h) (fun _ _ h => h.1)

/-- C9 as amended: in OPERATIONAL safemode and a bounded mode, with `esc_direction = dir`
equal to +1 or -1 and an effective acceleration cap `A >= 0`, when no emergency-brake
condition holds at either endpoint and the ramp value fits int16: if
`pos + brakedistance >= pos_end`, `pos < pos_end` and `dir * value > 0` for the value after
the clamps, the returned value and the committed `stick_last_value` both equal
`stick_last_value_old - A * dir`, replaced by 0 when that times `dir` is negative; so the
value moves toward neutral and never crosses zero. The lower endpoint is symmetric with
`stick_last_value_old + A * dir`. -/
theorem C9_endpoint_ramp (st : State) (inp : Inputs) (pos brakedistance : ℚ)
    (hsafe : st.controllerstatus.safemode = OPERATIONAL)
    (hmode : st.activesettings.mode = MODE_ENDPOINT
      ∨ st.activesettings.mode = MODE_ABSOLUTE_POSITION)
    (hdir : st.activesettings.esc_direction = 1 ∨ st.activesettings.esc_direction = -1)
    (hA : 0 ≤ maxaccel st)
    (hnu : ¬ runawayUpper st inp pos brakedistance)
    (hnl : ¬ runawayLower st inp pos brakedistance) :
    (pos + brakedistance ≥ (orderEndpoints st).activesettings.pos_end →
      pos < (orderEndpoints st).activesettings.pos_end →
      st.activesettings.esc_direction * clampedValue st inp > 0 →
      (-32768 ≤ st.stick_last_value - maxaccel st * st.activesettings.esc_direction
        ∧ st.stick_last_value - maxaccel st * st.activesettings.esc_direction ≤ 32767) →
      (stickCycle st inp pos brakedistance).value
          = rampUpper st.stick_last_value (maxaccel st) st.activesettings.esc_direction
      ∧ (stickCycle st inp pos brakedistance).st.stick_last_value
          = rampUpper st.stick_last_value (maxaccel st) st.activesettings.esc_direction
      ∧ 0 ≤ st.activesettings.esc_direction * (stickCycle st inp pos brakedistance).value
      ∧ st.activesettings.esc_direction * (stickCycle st inp pos brakedistance).value
          ≤ max 0 (st.activesettings.esc_direction * st.stick_last_value))
    ∧ (pos - brakedistance ≤ (orderEndpoints st).activesettings.pos_start →
      pos > (orderEndpoints st).activesettings.pos_start →
      st.activesettings.esc_direction * clampedValue st inp < 0 →
      (-32768 ≤ st.stick_last_value + maxaccel st * st.activesettings.esc_direction
        ∧ st.stick_last_value + maxaccel st * st.activesettings.esc_direction ≤ 32767) →
      (stickCycle st inp pos brakedistance).value
          = rampLower st.stick_last_value (maxaccel st) st.activesettings.esc_direction
      ∧ (stickCycle st inp pos brakedistance).st.stick_last_value
          = rampLower st.stick_last_value (maxaccel st) st.activesettings.esc_direction
      ∧ st.activesettings.esc_direction * (stickCycle st inp pos brakedistance).value ≤ 0
      ∧ min 0 (st.activesettings.esc_direction * st.stick_last_value)
          ≤ st.activesettings.esc_direction * (stickCycle st inp pos brakedistance).value) := by
  constructor
  · intro h1 h2 h3 hfit
    obtain ⟨hv, hl⟩ := stickCycle_ramp_upper st inp pos brakedistance hsafe hmode hdir hnu hnl
      h1 h2 h3 hfit
    refine ⟨hv, hl, ?_, ?_⟩ <;> rw [hv] <;> unfold rampUpper <;>
      rcases hdir with h | h <;> rw [h] <;> split_ifs <;> omega
  · intro h1 h2 h3 hfit
    obtain ⟨hv, hl⟩ := stickCycle_ramp_lower st inp pos brakedistance hsafe hmode hdir hnu hnl
      h1 h2 h3 hfit
    refine ⟨hv, hl, ?_, ?_⟩ <;> rw [hv] <;> unfold rampLower <;>
      rcases hdir with h | h <;> rw [h] <;> split_ifs <;> omega

/-- Witness of C9: range 0..1000, position 950, speed 20 per tick, previous stick value 60
(brake distance 60), stick full forward, acceleration cap 10: the value ramps to 50. -/
theorem C9_endpoint_ramp_witness :
    (stickCycle (operationalState exampleSettings 930 60) (stickInputs 1700 950) 950 60).value
      = 50 :=
  (((C9_endpoint_ramp (operationalState exampleSettings 930 60) (stickInputs 1700 950) 950 60
    rfl (Or.inl rfl) (Or.inl rfl) (by decide) (by decide!) (by decide!)).1
    (by decide!) (by decide!) (by decide) (by decide)).1).trans (by decide)

/-- Counterexample to C9 without the int16 condition: acceleration cap 32767, previous stick
value -10, direction +1, stick full forward, position 950 with brake distance 60 before
`pos_end = 1000`, no emergency-brake condition. `stick_last_value_old - A * dir` is -32777,
whose product with `dir` is negative, so the claim gives 0; the int16 local of line 324
wraps to 32759, line 325 does not reset it, and the call returns and commits 32759. -/
theorem C9_endpoint_ramp_counterexample :
    (operationalState steepSettings 930 (-10)).controllerstatus.safemode = OPERATIONAL
    ∧ (operationalState steepSettings 930 (-10)).activesettings.mode = MODE_ENDPOINT
    ∧ (operationalState steepSettings 930 (-10)).activesettings.esc_direction = 1
    ∧ maxaccel (operationalState steepSettings 930 (-10)) = 32767
    ∧ (950 : ℚ) + 60 ≥ (operationalState steepSettings 930 (-10)).activesettings.pos_end
    ∧ (950 : ℚ) < (operationalState steepSettings 930 (-10)).activesettings.pos_end
    ∧ 1 * clampedValue (operationalState steepSettings 930 (-10)) (stickInputs 1700 950) > 0
    ∧ ¬ runawayUpper (operationalState steepSettings 930 (-10)) (stickInputs 1700 950) 950 60
    ∧ ¬ runawayLower (operationalState steepSettings 930 (-10)) (stickInputs 1700 950) 950 60
    ∧ rampUpper (-10) 32767 1 = 0
    ∧ (stickCycle (operationalState steepSettings 930 (-10)) (stickInputs 1700 950) 950
        60).exit = completed
    ∧ (stickCycle (operationalState steepSettings 930 (-10)) (stickInputs 1700 950) 950
        60).value = 32759
    ∧ (stickCycle (operationalState steepSettings 930 (-10)) (stickInputs 1700 950) 950
        60).st.stick_last_value = 32759 := by
  decide!

/-! ## C10: the monitor tag of the endpoint brake -/

/-- C10, the code at the failing input: ENDPOINT mode, OPERATIONAL, range 0..1000, the
encoder at 500 moving at 100 counts per tick with previous stick value 100, so that the
brake distance 500 reaches both endpoints, and the stick full forward. The upper block
brakes (the value ramps from 100 to 90) and sets ENDPOINTBRAKE, no failsafe return is taken,
but the lower block then resets `monitor` to FREE, with which the tick ends. -/
theorem C10_monitor_cleared_by_lower_block :
    (operationalState exampleSettings 400 100).controllerstatus.safemode = OPERATIONAL
    ∧ (operationalState exampleSettings 400 100).activesettings.mode = MODE_ENDPOINT
    ∧ distanceToStop (operationalState exampleSettings 400 100) (stickInputs 1700 500) = 500
    ∧ referencePos (operationalState exampleSettings 400 100) (stickInputs 1700 500)
        + distanceToStop (operationalState exampleSettings 400 100) (stickInputs 1700 500)
        ≥ (operationalState exampleSettings 400 100).activesettings.pos_end
    ∧ (operationalState exampleSettings 400 100).activesettings.esc_direction
        * clampedValue (resetMonitor (operationalState exampleSettings 400 100))
            (stickInputs 1700 500) > 0
    ∧ (tickStick (operationalState exampleSettings 400 100) (stickInputs 1700 500)).exit
        = completed
    ∧ (controllercycle 100 (operationalState exampleSettings 400 100)
        (stickInputs 1700 500)).esc_output = 90
    ∧ (controllercycle 100 (operationalState exampleSettings 400 100)
        (stickInputs 1700 500)).st.controllerstatus.monitor = FREE := by
  decide!

/-! ## The paths of `stickCycle` and the state they reach -/

theorem selfHealed_of_ordered (st : State)
    (h : st.activesettings.pos_start ≤ st.activesettings.pos_end) : selfHealed st = st := by
  unfold selfHealed
  split_ifs
  · exact orderEndpoints_of_ordered st h
  · rfl

theorem selfHealed_ordered (st : State)
    (h : guardActive st ∨ st.activesettings.pos_start ≤ st.activesettings.pos_end) :
    (selfHealed st).activesettings.pos_start ≤ (selfHealed st).activesettings.pos_end := by
  unfold selfHealed
  split_ifs with hg
  · exact orderEndpoints_ordered st
  · rcases h with h | h
    · exact absurd h hg
    · exact h

theorem selfHealed_guardFrame (st : State) :
    (selfHealed st).controllerstatus = st.controllerstatus
    ∧ (selfHealed st).endpointclicks = st.endpointclicks
    ∧ (selfHealed st).lastendpointswitch = st.lastendpointswitch
    ∧ (selfHealed st).stick_last_value = st.stick_last_value
    ∧ (selfHealed st).activesettings.fixed = st.activesettings.fixed
    ∧ (selfHealed st).activesettings.stick_max_accel = st.activesettings.stick_max_accel
    ∧ (selfHealed st).activesettings.stick_max_speed = st.activesettings.stick_max_speed
    ∧ (selfHealed st).activesettings.esc_direction = st.activesettings.esc_direction := by
  simp only [selfHealed, orderEndpoints]
  split_ifs <;> simp [Settings.fixed]

theorem selfHealed_activesettings_congr (a b : State)
    (h : a.activesettings = b.activesettings) (hg : guardActive a ↔ guardActive b) :
    (selfHealed a).activesettings = (selfHealed b).activesettings := by
  unfold selfHealed
  by_cases hb : guardActive b
  · rw [if_pos hb, if_pos (hg.mpr hb)]
    exact orderEndpoints_activesettings_congr a b h
  · rw [if_neg hb, if_neg (fun ha => hb (hg.mp ha))]
    exact h

/-- On every path the filters leave a state that differs from the self-healed entry state
in `monitor`, the warning LED and `stick_last_value` at most. -/
theorem stickFilter_guardFrame (speed : Int) (pos b : ℚ) (v : Int) (st : State) :
    (stickFilter speed pos b v st).All
      (fun s e => GuardFrame (selfHealed st) s ∧ guardActive st ∧ e ≠ completed)
      (fun _ s => GuardFrame (selfHealed st) s) := by
  have hsame : ∀ s : State, GuardFrame s s := fun s => by simp [GuardFrame]
  have htrans : ∀ a b c : State, GuardFrame a b → GuardFrame b c → GuardFrame a c := by
    intro a b c h1 h2
    simp only [GuardFrame] at *
    simp_all
  by_cases hg : guardActive st
  · have hm : st.activesettings.mode ≠ MODE_PASSTHROUGH := hg.2.1
    have hc : st.controllerstatus.safemode = OPERATIONAL
        ∧ st.activesettings.mode ≠ MODE_PASSTHROUGH
        ∧ st.activesettings.mode ≠ MODE_LIMITER := hg
    simp only [stickFilter, endpointGuard, if_pos hm, if_pos hc, selfHealed, if_pos hg]
    have hu := (upperEndpoint_frame (maxaccel st) speed pos b (limited st v)
      (orderEndpoints st)).and (upperEndpoint_returnTag (maxaccel st) speed pos b (limited st v)
      (orderEndpoints st))
    refine Flow.All.andThen (Q := fun _ s => GuardFrame (orderEndpoints st) s)
      (hu.mono (fun s e h => ⟨h.1, hg, ?_⟩) (fun _ _ h => h.1.1)) ?_
    · rcases h.2 with ⟨he, _⟩ | ⟨he, _⟩ <;> rw [he] <;> decide
    · intro w s hs
      have hl := (lowerEndpoint_frame (maxaccel st) speed pos b w s).and
        (lowerEndpoint_returnTag (maxaccel st) speed pos b w s)
      refine hl.mono (fun s2 e h => ⟨htrans _ _ _ hs h.1, hg, ?_⟩)
        (fun _ s2 h => htrans _ _ _ hs h.1.1)
      rcases h.2 with ⟨he, _⟩ | ⟨he, _⟩ <;> rw [he] <;> decide
  · have hc : ¬(st.controllerstatus.safemode = OPERATIONAL
        ∧ st.activesettings.mode ≠ MODE_PASSTHROUGH
        ∧ st.activesettings.mode ≠ MODE_LIMITER) := hg
    simp only [stickFilter, endpointGuard, if_neg hc, selfHealed, if_neg hg]
    split_ifs <;> exact hsame st

theorem stickStart_guardActive (st : State) (inp : Inputs) :
    guardActive (stickStart st inp).2 ↔ guardActive st := by
  unfold guardActive
  rw [stickStart_activesettings]
  by_cases h : st.controllerstatus.safemode = OPERATIONAL
  · simp [stickStart_safemode_operational st inp h, h]
  · simp [stickStart_safemode_not_operational st inp h, h]

theorem stickStart_fields (st : State) (inp : Inputs) :
    (stickStart st inp).2.endpointclicks = st.endpointclicks
    ∧ (stickStart st inp).2.lastendpointswitch = st.lastendpointswitch
    ∧ ((stickStart st inp).2.controllerstatus.safemode = PROGRAMMING
        ↔ st.controllerstatus.safemode = PROGRAMMING)
    ∧ (stickStart st inp).2.controllerstatus.cyclemonitor_position
        = st.controllerstatus.cyclemonitor_position := by
  rcases getStickPositionRaw_state st inp with h | ⟨h0, h⟩
  · simp [stickStart, h]
  · simp [stickStart, h, h0]


theorem guardFrame_afterFilters (st s : State) (inp : Inputs)
    (h : GuardFrame (selfHealed (stickStart st inp).2) s) : AfterFilters st s := by
  obtain ⟨h1, h2, h3, h4, _, _, _, _⟩ := selfHealed_guardFrame (stickStart st inp).2
  obtain ⟨f1, f2, f3, _⟩ := stickStart_fields st inp
  have hs : s.controllerstatus.safemode = (stickStart st inp).2.controllerstatus.safemode := by
    rw [h.2.1, h1]
  refine ⟨?_, ?_, ?_, ?_, ?_⟩
  · rw [h.1]
    exact selfHealed_activesettings_congr _ _ (stickStart_activesettings st inp)
      (stickStart_guardActive st inp)
  · rw [h.2.2.2.2.2.2.2.2.2.1, h2, f1]
  · rw [h.2.2.2.2.2.2.2.2.2.2.1, h3, f2]
  · rw [hs]; exact f3
  · rw [hs]
    constructor
    · intro ho
      by_contra hn
      exact stickStart_safemode_not_operational st inp hn ho
    · exact stickStart_safemode_operational st inp

/-- The two kinds of path through `stickCycle`: a failsafe return of 0 out of the endpoint
guard, or completion through the part after the filters. -/
theorem stickCycle_paths (st : State) (inp : Inputs) (pos b : ℚ) :
    ((stickCycle st inp pos b).exit ≠ completed ∧ (stickCycle st inp pos b).value = 0
      ∧ guardActive st ∧ AfterFilters st (stickCycle st inp pos b).st)
    ∨ ((stickCycle st inp pos b).exit = completed
      ∧ ∃ s, AfterFilters st s
        ∧ (stickCycle st inp pos b).st = stickTail inp pos (stickCycle st inp pos b).value s) := by
  apply stickCycle_of_filter st inp pos b
    (fun r => (r.exit ≠ completed ∧ r.value = 0 ∧ guardActive st ∧ AfterFilters st r.st)
      ∨ (r.exit = completed ∧ ∃ s, AfterFilters st s ∧ r.st = stickTail inp pos r.value s))
  exact (stickFilter_guardFrame _ pos b _ _).mono
    (fun s e h => Or.inl ⟨h.2.2, rfl, (stickStart_guardActive st inp).mp h.2.1,
      guardFrame_afterFilters st s inp h.1⟩)
    (fun v s h => Or.inr ⟨rfl, s, guardFrame_afterFilters st s inp h, rfl⟩)

/-! ## The switches -/

theorem switch_congr (a b : State) (inp : Inputs)
    (h : a.activesettings.fixed = b.activesettings.fixed) :
    getProgrammingSwitch a inp = getProgrammingSwitch b inp
    ∧ getEndPointSwitch a inp = getEndPointSwitch b inp
    ∧ getMaxAccelPoti a inp = getMaxAccelPoti b inp
    ∧ getMaxSpeedPoti a inp = getMaxSpeedPoti b inp := by
  have h1 : a.activesettings.rc_channel_programming = b.activesettings.rc_channel_programming := by
    show a.activesettings.fixed.rc_channel_programming = b.activesettings.fixed.rc_channel_programming
    rw [h]
  have h2 : a.activesettings.rc_channel_endpoint = b.activesettings.rc_channel_endpoint := by
    show a.activesettings.fixed.rc_channel_endpoint = b.activesettings.fixed.rc_channel_endpoint
    rw [h]
  have h3 : a.activesettings.rc_channel_max_accel = b.activesettings.rc_channel_max_accel := by
    show a.activesettings.fixed.rc_channel_max_accel = b.activesettings.fixed.rc_channel_max_accel
    rw [h]
  have h4 : a.activesettings.rc_channel_max_speed = b.activesettings.rc_channel_max_speed := by
    show a.activesettings.fixed.rc_channel_max_speed = b.activesettings.fixed.rc_channel_max_speed
    rw [h]
  simp only [getProgrammingSwitch, getEndPointSwitch, getMaxAccelPoti, getMaxSpeedPoti,
    h1, h2, h3, h4, and_self]

theorem afterFilters_fixed (st s : State) (h : AfterFilters st s) :
    s.activesettings.fixed = st.activesettings.fixed := by
  rw [h.1]; exact (selfHealed_guardFrame st).2.2.2.2.1

/-- The part of `stickCycle` after the endpoint-switch block leaves the endpoints, the click
counter and the edge memory alone. -/
theorem stickTail_endpoints (inp : Inputs) (pos : ℚ) (v : Int) (s : State) :
    (stickTail inp pos v s).activesettings.pos_start
        = (endPointSwitch (programmingSwitch { s with stick_last_value := v } inp)
            inp).activesettings.pos_start
    ∧ (stickTail inp pos v s).activesettings.pos_end
        = (endPointSwitch (programmingSwitch { s with stick_last_value := v } inp)
            inp).activesettings.pos_end
    ∧ (stickTail inp pos v s).endpointclicks
        = (endPointSwitch (programmingSwitch { s with stick_last_value := v } inp)
            inp).endpointclicks
    ∧ (stickTail inp pos v s).lastendpointswitch
        = (endPointSwitch (programmingSwitch { s with stick_last_value := v } inp)
            inp).lastendpointswitch := by
  unfold stickTail
  generalize endPointSwitch (programmingSwitch { s with stick_last_value := v } inp) inp = c
  simp only [guessDirection, maxSpeedPoti, maxAccelPoti]
  split_ifs <;> exact ⟨rfl, rfl, rfl, rfl⟩

/-- The state in which a completed `stickCycle` call evaluates the endpoint switch. -/
theorem programmingSwitch_afterFilters (st s : State) (inp : Inputs) (v : Int)
    (h : AfterFilters st s) :
    (programmingSwitch { s with stick_last_value := v } inp).activesettings
        = (selfHealed st).activesettings
    ∧ (programmingSwitch { s with stick_last_value := v } inp).endpointclicks
        = clicksAfterSwitch st inp
    ∧ (programmingSwitch { s with stick_last_value := v } inp).lastendpointswitch
        = st.lastendpointswitch
    ∧ ((programmingSwitch { s with stick_last_value := v } inp).controllerstatus.safemode
        = PROGRAMMING ↔ ¬ getProgrammingSwitch st inp > 1200)
    ∧ getEndPointSwitch (programmingSwitch { s with stick_last_value := v } inp) inp
        = getEndPointSwitch st inp := by
  have hp : getProgrammingSwitch { s with stick_last_value := v } inp
      = getProgrammingSwitch st inp :=
    (switch_congr { s with stick_last_value := v } st inp (afterFilters_fixed st s h)).1
  obtain ⟨h1, h2, h3, h4, _⟩ := h
  have he : ∀ c : State, c.activesettings = s.activesettings →
      getEndPointSwitch c inp = getEndPointSwitch st inp := by
    intro c hc
    refine (switch_congr c st inp ?_).2.1
    rw [hc]; exact afterFilters_fixed st s ⟨h1, h2, h3, h4, by assumption⟩
  simp only [programmingSwitch, clicksAfterSwitch, hp]
  by_cases hsw : getProgrammingSwitch st inp > 1200
  · simp only [if_pos hsw]
    refine ⟨h1, ?_, h3, ?_, he _ rfl⟩
    · simp [hsw, h2]
    · simp [hsw]
  · simp only [if_neg hsw]
    refine ⟨h1, ?_, h3, ?_, he _ rfl⟩
    · by_cases hprog : st.controllerstatus.safemode = PROGRAMMING
      · simp [hsw, hprog, h4.mpr hprog, h2]
      · have : ¬ s.controllerstatus.safemode = PROGRAMMING := fun hs => hprog (h4.mp hs)
        simp [hsw, hprog, this]
    · simp [hsw]

/-- What the endpoint-switch block (lines 459-489) does. -/
theorem endPointSwitch_spec (st : State) (inp : Inputs) :
    ((endPointSwitch st inp).activesettings.pos_start,
      (endPointSwitch st inp).activesettings.pos_end, (endPointSwitch st inp).endpointclicks)
      = (if endpointClick st inp then
          if st.endpointclicks = 0 then
            ((((int32 inp.ENCODER_VALUE : Int) : ℚ)), st.activesettings.pos_end, (1 : Int))
          else if st.activesettings.pos_start < ((int32 inp.ENCODER_VALUE : Int) : ℚ) then
            (st.activesettings.pos_start, ((int32 inp.ENCODER_VALUE : Int) : ℚ),
              st.endpointclicks)
          else
            (((int32 inp.ENCODER_VALUE : Int) : ℚ), st.activesettings.pos_start,
              st.endpointclicks)
        else (st.activesettings.pos_start, st.activesettings.pos_end, st.endpointclicks))
    ∧ (endPointSwitch st inp).lastendpointswitch = getEndPointSwitch st inp := by
  simp only [endPointSwitch, endpointClick]
  split_ifs <;> first | exact ⟨rfl, rfl⟩ | exact ⟨rfl, trivial⟩

theorem endpointClick_afterFilters (st s : State) (inp : Inputs) (v : Int)
    (h : AfterFilters st s) :
    endpointClick (programmingSwitch { s with stick_last_value := v } inp) inp
      ↔ clickAccepted st inp := by
  obtain ⟨_, _, h3, h4, h5⟩ := programmingSwitch_afterFilters st s inp v h
  unfold endpointClick clickAccepted
  rw [h3, h4, h5]

/-- The endpoints, the click counter and the edge memory after a call of `stickCycle` that
runs to completion. -/
theorem stickCycle_completed_endpoints (st : State) (inp : Inputs) (pos b : ℚ)
    (hc : (stickCycle st inp pos b).exit = completed) :
    ((stickCycle st inp pos b).st.activesettings.pos_start,
      (stickCycle st inp pos b).st.activesettings.pos_end,
      (stickCycle st inp pos b).st.endpointclicks) = programmedEndpoints st inp
    ∧ (stickCycle st inp pos b).st.lastendpointswitch = getEndPointSwitch st inp := by
  rcases stickCycle_paths st inp pos b with ⟨hn, _⟩ | ⟨_, s, hs, hst⟩
  · exact absurd hc hn
  · obtain ⟨t1, t2, t3, t4⟩ := stickTail_endpoints inp pos (stickCycle st inp pos b).value s
    obtain ⟨e1, e2⟩ := endPointSwitch_spec
      (programmingSwitch { s with stick_last_value := (stickCycle st inp pos b).value } inp) inp
    obtain ⟨p1, p2, _, _, p5⟩ := programmingSwitch_afterFilters st s inp
      (stickCycle st inp pos b).value hs
    have hcl := endpointClick_afterFilters st s inp (stickCycle st inp pos b).value hs
    rw [hst, t1, t2, t3, t4, e1, e2, p1, p2, p5]
    refine ⟨?_, rfl⟩
    simp only [programmedEndpoints]
    by_cases hk : clickAccepted st inp
    · rw [if_pos hk, if_pos (hcl.mpr hk)]
    · rw [if_neg hk, if_neg (fun h => hk (hcl.mp h))]

/-- The endpoints, the click counter and the edge memory after a failsafe return. -/
theorem stickCycle_returned_endpoints (st : State) (inp : Inputs) (pos b : ℚ)
    (hc : (stickCycle st inp pos b).exit ≠ completed) :
    (stickCycle st inp pos b).st.activesettings = (selfHealed st).activesettings
    ∧ (stickCycle st inp pos b).st.endpointclicks = st.endpointclicks
    ∧ (stickCycle st inp pos b).st.lastendpointswitch = st.lastendpointswitch
    ∧ guardActive st := by
  rcases stickCycle_paths st inp pos b with ⟨_, _, hg, h1, h2, h3, _⟩ | ⟨he, _⟩
  · exact ⟨h1, h2, h3, hg⟩
  · exact absurd he hc

/-! ## C11: the order of the endpoints -/

/-- C11 as amended: from a state with `pos_start <= pos_end`, for all readings, positions
and safemodes, the state after `stickCycle` again has `pos_start <= pos_end`, unless the
call accepts a first endpoint click (`endpointclicks` is 0 after the programming-switch
evaluation) at an encoder position beyond `pos_end`; then `pos_start` is that position and
`pos_end` is unchanged. -/
theorem C11_endpoint_order (st : State) (inp : Inputs) (pos brakedistance : ℚ)
    (hord : st.activesettings.pos_start ≤ st.activesettings.pos_end) :
    (stickCycle st inp pos brakedistance).st.activesettings.pos_start
        ≤ (stickCycle st inp pos brakedistance).st.activesettings.pos_end
    ∨ ((stickCycle st inp pos brakedistance).exit = completed
      ∧ clickAccepted st inp ∧ clicksAfterSwitch st inp = 0
      ∧ st.activesettings.pos_end < ((int32 inp.ENCODER_VALUE : Int) : ℚ)
      ∧ (stickCycle st inp pos brakedistance).st.activesettings.pos_start
          = ((int32 inp.ENCODER_VALUE : Int) : ℚ)
      ∧ (stickCycle st inp pos brakedistance).st.activesettings.pos_end
          = st.activesettings.pos_end) := by
  by_cases hc : (stickCycle st inp pos brakedistance).exit = completed
  · have h := (stickCycle_completed_endpoints st inp pos brakedistance hc).1
    simp only [programmedEndpoints, selfHealed_of_ordered st hord] at h
    split_ifs at h with hk h0 hlt
    · simp only [Prod.mk.injEq] at h
      by_cases hp : ((int32 inp.ENCODER_VALUE : Int) : ℚ) ≤ st.activesettings.pos_end
      · left; rw [h.1, h.2.1]; exact hp
      · right; exact ⟨hc, hk, h0, not_le.mp hp, h.1, h.2.1⟩
    · simp only [Prod.mk.injEq] at h
      left; rw [h.1, h.2.1]; exact le_of_lt hlt
    · simp only [Prod.mk.injEq] at h
      left; rw [h.1, h.2.1]; exact not_lt.mp hlt
    · simp only [Prod.mk.injEq] at h
      left; rw [h.1, h.2.1]; exact hord
  · left
    rw [(stickCycle_returned_endpoints st inp pos brakedistance hc).1,
      selfHealed_of_ordered st hord]
    exact hord

/-- Witness of C11 as amended: a second click at 600 inside the range 0..1000. -/
theorem C11_endpoint_order_witness :
    (stickCycle (armedForClick exampleSettings 1) (clickInputs 1800 600) 600
        0).st.activesettings.pos_start
      ≤ (stickCycle (armedForClick exampleSettings 1) (clickInputs 1800 600) 600
        0).st.activesettings.pos_end :=
  (C11_endpoint_order (armedForClick exampleSettings 1) (clickInputs 1800 600) 600 0
    (by decide!)).resolve_right (by decide!)

/-- Counterexample to C11: both endpoints are set (0 and 1000), a new PROGRAMMING session
has started (`endpointclicks = 0`) and the first click comes at encoder position 2000:
`pos_start` becomes 2000 and `pos_end` stays 1000. -/
theorem C11_endpoint_order_counterexample :
    (armedForClick exampleSettings 0).activesettings.pos_start
        ≤ (armedForClick exampleSettings 0).activesettings.pos_end
    ∧ (stickCycle (armedForClick exampleSettings 0) (clickInputs 1800 2000) 2000
        0).st.activesettings.pos_start = 2000
    ∧ (stickCycle (armedForClick exampleSettings 0) (clickInputs 1800 2000) 2000
        0).st.activesettings.pos_end = 1000
    ∧ ¬ ((stickCycle (armedForClick exampleSettings 0) (clickInputs 1800 2000) 2000
        0).st.activesettings.pos_start
      ≤ (stickCycle (armedForClick exampleSettings 0) (clickInputs 1800 2000) 2000
        0).st.activesettings.pos_end) := by
  decide!

/-! ## C12: what an endpoint click sets -/

/-- C12: an accepted endpoint click (rising edge of the endpoint switch while the safemode
is PROGRAMMING) at encoder position `p`: with `endpointclicks = 0` it sets `pos_start` to
`p`, leaves `pos_end` and sets `endpointclicks` to 1; otherwise, if `pos_start < p`, it sets
`pos_end` to `p` and leaves `pos_start`, else it sets `pos_end` to the old `pos_start` and
`pos_start` to `p`, and `endpointclicks` stays as it is (1). After a second or later click
`pos_start <= pos_end`. -/
theorem C12_endpoint_click (st : State) (inp : Inputs) (hclick : endpointClick st inp) :
    (st.endpointclicks = 0 →
      (endPointSwitch st inp).activesettings.pos_start = ((int32 inp.ENCODER_VALUE : Int) : ℚ)
      ∧ (endPointSwitch st inp).activesettings.pos_end = st.activesettings.pos_end
      ∧ (endPointSwitch st inp).endpointclicks = 1)
    ∧ (st.endpointclicks ≠ 0 →
        st.activesettings.pos_start < ((int32 inp.ENCODER_VALUE : Int) : ℚ) →
      (endPointSwitch st inp).activesettings.pos_end = ((int32 inp.ENCODER_VALUE : Int) : ℚ)
      ∧ (endPointSwitch st inp).activesettings.pos_start = st.activesettings.pos_start
      ∧ (endPointSwitch st inp).endpointclicks = st.endpointclicks)
    ∧ (st.endpointclicks ≠ 0 →
        ¬ st.activesettings.pos_start < ((int32 inp.ENCODER_VALUE : Int) : ℚ) →
      (endPointSwitch st inp).activesettings.pos_end = st.activesettings.pos_start
      ∧ (endPointSwitch st inp).activesettings.pos_start = ((int32 inp.ENCODER_VALUE : Int) : ℚ)
      ∧ (endPointSwitch st inp).endpointclicks = st.endpointclicks)
    ∧ (st.endpointclicks ≠ 0 →
      (endPointSwitch st inp).activesettings.pos_start
        ≤ (endPointSwitch st inp).activesettings.pos_end)
    ∧ (st.endpointclicks = 1 → (endPointSwitch st inp).endpointclicks = 1) := by
  have h := (endPointSwitch_spec st inp).1
  rw [if_pos hclick] at h
  refine ⟨?_, ?_, ?_, ?_, ?_⟩
  · intro h0
    rw [if_pos h0] at h
    simp only [Prod.mk.injEq] at h
    exact h
  · intro h0 hlt
    rw [if_neg h0, if_pos hlt] at h
    simp only [Prod.mk.injEq] at h
    exact ⟨h.2.1, h.1, h.2.2⟩
  · intro h0 hlt
    rw [if_neg h0, if_neg hlt] at h
    simp only [Prod.mk.injEq] at h
    exact ⟨h.2.1, h.1, h.2.2⟩
  · intro h0
    rw [if_neg h0] at h
    split_ifs at h with hlt
    · simp only [Prod.mk.injEq] at h
      rw [h.1, h.2.1]; exact le_of_lt hlt
    · simp only [Prod.mk.injEq] at h
      rw [h.1, h.2.1]; exact not_lt.mp hlt
  · intro h1
    have h0 : st.endpointclicks ≠ 0 := by rw [h1]; decide
    rw [if_neg h0] at h
    split_ifs at h <;> simp only [Prod.mk.injEq] at h <;> rw [h.2.2, h1]

/-- Witness of C12: a third click at 600 with the endpoints at 200 and 800 moves `pos_end`
to 600; and the scenario through whole ticks: from power-up in PROGRAMMING, press-release
clicks at the encoder positions 200 and 800 give the endpoints (200, 800), and a third click
at 600 gives (200, 600). -/
theorem C12_endpoint_click_witness :
    ((endPointSwitch
        (armedForClick { exampleSettings with pos_start := 200, pos_end := 800 } 1)
        (clickInputs 1800 600)).activesettings.pos_end = 600
      ∧ (endPointSwitch
        (armedForClick { exampleSettings with pos_start := 200, pos_end := 800 } 1)
        (clickInputs 1800 600)).activesettings.pos_start = 200)
    ∧ (runTicks 100
        [clickInputs 1000 0, clickInputs 1800 200, clickInputs 1000 500, clickInputs 1800 800]
        (initState exampleSettings)).activesettings.pos_start = 200
    ∧ (runTicks 100
        [clickInputs 1000 0, clickInputs 1800 200, clickInputs 1000 500, clickInputs 1800 800]
        (initState exampleSettings)).activesettings.pos_end = 800
    ∧ (runTicks 100
        [clickInputs 1000 0, clickInputs 1800 200, clickInputs 1000 500, clickInputs 1800 800,
          clickInputs 1000 700, clickInputs 1800 600]
        (initState exampleSettings)).activesettings.pos_start = 200
    ∧ (runTicks 100
        [clickInputs 1000 0, clickInputs 1800 200, clickInputs 1000 500, clickInputs 1800 800,
          clickInputs 1000 700, clickInputs 1800 600]
        (initState exampleSettings)).activesettings.pos_end = 600 :=
  ⟨by
    have h := (C12_endpoint_click
      (armedForClick { exampleSettings with pos_start := 200, pos_end := 800 } 1)
      (clickInputs 1800 600) (by decide!)).2.1 (by decide) (by decide!)
    exact ⟨h.1.trans (by decide!), h.2.1.trans (by decide!)⟩,
   by decide!⟩

/-! ## C13: endpoint programming is edge-triggered -/

theorem positionLoop_frame (st : State) (inp : Inputs) (pos : ℚ) (v : Int) :
    (positionLoop st inp pos v).2.activesettings = st.activesettings
    ∧ (positionLoop st inp pos v).2.endpointclicks = st.endpointclicks
    ∧ (positionLoop st inp pos v).2.lastendpointswitch = st.lastendpointswitch
    ∧ (positionLoop st inp pos v).2.stick_last_value = st.stick_last_value
    ∧ (positionLoop st inp pos v).2.controllerstatus.cyclemonitor_position
        = st.controllerstatus.cyclemonitor_position := by
  simp only [positionLoop]
  split_ifs <;> simp [resetPosTarget, resetThrottle]

theorem outputStage_frame (st : State) (inp : Inputs) (pos : ℚ) (v : Int) :
    (outputStage st inp pos v).2.activesettings = st.activesettings
    ∧ (outputStage st inp pos v).2.endpointclicks = st.endpointclicks
    ∧ (outputStage st inp pos v).2.lastendpointswitch = st.lastendpointswitch
    ∧ (outputStage st inp pos v).2.stick_last_value = st.stick_last_value
    ∧ (outputStage st inp pos v).2.controllerstatus.cyclemonitor_position
        = st.controllerstatus.cyclemonitor_position := by
  unfold outputStage
  split_ifs
  · exact positionLoop_frame st inp pos v
  · exact ⟨rfl, rfl, rfl, rfl, rfl⟩
  · exact ⟨rfl, rfl, rfl, rfl, rfl⟩

/-- After `stickCycle` a tick writes neither the settings nor the click counter, the edge
memory or `stick_last_value`. -/
theorem controllercycle_frame (n : Nat) (st : State) (inp : Inputs) :
    (controllercycle n st inp).st.activesettings = (tickStick st inp).st.activesettings
    ∧ (controllercycle n st inp).st.endpointclicks = (tickStick st inp).st.endpointclicks
    ∧ (controllercycle n st inp).st.lastendpointswitch
        = (tickStick st inp).st.lastendpointswitch
    ∧ (controllercycle n st inp).st.stick_last_value
        = (tickStick st inp).st.stick_last_value := by
  obtain ⟨h1, h2, h3, h4, _⟩ := outputStage_frame (tickStick st inp).st inp
    ((int32 inp.ENCODER_VALUE : Int) : ℚ) (tickStick st inp).value
  simp only [controllercycle]
  split_ifs <;> exact ⟨h1, h2, h3, h4⟩

theorem programmedEndpoints_resetMonitor (st : State) (inp : Inputs) :
    programmedEndpoints (resetMonitor st) inp = programmedEndpoints st inp := by
  have h := selfHealed_activesettings_congr (resetMonitor st) st rfl Iff.rfl
  have hk : clickAccepted (resetMonitor st) inp ↔ clickAccepted st inp := Iff.rfl
  have hc : clicksAfterSwitch (resetMonitor st) inp = clicksAfterSwitch st inp := rfl
  simp only [programmedEndpoints, h, hc]
  by_cases hk2 : clickAccepted st inp
  · rw [if_pos hk2, if_pos (hk.mpr hk2)]
  · rw [if_neg hk2, if_neg (fun hh => hk2 (hk.mp hh))]

/-- The endpoints, the click counter and the edge memory after a tick whose `stickCycle`
runs to completion. -/
theorem controllercycle_completed_endpoints (n : Nat) (st : State) (inp : Inputs)
    (hc : (tickStick st inp).exit = completed) :
    ((controllercycle n st inp).st.activesettings.pos_start,
      (controllercycle n st inp).st.activesettings.pos_end,
      (controllercycle n st inp).st.endpointclicks) = programmedEndpoints st inp
    ∧ (controllercycle n st inp).st.lastendpointswitch = getEndPointSwitch st inp := by
  obtain ⟨f1, f2, f3, _⟩ := controllercycle_frame n st inp
  obtain ⟨e1, e2⟩ := stickCycle_completed_endpoints (resetMonitor st) inp (referencePos st inp)
    (distanceToStop st inp) hc
  rw [f1, f2, f3]
  exact ⟨e1.trans (programmedEndpoints_resetMonitor st inp), e2⟩

/-- The endpoints and the click counter after a tick whose `stickCycle` takes a failsafe
return. -/
theorem controllercycle_returned_endpoints (n : Nat) (st : State) (inp : Inputs)
    (hc : (tickStick st inp).exit ≠ completed) :
    (controllercycle n st inp).st.activesettings = (selfHealed st).activesettings
    ∧ (controllercycle n st inp).st.endpointclicks = st.endpointclicks
    ∧ (controllercycle n st inp).st.lastendpointswitch = st.lastendpointswitch
    ∧ guardActive st := by
  obtain ⟨f1, f2, f3, _⟩ := controllercycle_frame n st inp
  obtain ⟨e1, e2, e3, e4⟩ := stickCycle_returned_endpoints (resetMonitor st) inp
    (referencePos st inp) (distanceToStop st inp) hc
  rw [f1, f2, f3]
  exact ⟨e1.trans (selfHealed_activesettings_congr (resetMonitor st) st rfl Iff.rfl), e2, e3, e4⟩

theorem tickStick_completed_of_programming (st : State) (inp : Inputs)
    (h : st.controllerstatus.safemode = PROGRAMMING) : (tickStick st inp).exit = completed := by
  by_contra hc
  have hg := (stickCycle_returned_endpoints (resetMonitor st) inp (referencePos st inp)
    (distanceToStop st inp) hc).2.2.2
  have : st.controllerstatus.safemode = OPERATIONAL := hg.1
  rw [h] at this
  exact absurd this (by decide)

/-- C13 as amended: endpoint programming is edge-triggered on the stored edge memory. Of two
consecutive ticks entered in PROGRAMMING safemode with the endpoint switch above 1200 on
both, the second changes none of `pos_start`, `pos_end`, `endpointclicks`. A tick entered
with `lastendpointswitch` equal to 0 or above 1200 sets no endpoint, whatever the current
reading: it leaves `pos_start` and `pos_end` as they are after the ordering self-heal, and
`endpointclicks` as the programming switch leaves it. `lastendpointswitch` is the reading of
the previous tick when that tick ran `stickCycle` to completion: a tick that follows a
completed tick whose endpoint-switch reading was 0 or above 1200 sets no endpoint. -/
theorem C13_edge_triggered (n : Nat) (st : State) (inp1 inp2 : Inputs) :
    (st.controllerstatus.safemode = PROGRAMMING →
      (controllercycle n st inp1).st.controllerstatus.safemode = PROGRAMMING →
      getEndPointSwitch st inp1 > 1200 → getEndPointSwitch st inp2 > 1200 →
      (controllercycle n (controllercycle n st inp1).st inp2).st.activesettings.pos_start
          = (controllercycle n st inp1).st.activesettings.pos_start
      ∧ (controllercycle n (controllercycle n st inp1).st inp2).st.activesettings.pos_end
          = (controllercycle n st inp1).st.activesettings.pos_end
      ∧ (controllercycle n (controllercycle n st inp1).st inp2).st.endpointclicks
          = (controllercycle n st inp1).st.endpointclicks)
    ∧ (st.lastendpointswitch = 0 ∨ st.lastendpointswitch > 1200 →
      (controllercycle n st inp1).st.activesettings.pos_start
          = (selfHealed st).activesettings.pos_start
      ∧ (controllercycle n st inp1).st.activesettings.pos_end
          = (selfHealed st).activesettings.pos_end
      ∧ ((controllercycle n st inp1).st.endpointclicks = clicksAfterSwitch st inp1
        ∨ (controllercycle n st inp1).st.endpointclicks = st.endpointclicks))
    ∧ ((tickStick st inp1).exit = completed →
      getEndPointSwitch st inp1 = 0 ∨ getEndPointSwitch st inp1 > 1200 →
      (controllercycle n st inp1).st.lastendpointswitch = getEndPointSwitch st inp1
      ∧ (controllercycle n (controllercycle n st inp1).st inp2).st.activesettings.pos_start
          = (selfHealed (controllercycle n st inp1).st).activesettings.pos_start
      ∧ (controllercycle n (controllercycle n st inp1).st inp2).st.activesettings.pos_end
          = (selfHealed (controllercycle n st inp1).st).activesettings.pos_end
      ∧ ((controllercycle n (controllercycle n st inp1).st inp2).st.endpointclicks
          = clicksAfterSwitch (controllercycle n st inp1).st inp2
        ∨ (controllercycle n (controllercycle n st inp1).st inp2).st.endpointclicks
          = (controllercycle n st inp1).st.endpointclicks)) := by
  have hnoclick : ∀ (s : State) (inp : Inputs),
      (s.lastendpointswitch = 0 ∨ s.lastendpointswitch > 1200) →
      (controllercycle n s inp).st.activesettings.pos_start
          = (selfHealed s).activesettings.pos_start
      ∧ (controllercycle n s inp).st.activesettings.pos_end
          = (selfHealed s).activesettings.pos_end
      ∧ ((tickStick s inp).exit = completed →
          (controllercycle n s inp).st.endpointclicks = clicksAfterSwitch s inp)
      ∧ ((tickStick s inp).exit ≠ completed →
          (controllercycle n s inp).st.endpointclicks = s.endpointclicks) := by
    intro s inp hl
    have hk : ¬ clickAccepted s inp := by
      rintro ⟨_, _, h3, h4⟩
      rcases hl with h | h
      · exact h4 h
      · omega
    by_cases hc : (tickStick s inp).exit = completed
    · have h := (controllercycle_completed_endpoints n s inp hc).1
      simp only [programmedEndpoints, if_neg hk, Prod.mk.injEq] at h
      exact ⟨h.1, h.2.1, fun _ => h.2.2, fun hn => absurd hc hn⟩
    · obtain ⟨h1, h2, _, _⟩ := controllercycle_returned_endpoints n s inp hc
      exact ⟨by rw [h1], by rw [h1], fun hh => absurd hh hc, fun _ => h2⟩
  refine ⟨?_, ?_, ?_⟩
  · intro hp1 hp2 hs1 hs2
    have hc1 := tickStick_completed_of_programming st inp1 hp1
    have hc2 := tickStick_completed_of_programming (controllercycle n st inp1).st inp2 hp2
    have hlast := (controllercycle_completed_endpoints n st inp1 hc1).2
    have hng : ¬ guardActive (controllercycle n st inp1).st := by
      intro hg
      have : (controllercycle n st inp1).st.controllerstatus.safemode = OPERATIONAL := hg.1
      rw [hp2] at this
      exact absurd this (by decide)
    obtain ⟨a1, a2, a3, _⟩ := hnoclick (controllercycle n st inp1).st inp2
      (Or.inr (by rw [hlast]; exact hs1))
    have hsh : selfHealed (controllercycle n st inp1).st = (controllercycle n st inp1).st := by
      unfold selfHealed; rw [if_neg hng]
    rw [hsh] at a1 a2
    refine ⟨a1, a2, ?_⟩
    rw [a3 hc2]
    simp [clicksAfterSwitch, hp2]
  · intro hl
    obtain ⟨a1, a2, a3, a4⟩ := hnoclick st inp1 hl
    refine ⟨a1, a2, ?_⟩
    by_cases hc : (tickStick st inp1).exit = completed
    · exact Or.inl (a3 hc)
    · exact Or.inr (a4 hc)
  · intro hc1 hread
    have hlast := (controllercycle_completed_endpoints n st inp1 hc1).2
    obtain ⟨a1, a2, a3, a4⟩ := hnoclick (controllercycle n st inp1).st inp2
      (by rw [hlast]; exact hread)
    refine ⟨hlast, a1, a2, ?_⟩
    by_cases hc : (tickStick (controllercycle n st inp1).st inp2).exit = completed
    · exact Or.inl (a3 hc)
    · exact Or.inr (a4 hc)

/-- Witness of C13: the switch is pressed at encoder position 200 (first click) and held
while the encoder moves to 300: the second tick leaves `pos_start` at 200. -/
theorem C13_edge_triggered_witness :
    (controllercycle 100 (controllercycle 100 (armedForClick exampleSettings 0)
        (clickInputs 1800 200)).st (clickInputs 1800 300)).st.activesettings.pos_start
      = (controllercycle 100 (armedForClick exampleSettings 0)
        (clickInputs 1800 200)).st.activesettings.pos_start :=
  ((C13_edge_triggered 100 (armedForClick exampleSettings 0) (clickInputs 1800 200)
    (clickInputs 1800 300)).1 rfl (by decide!) (by decide) (by decide)).1

/-- Counterexample to C13: three ticks from power-up (see `staleClickTicks`). The second
tick leaves `stickCycle` through the hard failsafe, so its endpoint-switch reading 1800 is
not stored and `lastendpointswitch` stays 1000. On the third tick the previous reading was
above 1200 and the switch is still held, yet the tick sets `pos_start` to the encoder
position 1060. -/
theorem C13_edge_triggered_counterexample :
    getEndPointSwitch (runTicks 100 (staleClickTicks.take 1) (initState exampleSettings))
        (channelInputs 1700 1500 1800 0 0 1060) = 1800
    ∧ (tickStick (runTicks 100 (staleClickTicks.take 1) (initState exampleSettings))
        (channelInputs 1700 1500 1800 0 0 1060)).exit = hard_failsafe
    ∧ (runTicks 100 (staleClickTicks.take 2) (initState exampleSettings)).lastendpointswitch
        = 1000
    ∧ (runTicks 100 (staleClickTicks.take 2)
        (initState exampleSettings)).activesettings.pos_start = 0
    ∧ getEndPointSwitch (runTicks 100 (staleClickTicks.take 2) (initState exampleSettings))
        (channelInputs 1500 1000 1800 0 0 1060) = 1800
    ∧ (runTicks 100 staleClickTicks (initState exampleSettings)).activesettings.pos_start
        = 1060
    ∧ (runTicks 100 staleClickTicks (initState exampleSettings)).endpointclicks = 1 := by
  decide!

/-! ## C14: the programming switch -/

/-- C14: a call of `stickCycle` that runs to completion with the programming switch at `p`
ends in OPERATIONAL if `p > 1200` and in PROGRAMMING otherwise, whatever the safemode
before. The switch evaluation resets `endpointclicks` to 0 exactly when `p <= 1200` and the
safemode before it was not PROGRAMMING, and leaves it otherwise; at the end of the call
`endpointclicks` has that value, or 1 if the call also accepts a first endpoint click. -/
theorem C14_programming_switch (st : State) (inp : Inputs) (pos brakedistance : ℚ)
    (hc : (stickCycle st inp pos brakedistance).exit = completed) :
    (stickCycle st inp pos brakedistance).st.controllerstatus.safemode
      = (if getProgrammingSwitch st inp > 1200 then OPERATIONAL else PROGRAMMING)
    ∧ (∀ s : State, (programmingSwitch s inp).endpointclicks
        = if getProgrammingSwitch s inp ≤ 1200 ∧ s.controllerstatus.safemode ≠ PROGRAMMING
          then 0 else s.endpointclicks)
    ∧ (¬ clickAccepted st inp →
      (stickCycle st inp pos brakedistance).st.endpointclicks
        = if getProgrammingSwitch st inp ≤ 1200 ∧ st.controllerstatus.safemode ≠ PROGRAMMING
          then 0 else st.endpointclicks)
    ∧ (clickAccepted st inp →
      (stickCycle st inp pos brakedistance).st.endpointclicks
        = if (getProgrammingSwitch st inp ≤ 1200 ∧ st.controllerstatus.safemode ≠ PROGRAMMING)
            ∨ st.endpointclicks = 0
          then 1 else st.endpointclicks) := by
  refine ⟨?_, ?_, ?_, ?_⟩
  · rcases stickCycle_paths st inp pos brakedistance with ⟨hn, _⟩ | ⟨_, s, hs, hst⟩
    · exact absurd hc hn
    · rw [hst, stickTail_safemode]
      rw [(switch_congr s st inp (afterFilters_fixed st s hs)).1]
  · intro s
    simp only [programmingSwitch]
    split_ifs with h1 h2 h3 <;> first | rfl | omega | (exfalso; simp_all)
  · intro hk
    have h := (stickCycle_completed_endpoints st inp pos brakedistance hc).1
    simp only [programmedEndpoints, if_neg hk, Prod.mk.injEq] at h
    rw [h.2.2]
    simp only [clicksAfterSwitch, not_lt]
  · intro hk
    have h := (stickCycle_completed_endpoints st inp pos brakedistance hc).1
    simp only [programmedEndpoints, if_pos hk] at h
    by_cases hr : getProgrammingSwitch st inp ≤ 1200
        ∧ st.controllerstatus.safemode ≠ PROGRAMMING
    · have hcs : clicksAfterSwitch st inp = 0 := by
        simp only [clicksAfterSwitch, not_lt]; rw [if_pos hr]
      rw [if_pos hcs] at h
      simp only [Prod.mk.injEq] at h
      rw [h.2.2, if_pos (Or.inl hr)]
    · have hcs : clicksAfterSwitch st inp = st.endpointclicks := by
        simp only [clicksAfterSwitch, not_lt]; rw [if_neg hr]
      rw [hcs] at h
      by_cases h0 : st.endpointclicks = 0
      · rw [if_pos h0] at h
        simp only [Prod.mk.injEq] at h
        rw [h.2.2, if_pos (Or.inr h0)]
      · rw [if_neg h0] at h
        have hne : ¬((getProgrammingSwitch st inp ≤ 1200
            ∧ st.controllerstatus.safemode ≠ PROGRAMMING) ∨ st.endpointclicks = 0) := by
          rintro (h1 | h1)
          · exact hr h1
          · exact h0 h1
        rw [if_neg hne]
        split_ifs at h <;> simp only [Prod.mk.injEq] at h <;> exact h.2.2

/-- Witness of C14: from OPERATIONAL with `endpointclicks = 1`, LIMITER mode, the programming
switch at 1200: the call ends in PROGRAMMING. -/
theorem C14_programming_switch_witness :
    (stickCycle { operationalState { exampleSettings with mode := MODE_LIMITER } 0 0 with
        endpointclicks := 1 } (tickInputs 1500 1200 0) 0 0).st.controllerstatus.safemode
      = PROGRAMMING :=
  ((C14_programming_switch
    { operationalState { exampleSettings with mode := MODE_LIMITER } 0 0 with
        endpointclicks := 1 } (tickInputs 1500 1200 0) 0 0 (by decide!)).1).trans (by decide)

/-! ## C15: the dead band -/

/-- C15: `getStickPositionRaw` equals the reference dead-band function of the spec when
`stick_neutral_range >= 0` and `raw = duty - stick_neutral_pos` fits int16. The safemode is
changed only in the startup-gate case, to NOT_NEUTRAL_AT_STARTUP, and nothing else of the
state is changed. Outside the startup safemodes the first duty above the neutral range maps
to +1 and the first below to -1. -/
theorem C15_deadband (st : State) (inp : Inputs)
    (hR : 0 ≤ st.activesettings.stick_neutral_range)
    (hfit : -32768 ≤ (inp.getDuty st.activesettings.rc_channel_speed : Int)
          - st.activesettings.stick_neutral_pos
      ∧ (inp.getDuty st.activesettings.rc_channel_speed : Int)
          - st.activesettings.stick_neutral_pos ≤ 32767) :
    (getStickPositionRaw st inp).1
      = deadbandReference st.controllerstatus.safemode
          (inp.getDuty st.activesettings.rc_channel_speed) st.activesettings.stick_neutral_pos
          st.activesettings.stick_neutral_range
    ∧ (startupGate st.controllerstatus.safemode
          (inp.getDuty st.activesettings.rc_channel_speed) st.activesettings.stick_neutral_pos
          st.activesettings.stick_neutral_range →
        (getStickPositionRaw st inp).2 = { st with controllerstatus :=
          { st.controllerstatus with safemode := NOT_NEUTRAL_AT_STARTUP } })
    ∧ (¬ startupGate st.controllerstatus.safemode
          (inp.getDuty st.activesettings.rc_channel_speed) st.activesettings.stick_neutral_pos
          st.activesettings.stick_neutral_range →
        (getStickPositionRaw st inp).2 = st)
    ∧ (st.controllerstatus.safemode ≠ INVALID_RC →
        st.controllerstatus.safemode ≠ NOT_NEUTRAL_AT_STARTUP →
        inp.getDuty st.activesettings.rc_channel_speed ≠ 0 →
        ((inp.getDuty st.activesettings.rc_channel_speed : Int)
            = st.activesettings.stick_neutral_pos + st.activesettings.stick_neutral_range + 1 →
          (getStickPositionRaw st inp).1 = 1)
        ∧ ((inp.getDuty st.activesettings.rc_channel_speed : Int)
            = st.activesettings.stick_neutral_pos - st.activesettings.stick_neutral_range - 1 →
          (getStickPositionRaw st inp).1 = -1)) := by
  have hraw : rawValue st inp = (inp.getDuty st.activesettings.rc_channel_speed : Int)
      - st.activesettings.stick_neutral_pos := by
    unfold rawValue
    exact int16_of_fits _ hfit.1 hfit.2
  generalize hd : (inp.getDuty st.activesettings.rc_channel_speed : Int) = d at *
  generalize hN : st.activesettings.stick_neutral_pos = N at *
  generalize hRR : st.activesettings.stick_neutral_range = R at *
  have hval : (getStickPositionRaw st inp).1 = deadbandReference st.controllerstatus.safemode
      d N R := by
    have habs : (R < d - N ∨ R < -(d - N)) ↔ (d - N > R ∨ d - N < -R) := by
      constructor <;> intro h <;> omega
    simp only [getStickPositionRaw, deadbandReference, hraw, hN, hRR, gt_iff_lt, lt_abs, habs]
    by_cases h0 : d = 0
    · have : d - N = -N := by omega
      rw [if_pos this, if_pos h0]
    · have : ¬ d - N = -N := by omega
      rw [if_neg this, if_neg h0]
      split_ifs <;> first | rfl | omega | (simp only [int16]; omega)
  refine ⟨hval, ?_, ?_, ?_⟩
  · rintro ⟨h0, hs, habs⟩
    have hne : ¬ rawValue st inp = -N := by rw [hraw]; omega
    have hc : (st.controllerstatus.safemode = INVALID_RC
        ∨ st.controllerstatus.safemode = NOT_NEUTRAL_AT_STARTUP)
        ∧ (rawValue st inp > R ∨ rawValue st inp < -R) := by
      refine ⟨hs, ?_⟩
      rw [hraw]
      rcases lt_abs.mp habs with h | h
      · exact Or.inl h
      · exact Or.inr (by omega)
    simp only [getStickPositionRaw, hN, hRR, if_neg hne, if_pos hc]
    split_ifs with hi
    · rfl
    · have hnn : st.controllerstatus.safemode = NOT_NEUTRAL_AT_STARTUP := by
        rcases hs with h | h
        · exact absurd h hi
        · exact h
      rw [← hnn]
  · intro hng
    rcases getStickPositionRaw_state st inp with h | ⟨hinv, h⟩
    · exact h
    · exfalso
      apply hng
      have hcode : ¬ rawValue st inp = -N ∧ (rawValue st inp > R ∨ rawValue st inp < -R) := by
        by_contra hcon
        have : (getStickPositionRaw st inp).2 = st := by
          simp only [getStickPositionRaw, hN, hRR]
          split_ifs <;> first | rfl | (exfalso; apply hcon; constructor <;> tauto)
        rw [this] at h
        have := congrArg (fun s : State => s.controllerstatus.safemode) h
        simp only [hinv] at this
        exact absurd this (by decide)
      rw [hraw] at hcode
      refine ⟨by omega, Or.inl hinv, ?_⟩
      rcases hcode.2 with h1 | h1
      · exact lt_abs.mpr (Or.inl h1)
      · exact lt_abs.mpr (Or.inr (by omega))
  · intro h1 h2 h0
    have hd0 : d ≠ 0 := by
      rw [← hd]; exact_mod_cast h0
    constructor
    · intro he
      rw [hval]
      simp only [deadbandReference, if_neg hd0, h1, h2, false_or, false_and, if_false]
      split_ifs <;> omega
    · intro he
      rw [hval]
      simp only [deadbandReference, if_neg hd0, h1, h2, false_or, false_and, if_false]
      split_ifs <;> omega

/-- Witness of C15: neutral position 880, neutral range 10 (the example of the source's
comment, neutral 870..890), outside the startup safemodes: duty 860 gives -10; and
duty 885 gives 0. -/
theorem C15_deadband_witness :
    (getStickPositionRaw
        (stateIn PROGRAMMING
          { exampleSettings with stick_neutral_pos := 880, stick_neutral_range := 10 } 0 0)
        (tickInputs 860 1000 0)).1 = -10
    ∧ (getStickPositionRaw
        (stateIn PROGRAMMING
          { exampleSettings with stick_neutral_pos := 880, stick_neutral_range := 10 } 0 0)
        (tickInputs 885 1000 0)).1 = 0 :=
  ⟨((C15_deadband
      (stateIn PROGRAMMING
        { exampleSettings with stick_neutral_pos := 880, stick_neutral_range := 10 } 0 0)
      (tickInputs 860 1000 0) (by decide) (by decide)).1).trans (by decide),
   ((C15_deadband
      (stateIn PROGRAMMING
        { exampleSettings with stick_neutral_pos := 880, stick_neutral_range := 10 } 0 0)
      (tickInputs 885 1000 0) (by decide) (by decide)).1).trans (by decide)⟩

/-! ## C16: PASSTHROUGH mode -/

/-- Without the endpoint guard `stickCycle` runs through to its last statement; the value is
the raw one in PASSTHROUGH mode and the limited one otherwise. -/
theorem stickCycle_unguarded (st : State) (inp : Inputs) (pos b : ℚ) (h : ¬ guardActive st) :
    stickCycle st inp pos b =
      { value := if st.activesettings.mode ≠ MODE_PASSTHROUGH
          then limited (stickStart st inp).2 (stickStart st inp).1 else (stickStart st inp).1
        st := stickTail inp pos
          (if st.activesettings.mode ≠ MODE_PASSTHROUGH
            then limited (stickStart st inp).2 (stickStart st inp).1 else (stickStart st inp).1)
          (stickStart st inp).2
        exit := completed } := by
  have hg : ¬ guardActive (stickStart st inp).2 := fun hh => h ((stickStart_guardActive st inp).mp hh)
  have ha := stickStart_activesettings st inp
  unfold guardActive at hg
  rw [ha] at hg
  simp only [stickCycle, stickFilter, endpointGuard, ha]
  split_ifs <;> simp_all

theorem getStickPositionRaw_resetMonitor (st : State) (inp : Inputs) :
    (getStickPositionRaw (resetMonitor st) inp).1 = (getStickPositionRaw st inp).1 := by
  simp only [getStickPositionRaw, resetMonitor, rawValue]
  split_ifs <;> rfl

theorem stickStart_resetMonitor (st : State) (inp : Inputs) :
    (stickStart (resetMonitor st) inp).1 = (stickStart st inp).1 := by
  simp only [stickStart, getStickPositionRaw_resetMonitor]

/-- C16: in PASSTHROUGH mode no filter is applied. For every previous `stick_last_value`,
safemode, cap setting, position, brake distance and endpoint pair, `stickCycle` runs to
completion, returns `getStickPositionRaw() * 10` as stored in its int16 local (exactly ten
times the raw position when that fits int16), commits the same value to `stick_last_value`,
and `controllercycle` uses it unchanged as `esc_output`. -/
theorem C16_passthrough (n : Nat) (st : State) (inp : Inputs) (pos brakedistance : ℚ)
    (hmode : st.activesettings.mode = MODE_PASSTHROUGH) :
    (stickCycle st inp pos brakedistance).exit = completed
    ∧ (stickCycle st inp pos brakedistance).value = int16 ((getStickPositionRaw st inp).1 * 10)
    ∧ ((-32768 ≤ (getStickPositionRaw st inp).1 * 10
        ∧ (getStickPositionRaw st inp).1 * 10 ≤ 32767) →
      (stickCycle st inp pos brakedistance).value = 10 * (getStickPositionRaw st inp).1)
    ∧ (stickCycle st inp pos brakedistance).st.stick_last_value
        = (stickCycle st inp pos brakedistance).value
    ∧ (controllercycle n st inp).stick_filtered_value
        = int16 ((getStickPositionRaw st inp).1 * 10)
    ∧ (controllercycle n st inp).esc_output = (controllercycle n st inp).stick_filtered_value
    ∧ (controllercycle n st inp).st.stick_last_value
        = (controllercycle n st inp).stick_filtered_value := by
  have hng : ∀ s : State, s.activesettings.mode = MODE_PASSTHROUGH → ¬ guardActive s :=
    fun s hs hg => hg.2.1 hs
  have hcall : ∀ (s : State) (p q : ℚ), s.activesettings.mode = MODE_PASSTHROUGH →
      stickCycle s inp p q =
        { value := (stickStart s inp).1
          st := stickTail inp p (stickStart s inp).1 (stickStart s inp).2
          exit := completed } := by
    intro s p q hs
    rw [stickCycle_unguarded s inp p q (hng s hs)]
    simp [hs]
  have hv : (stickStart st inp).1 = int16 ((getStickPositionRaw st inp).1 * 10) := rfl
  have htick : tickStick st inp =
      { value := (stickStart st inp).1
        st := stickTail inp (referencePos st inp) (stickStart st inp).1
          (stickStart (resetMonitor st) inp).2
        exit := completed } := by
    unfold tickStick
    rw [hcall (resetMonitor st) _ _ hmode, stickStart_resetMonitor]
  have hm : (tickStick st inp).st.activesettings.mode = MODE_PASSTHROUGH := by
    rw [(tickStick_cycleFrame st inp).mode, hmode]
  have hout : outputStage (tickStick st inp).st inp ((int32 inp.ENCODER_VALUE : Int) : ℚ)
      (tickStick st inp).value = ((tickStick st inp).value, (tickStick st inp).st) := by
    simp [outputStage, hm]
  rw [hcall st pos brakedistance hmode]
  refine ⟨rfl, hv, ?_, ?_, ?_, ?_, ?_⟩
  · intro hfit
    show (stickStart st inp).1 = _
    rw [hv, int16_of_fits _ hfit.1 hfit.2, mul_comm]
  · exact stickTail_stick_last_value _ _ _ _
  · show (tickStick st inp).value = _
    rw [htick]
    exact hv
  · show (outputStage (tickStick st inp).st inp ((int32 inp.ENCODER_VALUE : Int) : ℚ)
      (tickStick st inp).value).1 = (tickStick st inp).value
    rw [hout]
  · rw [(controllercycle_frame n st inp).2.2.2]
    show (tickStick st inp).st.stick_last_value = (tickStick st inp).value
    rw [htick]
    exact stickTail_stick_last_value _ _ _ _

/-- Witness of C16: PASSTHROUGH in OPERATIONAL safemode past the upper endpoint with the
stick full forward: the value 1800 passes unfiltered. -/
theorem C16_passthrough_witness :
    (stickCycle (operationalState { exampleSettings with mode := MODE_PASSTHROUGH } 1055 0)
      (stickInputs 1700 1060) 1060 0).value = 1800 :=
  ((C16_passthrough 100 (operationalState { exampleSettings with mode := MODE_PASSTHROUGH } 1055 0)
    (stickInputs 1700 1060) 1060 0 rfl).2.1).trans (by decide)

/-! ## C17: convergence of the ramp -/

theorem fixed_fields (a b : Settings) (h : a.fixed = b.fixed) :
    a.stick_neutral_pos = b.stick_neutral_pos
    ∧ a.stick_neutral_range = b.stick_neutral_range
    ∧ a.stick_max_accel_safemode = b.stick_max_accel_safemode
    ∧ a.stick_max_speed_safemode = b.stick_max_speed_safemode
    ∧ a.mode = b.mode
    ∧ a.rc_channel_speed = b.rc_channel_speed
    ∧ a.esc_scale = b.esc_scale := by
  refine ⟨?_, ?_, ?_, ?_, ?_, ?_, ?_⟩
  · show a.fixed.stick_neutral_pos = b.fixed.stick_neutral_pos
    rw [h]
  · show a.fixed.stick_neutral_range = b.fixed.stick_neutral_range
    rw [h]
  · show a.fixed.stick_max_accel_safemode = b.fixed.stick_max_accel_safemode
    rw [h]
  · show a.fixed.stick_max_speed_safemode = b.fixed.stick_max_speed_safemode
    rw [h]
  · show a.fixed.mode = b.fixed.mode
    rw [h]
  · show a.fixed.rc_channel_speed = b.fixed.rc_channel_speed
    rw [h]
  · show a.fixed.esc_scale = b.fixed.esc_scale
    rw [h]

theorem stickStart_value_congr (a b : State) (inp : Inputs)
    (hf : a.activesettings.fixed = b.activesettings.fixed)
    (hs : a.controllerstatus.safemode = b.controllerstatus.safemode) :
    (stickStart a inp).1 = (stickStart b inp).1 := by
  obtain ⟨h1, h2, _, _, _, h6, _⟩ := fixed_fields _ _ hf
  simp only [stickStart, getStickPositionRaw, rawValue, h1, h2, h6, hs]
  split_ifs <;> rfl

theorem maxaccel_congr (a b : State) (hk : CapsKept a b)
    (hs : b.controllerstatus.safemode = a.controllerstatus.safemode) :
    maxaccel b = maxaccel a ∧ maxspeed b = maxspeed a := by
  obtain ⟨_, _, h3, h4, _, _, _⟩ := fixed_fields _ _ hk.1
  simp only [maxaccel, maxspeed, hs, h3, h4, hk.2.1, hk.2.2, and_self]

theorem capsKept_trans {a b c : State} (h1 : CapsKept a b) (h2 : CapsKept b c) :
    CapsKept a c :=
  ⟨h2.1.trans h1.1, h2.2.1.trans h1.2.1, h2.2.2.trans h1.2.2⟩

theorem programmingSwitch_capsKept (st : State) (inp : Inputs) :
    CapsKept st (programmingSwitch st inp) := by
  simp only [programmingSwitch]; split_ifs <;> exact ⟨rfl, rfl, rfl⟩

theorem endPointSwitch_capsKept (st : State) (inp : Inputs) :
    CapsKept st (endPointSwitch st inp) := by
  simp only [endPointSwitch]; split_ifs <;> exact ⟨rfl, rfl, rfl⟩

theorem guessDirection_capsKept (st : State) (pos : ℚ) :
    CapsKept st (guessDirection st pos) := by
  simp only [guessDirection]; split_ifs <;> exact ⟨rfl, rfl, rfl⟩

theorem maxAccelPoti_idle (st c : State) (inp : Inputs) (hk : CapsKept st c)
    (h : ¬(getMaxAccelPoti st inp ≠ 0 ∧ getMaxAccelPoti st inp
        > st.activesettings.stick_neutral_pos + st.activesettings.stick_neutral_range)) :
    maxAccelPoti c inp = c := by
  obtain ⟨h1, h2, _⟩ := fixed_fields _ _ hk.1
  have hr := (switch_congr c st inp hk.1).2.2.1
  simp only [maxAccelPoti, hr, h1, h2]
  rw [if_neg h]

theorem maxSpeedPoti_idle (st c : State) (inp : Inputs) (hk : CapsKept st c)
    (h : ¬(getMaxSpeedPoti st inp ≠ 0 ∧ getMaxSpeedPoti st inp
        > st.activesettings.stick_neutral_pos + st.activesettings.stick_neutral_range)) :
    maxSpeedPoti c inp = c := by
  obtain ⟨h1, h2, _⟩ := fixed_fields _ _ hk.1
  have hr := (switch_congr c st inp hk.1).2.2.2
  simp only [maxSpeedPoti, hr, h1, h2]
  rw [if_neg h]

/-- With idle potentiometer channels the part of `stickCycle` after the filters keeps the
caps. -/
theorem stickTail_capsKept (st s : State) (inp : Inputs) (pos : ℚ) (v : Int)
    (hk : CapsKept st s)
    (hA : ¬(getMaxAccelPoti st inp ≠ 0 ∧ getMaxAccelPoti st inp
        > st.activesettings.stick_neutral_pos + st.activesettings.stick_neutral_range))
    (hV : ¬(getMaxSpeedPoti st inp ≠ 0 ∧ getMaxSpeedPoti st inp
        > st.activesettings.stick_neutral_pos + st.activesettings.stick_neutral_range)) :
    CapsKept st (stickTail inp pos v s) := by
  have h0 : CapsKept st { s with stick_last_value := v } := hk
  have h1 := capsKept_trans (capsKept_trans h0 (programmingSwitch_capsKept _ inp))
    (endPointSwitch_capsKept _ inp)
  unfold stickTail
  rw [maxAccelPoti_idle st _ inp h1 hA, maxSpeedPoti_idle st _ inp h1 hV]
  exact capsKept_trans h1 (guessDirection_capsKept _ pos)

theorem speedLimit_of_bound (V x : Int) (h1 : -(V * 10) ≤ x) (h2 : x ≤ V * 10) :
    speedLimit V x = x := by
  simp only [speedLimit]
  split_ifs <;> omega

/-- One step of the acceleration limiter along the ramp. -/
theorem accelLimit_step (v A m : Int) (hA : 0 ≤ A) (hm : 0 ≤ m)
    (hv1 : -32768 ≤ v) (hv2 : v ≤ 32767) :
    accelLimit A (Int.sign v * min |v| m) v = Int.sign v * min |v| (m + A) := by
  rcases lt_trichotomy v 0 with h | h | h
  · rw [Int.sign_eq_neg_one_of_neg h, abs_of_neg h]
    simp only [accelLimit, int16]
    split_ifs <;> omega
  · subst h
    simp only [accelLimit, int16]
    simp only [Int.sign_zero, zero_mul, sub_zero, zero_add]
    split_ifs <;> omega
  · rw [Int.sign_eq_one_of_pos h, abs_of_nonneg (le_of_lt h)]
    simp only [accelLimit, int16]
    split_ifs <;> omega

theorem ramp_bound (v m : Int) (hm : 0 ≤ m) :
    (0 ≤ v → 0 ≤ Int.sign v * min |v| m ∧ Int.sign v * min |v| m ≤ v)
    ∧ (v ≤ 0 → v ≤ Int.sign v * min |v| m ∧ Int.sign v * min |v| m ≤ 0)
    ∧ (|v| ≤ m → Int.sign v * min |v| m = v) := by
  rcases lt_trichotomy v 0 with h | h | h
  · rw [Int.sign_eq_neg_one_of_neg h, abs_of_neg h]
    refine ⟨fun _ => by omega, fun _ => by omega, fun _ => by omega⟩
  · subst h
    simp
  · rw [Int.sign_eq_one_of_pos h, abs_of_nonneg (le_of_lt h)]
    refine ⟨fun _ => by omega, fun _ => by omega, fun _ => by omega⟩

theorem rampReference_succ (v A : Int) (k : Nat) (hA : 0 ≤ A)
    (hv1 : -32768 ≤ v) (hv2 : v ≤ 32767) :
    accelLimit A (rampReference v A k) v = rampReference v A (k + 1) := by
  unfold rampReference
  have hm : (0 : Int) ≤ (k : Int) * A := mul_nonneg (Int.ofNat_nonneg k) hA
  have hs : ((k + 1 : Nat) : Int) * A = (k : Int) * A + A := by push_cast; ring
  rw [hs]
  exact accelLimit_step v A _ hA hm hv1 hv2

/-- One tick of a steady run in LIMITER mode: the returned value and the committed
`stick_last_value` advance one step along the ramp, and the run stays steady. -/
theorem steady_tick (n : Nat) (st s : State) (v A V : Int) (k : Nat) (inp : Inputs)
    (hmode : st.activesettings.mode = MODE_LIMITER)
    (hsm : st.controllerstatus.safemode = OPERATIONAL
      ∨ st.controllerstatus.safemode = PROGRAMMING)
    (hA : maxaccel st = A) (hA0 : 0 ≤ A) (hV : maxspeed st = V)
    (hv : -(V * 10) ≤ v ∧ v ≤ V * 10)
    (hs : Steady st v A s k) (hinp : Held st v inp) :
    (controllercycle n s inp).stick_filtered_value = rampReference v A (k + 1)
    ∧ Steady st v A (controllercycle n s inp).st (k + 1) := by
  obtain ⟨hk, hsafe, hlast⟩ := hs
  obtain ⟨hval, hprog, hpa, hpv⟩ := hinp
  have hmode_s : s.activesettings.mode = MODE_LIMITER := by
    rw [(fixed_fields _ _ hk.1).2.2.2.2.1, hmode]
  have hng : ¬ guardActive (resetMonitor s) := fun hg => hg.2.2 hmode_s
  have hv0 : (stickStart (resetMonitor s) inp).1 = v := by
    rw [stickStart_resetMonitor, stickStart_value_congr s st inp hk.1 hsafe, hval]
  have hvr : -32768 ≤ v ∧ v ≤ 32767 := by
    rw [← hv0]; exact stickStart_value_range _ _
  obtain ⟨hma, hms⟩ := maxaccel_congr st s hk hsafe
  have hlim : limited (stickStart (resetMonitor s) inp).2 v = rampReference v A (k + 1) := by
    unfold limited
    rw [stickStart_maxaccel, stickStart_maxspeed, stickStart_stick_last_value]
    have e1 : maxaccel (resetMonitor s) = A := hma.trans hA
    have e2 : maxspeed (resetMonitor s) = V := hms.trans hV
    have e3 : (resetMonitor s).stick_last_value = rampReference v A k := hlast
    rw [e1, e2, e3, rampReference_succ v A k hA0 hvr.1 hvr.2]
    have hm : (0 : Int) ≤ ((k + 1 : Nat) : Int) * A := mul_nonneg (Int.ofNat_nonneg _) hA0
    obtain ⟨b1, b2, _⟩ := ramp_bound v (((k + 1 : Nat) : Int) * A) hm
    apply speedLimit_of_bound
    · unfold rampReference
      rcases le_total 0 v with h | h
      · have := b1 h; omega
      · have := b2 h; omega
    · unfold rampReference
      rcases le_total 0 v with h | h
      · have := b1 h; omega
      · have := b2 h; omega
  have htick : tickStick s inp =
      { value := rampReference v A (k + 1)
        st := stickTail inp (referencePos s inp) (rampReference v A (k + 1))
          (stickStart (resetMonitor s) inp).2
        exit := completed } := by
    unfold tickStick
    rw [stickCycle_unguarded (resetMonitor s) inp _ _ hng]
    have hmr : (resetMonitor s).activesettings.mode ≠ MODE_PASSTHROUGH := by
      show s.activesettings.mode ≠ MODE_PASSTHROUGH
      rw [hmode_s]; decide
    simp only [if_pos hmr, hv0, hlim]
  have hvalue : (controllercycle n s inp).stick_filtered_value = rampReference v A (k + 1) := by
    show (tickStick s inp).value = _
    rw [htick]
  have hk0 : CapsKept st (stickStart (resetMonitor s) inp).2 := by
    have ha : (stickStart (resetMonitor s) inp).2.activesettings = s.activesettings :=
      stickStart_activesettings _ inp
    exact ⟨by rw [ha]; exact hk.1, by rw [ha]; exact hk.2.1, by rw [ha]; exact hk.2.2⟩
  have hkt : CapsKept st (tickStick s inp).st := by
    rw [htick]
    exact stickTail_capsKept st _ inp _ _ hk0 hpa hpv
  obtain ⟨f1, _, _, f4⟩ := controllercycle_frame n s inp
  refine ⟨hvalue, ⟨?_, ?_, ?_⟩, ?_, ?_⟩
  · rw [f1]; exact hkt.1
  · rw [f1]; exact hkt.2.1
  · rw [f1]; exact hkt.2.2
  · rw [controllercycle_safemode, htick]
    show (stickTail inp (referencePos s inp) (rampReference v A (k + 1))
      (stickStart (resetMonitor s) inp).2).controllerstatus.safemode = _
    rw [stickTail_safemode, (switch_congr _ st inp hk0.1).1]
    by_cases hp : getProgrammingSwitch st inp > 1200
    · rw [if_pos hp, hprog.mp hp]
    · rw [if_neg hp]
      rcases hsm with h | h
      · exact absurd (hprog.mpr h) hp
      · exact h.symm
  · rw [f4, htick]
    exact stickTail_stick_last_value _ _ _ _

theorem steady_run (n : Nat) (st : State) (v A V : Int) (ticks : List Inputs)
    (hmode : st.activesettings.mode = MODE_LIMITER)
    (hsm : st.controllerstatus.safemode = OPERATIONAL
      ∨ st.controllerstatus.safemode = PROGRAMMING)
    (hA : maxaccel st = A) (hA0 : 0 ≤ A) (hV : maxspeed st = V)
    (hv : -(V * 10) ≤ v ∧ v ≤ V * 10)
    (hticks : ∀ t ∈ ticks, Held st v t) (s : State) (k : Nat) (hs : Steady st v A s k) :
    Steady st v A (runTicks n ticks s) (k + ticks.length) := by
  induction ticks generalizing s k with
  | nil => exact hs
  | cons t rest ih =>
    have ht := hticks t (List.mem_cons_self t rest)
    have h1 := (steady_tick n st s v A V k t hmode hsm hA hA0 hV hv hs ht).2
    have h2 := ih (fun u hu => hticks u (List.mem_cons_of_mem t hu)) _ (k + 1) h1
    have hl : k + (t :: rest).length = k + 1 + rest.length := by
      simp only [List.length_cons]; omega
    rw [hl]
    exact h2

/-- C17: convergence of the ramp. In LIMITER mode, from `stick_last_value = 0`, with the
safemode (OPERATIONAL or PROGRAMMING) and both caps constant, acceleration cap `A >= 1`,
speed cap `V`, and the speed channel held at a duty whose dead-banded, scaled value `v`
satisfies `|v| <= V * 10`: the `k`-th tick returns `sign(v) * min(|v|, k * A)` from
`stickCycle` and commits it; so from the tick `k >= ceil(|v| / A)` on the filtered value
equals `v`. -/
theorem C17_ramp_convergence (n : Nat) (st : State) (v A V : Int) (ticks : List Inputs)
    (inp : Inputs)
    (hmode : st.activesettings.mode = MODE_LIMITER)
    (hsm : st.controllerstatus.safemode = OPERATIONAL
      ∨ st.controllerstatus.safemode = PROGRAMMING)
    (hA : maxaccel st = A) (hA1 : 1 ≤ A) (hV : maxspeed st = V)
    (hlast : st.stick_last_value = 0)
    (hv : -(V * 10) ≤ v ∧ v ≤ V * 10)
    (hticks : ∀ t ∈ ticks, Held st v t) (hinp : Held st v inp) :
    (controllercycle n (runTicks n ticks st) inp).stick_filtered_value
        = rampReference v A (ticks.length + 1)
    ∧ (controllercycle n (runTicks n ticks st) inp).st.stick_last_value
        = rampReference v A (ticks.length + 1)
    ∧ (|v| ≤ ((ticks.length + 1 : Nat) : Int) * A →
      (controllercycle n (runTicks n ticks st) inp).stick_filtered_value = v)
    ∧ ((|v| + A - 1) / A ≤ ((ticks.length + 1 : Nat) : Int) →
      (controllercycle n (runTicks n ticks st) inp).stick_filtered_value = v) := by
  have hA0 : 0 ≤ A := by omega
  have h0 : Steady st v A st 0 := by
    refine ⟨⟨rfl, rfl, rfl⟩, rfl, ?_⟩
    rw [hlast]
    simp [rampReference]
  have hrun := steady_run n st v A V ticks hmode hsm hA hA0 hV hv hticks st 0 h0
  rw [Nat.zero_add] at hrun
  obtain ⟨h1, h2⟩ := steady_tick n st _ v A V ticks.length inp hmode hsm hA hA0 hV hv hrun hinp
  have hm : (0 : Int) ≤ ((ticks.length + 1 : Nat) : Int) * A :=
    mul_nonneg (Int.ofNat_nonneg _) hA0
  have hconv : |v| ≤ ((ticks.length + 1 : Nat) : Int) * A →
      (controllercycle n (runTicks n ticks st) inp).stick_filtered_value = v := by
    intro hle
    rw [h1]
    exact (ramp_bound v _ hm).2.2 hle
  refine ⟨h1, h2.2.2, hconv, ?_⟩
  intro hceil
  apply hconv
  have hpos : 0 < A := by omega
  have h3 : (|v| + A - 1) / A < ((ticks.length + 1 : Nat) : Int) + 1 := by omega
  have h4 := Int.lt_mul_of_ediv_lt hpos h3
  have h5 : (((ticks.length + 1 : Nat) : Int) + 1) * A
      = ((ticks.length + 1 : Nat) : Int) * A + A := by ring
  rw [h5] at h4
  omega

theorem C17_ramp_convergence_witness :
    (controllercycle 100
        (runTicks 100 [stickInputs 1523 0, stickInputs 1523 0] (operationalState limiterSettings 0 0))
        (stickInputs 1523 0)).stick_filtered_value = 30
    ∧ (controllercycle 100
        (runTicks 100 [stickInputs 1523 0] (operationalState limiterSettings 0 0))
        (stickInputs 1523 0)).stick_filtered_value = rampReference 30 10 2 := by
  have hheld : Held (operationalState limiterSettings 0 0) 30 (stickInputs 1523 0) := by decide
  refine ⟨(C17_ramp_convergence 100 (operationalState limiterSettings 0 0) 30 10 100
      [stickInputs 1523 0, stickInputs 1523 0] (stickInputs 1523 0)
      (by decide) (Or.inl (by decide)) (by decide) (by decide) (by decide) (by decide)
      (by decide) ?_ hheld).2.2.1 (by decide),
    (C17_ramp_convergence 100 (operationalState limiterSettings 0 0) 30 10 100
      [stickInputs 1523 0] (stickInputs 1523 0)
      (by decide) (Or.inl (by decide)) (by decide) (by decide) (by decide) (by decide)
      (by decide) ?_ hheld).1⟩
  · intro t ht
    simp only [List.mem_cons, List.mem_singleton, List.not_mem_nil, or_false, or_self] at ht
    rw [ht]; exact hheld
  · intro t ht
    simp only [List.mem_singleton] at ht
    rw [ht]; exact hheld

/-! ## C18 to C20: the position loop -/

theorem positionLoop_diverged (st : State) (inp : Inputs) (pos : ℚ) (v : Int)
    (h : |trackingError st pos v| ≥ st.activesettings.max_position_error) :
    (positionLoop st inp pos v).1 = 0
    ∧ (positionLoop st inp pos v).2.esum = 0
    ∧ (positionLoop st inp pos v).2.ealt = 0
    ∧ (positionLoop st inp pos v).2.yalt = 0
    ∧ (positionLoop st inp pos v).2.pos_target = (inp.ENCODER_VALUE : ℚ)
    ∧ (positionLoop st inp pos v).2.pos_target_old = (inp.ENCODER_VALUE : ℚ)
    ∧ (positionLoop st inp pos v).2.controllerstatus.monitor = EMERGENCYBRAKE := by
  have hc : trackingError st pos v ≥ st.activesettings.max_position_error
      ∨ trackingError st pos v ≤ -st.activesettings.max_position_error := by
    rcases le_abs.mp h with h1 | h1
    · exact Or.inl h1
    · exact Or.inr (by linarith)
  simp only [trackingError, advancedTarget] at hc
  simp only [positionLoop, if_pos hc]
  simp [resetPosTarget, resetThrottle]

theorem positionLoop_tracking (st : State) (inp : Inputs) (pos : ℚ) (v : Int)
    (h : |trackingError st pos v| < st.activesettings.max_position_error) :
    (positionLoop st inp pos v).1
        = (if st.activesettings.esc_direction = 1
            then int16 (truncate (pidOutput st (trackingError st pos v)))
            else int16 (truncate (-pidOutput st (trackingError st pos v))))
    ∧ (positionLoop st inp pos v).2.esum = st.esum + trackingError st pos v
    ∧ (positionLoop st inp pos v).2.ealt = trackingError st pos v
    ∧ (positionLoop st inp pos v).2.yalt = pidOutput st (trackingError st pos v)
    ∧ (positionLoop st inp pos v).2.pos_target = advancedTarget st v
    ∧ (positionLoop st inp pos v).2.pos_target_old = advancedTarget st v
    ∧ (positionLoop st inp pos v).2.controllerstatus.monitor = st.controllerstatus.monitor := by
  have hc : ¬(trackingError st pos v ≥ st.activesettings.max_position_error
      ∨ trackingError st pos v ≤ -st.activesettings.max_position_error) := by
    obtain ⟨h1, h2⟩ := abs_lt.mp h
    intro hh
    rcases hh with h3 | h3
    · exact absurd h3 (not_le.mpr h2)
    · exact absurd h3 (not_le.mpr h1)
  simp only [trackingError, advancedTarget] at hc
  simp only [positionLoop, if_neg hc, trackingError, advancedTarget, pidOutput]
  exact ⟨trivial, trivial, trivial, trivial, trivial, trivial, trivial⟩

/-- In ABSOLUTE_POSITION mode the outputs of a tick and the PID carry, the target and
`monitor` of its final state are those of the position loop run on the state and the value
that `stickCycle` left. -/
theorem controllercycle_absolute (n : Nat) (st : State) (inp : Inputs)
    (hmode : st.activesettings.mode = MODE_ABSOLUTE_POSITION) :
    (controllercycle n st inp).esc_output
        = (positionLoop (tickStick st inp).st inp (encoderPos inp) (tickStick st inp).value).1
    ∧ (controllercycle n st inp).TIM3_CCR3
        = pwm (tickStick st inp).st.activesettings
          (positionLoop (tickStick st inp).st inp (encoderPos inp) (tickStick st inp).value).1
    ∧ (controllercycle n st inp).st.esum
        = (positionLoop (tickStick st inp).st inp (encoderPos inp) (tickStick st inp).value).2.esum
    ∧ (controllercycle n st inp).st.ealt
        = (positionLoop (tickStick st inp).st inp (encoderPos inp) (tickStick st inp).value).2.ealt
    ∧ (controllercycle n st inp).st.yalt
        = (positionLoop (tickStick st inp).st inp (encoderPos inp) (tickStick st inp).value).2.yalt
    ∧ (controllercycle n st inp).st.pos_target
        = (positionLoop (tickStick st inp).st inp (encoderPos inp)
            (tickStick st inp).value).2.pos_target
    ∧ (controllercycle n st inp).st.pos_target_old
        = (positionLoop (tickStick st inp).st inp (encoderPos inp)
            (tickStick st inp).value).2.pos_target_old
    ∧ (controllercycle n st inp).st.controllerstatus.monitor
        = (positionLoop (tickStick st inp).st inp (encoderPos inp)
            (tickStick st inp).value).2.controllerstatus.monitor := by
  have hm : (tickStick st inp).st.activesettings.mode = MODE_ABSOLUTE_POSITION := by
    rw [(tickStick_cycleFrame st inp).mode, hmode]
  have ho : outputStage (tickStick st inp).st inp ((int32 inp.ENCODER_VALUE : Int) : ℚ)
      (tickStick st inp).value
      = positionLoop (tickStick st inp).st inp (encoderPos inp) (tickStick st inp).value := by
    simp [outputStage, hm, encoderPos]
  have hs := (positionLoop_frame (tickStick st inp).st inp (encoderPos inp)
    (tickStick st inp).value).1
  simp only [controllercycle, ho, hs]
  refine ⟨trivial, trivial, ?_, ?_, ?_, ?_, ?_, ?_⟩ <;> split_ifs <;> rfl

theorem fixed_gains (a b : Settings) (h : a.fixed = b.fixed) :
    a.P = b.P ∧ a.I = b.I ∧ a.D = b.D ∧ a.max_position_error = b.max_position_error
    ∧ a.stick_speed_factor = b.stick_speed_factor ∧ a.esc_neutral_pos = b.esc_neutral_pos := by
  refine ⟨?_, ?_, ?_, ?_, ?_, ?_⟩
  · show a.fixed.P = b.fixed.P
    rw [h]
  · show a.fixed.I = b.fixed.I
    rw [h]
  · show a.fixed.D = b.fixed.D
    rw [h]
  · show a.fixed.max_position_error = b.fixed.max_position_error
    rw [h]
  · show a.fixed.stick_speed_factor = b.fixed.stick_speed_factor
    rw [h]
  · show a.fixed.esc_neutral_pos = b.fixed.esc_neutral_pos
    rw [h]

/-- C18: position-tracking divergence. For every tick in ABSOLUTE_POSITION mode whose error
`e = pos_target - pos` (target after the stick advance and the endpoint clamp) has
`|e| >= max_position_error`, whatever the PID gains and the PID carry: after the tick
`esum = ealt = yalt = 0`, `pos_target = pos_target_old` is the encoder reading (which is the
position `pos` when the reading fits 32 bits), `esc_output = 0`, the PWM written is
`esc_neutral_pos` and `monitor = EMERGENCYBRAKE`. -/
theorem C18_tracking_divergence (n : Nat) (st : State) (inp : Inputs)
    (hmode : st.activesettings.mode = MODE_ABSOLUTE_POSITION)
    (he : |tickError st inp| ≥ st.activesettings.max_position_error) :
    (controllercycle n st inp).st.esum = 0
    ∧ (controllercycle n st inp).st.ealt = 0
    ∧ (controllercycle n st inp).st.yalt = 0
    ∧ (controllercycle n st inp).st.pos_target = (inp.ENCODER_VALUE : ℚ)
    ∧ (controllercycle n st inp).st.pos_target_old = (inp.ENCODER_VALUE : ℚ)
    ∧ (-2147483648 ≤ inp.ENCODER_VALUE ∧ inp.ENCODER_VALUE ≤ 2147483647 →
        (controllercycle n st inp).st.pos_target = encoderPos inp)
    ∧ (controllercycle n st inp).esc_output = 0
    ∧ (controllercycle n st inp).TIM3_CCR3 = st.activesettings.esc_neutral_pos
    ∧ (controllercycle n st inp).TIM3_CCR3
        = (controllercycle n st inp).st.activesettings.esc_neutral_pos
    ∧ (controllercycle n st inp).st.controllerstatus.monitor = EMERGENCYBRAKE := by
  have hg := fixed_gains _ _ (tickStick_cycleFrame st inp).1
  have he2 : |trackingError (tickStick st inp).st (encoderPos inp) (tickStick st inp).value|
      ≥ (tickStick st inp).st.activesettings.max_position_error := by
    rw [hg.2.2.2.1]; exact he
  obtain ⟨p1, p2, p3, p4, p5, p6, p7⟩ := positionLoop_diverged _ inp _ _ he2
  obtain ⟨c1, c2, c3, c4, c5, c6, c7, c8⟩ := controllercycle_absolute n st inp hmode
  have hpwm : (controllercycle n st inp).TIM3_CCR3
      = (tickStick st inp).st.activesettings.esc_neutral_pos := by
    rw [c2, p1, pwm_zero]
  refine ⟨c3.trans p2, c4.trans p3, c5.trans p4, c6.trans p5, c7.trans p6, ?_, c1.trans p1,
    hpwm.trans hg.2.2.2.2.2, ?_, c8.trans p7⟩
  · intro hfit
    rw [c6.trans p5]
    unfold encoderPos int32
    have : (inp.ENCODER_VALUE + 2147483648) % 4294967296 - 2147483648 = inp.ENCODER_VALUE := by
      omega
    rw [this]
  · rw [hpwm, (controllercycle_frame n st inp).1]

theorem C18_tracking_divergence_witness :
    (controllercycle 100 (trackingState OPERATIONAL absoluteSettings 500 400)
        (stickInputs 1500 400)).st.pos_target = 400
    ∧ (controllercycle 100 (trackingState OPERATIONAL absoluteSettings 500 400)
        (stickInputs 1500 400)).TIM3_CCR3 = 1500
    ∧ (controllercycle 100 (trackingState OPERATIONAL absoluteSettings 500 400)
        (stickInputs 1500 400)).st.controllerstatus.monitor = EMERGENCYBRAKE := by
  have h := C18_tracking_divergence 100 (trackingState OPERATIONAL absoluteSettings 500 400)
    (stickInputs 1500 400) (by decide) (by decide!)
  exact ⟨h.2.2.2.1.trans (by norm_num [stickInputs]), h.2.2.2.2.2.2.2.1.trans (by decide),
    h.2.2.2.2.2.2.2.2.2⟩

theorem advancedTarget_clamped (st : State) (v : Int)
    (hsm : st.controllerstatus.safemode = OPERATIONAL)
    (hord : st.activesettings.pos_start ≤ st.activesettings.pos_end) :
    st.activesettings.pos_start ≤ advancedTarget st v
    ∧ advancedTarget st v ≤ st.activesettings.pos_end := by
  simp only [advancedTarget, if_pos hsm]
  split_ifs with h1 h2
  · exact ⟨hord, le_refl _⟩
  · exact ⟨le_refl _, hord⟩
  · exact ⟨not_lt.mp h2, not_lt.mp h1⟩

theorem advancedTarget_unclamped (st : State) (v : Int)
    (hsm : st.controllerstatus.safemode ≠ OPERATIONAL) :
    advancedTarget st v = st.pos_target + (v : ℚ) * st.activesettings.stick_speed_factor := by
  simp only [advancedTarget, if_neg hsm]

/-- C19: the target of the position loop is clamped into the travel range. For every tick
in ABSOLUTE_POSITION mode: if the safemode is OPERATIONAL after the stick cycle and
`pos_start <= pos_end`, the target used for the PID error lies in `[pos_start, pos_end]`, and
after the tick `pos_target` lies in `[pos_start, pos_end]` unless the tracking-divergence
branch reset it to the encoder reading; if the safemode is not OPERATIONAL, the target is
`pos_target + s * stick_speed_factor`, unclamped. After the tick `pos_target = pos_target_old`,
and without divergence it is the target used for the error. -/
theorem C19_target_clamped (n : Nat) (st : State) (inp : Inputs)
    (hmode : st.activesettings.mode = MODE_ABSOLUTE_POSITION) :
    ((tickStick st inp).st.controllerstatus.safemode = OPERATIONAL →
      (tickStick st inp).st.activesettings.pos_start
        ≤ (tickStick st inp).st.activesettings.pos_end →
      ((tickStick st inp).st.activesettings.pos_start ≤ tickTarget st inp
        ∧ tickTarget st inp ≤ (tickStick st inp).st.activesettings.pos_end)
      ∧ (((controllercycle n st inp).st.activesettings.pos_start
            ≤ (controllercycle n st inp).st.pos_target
          ∧ (controllercycle n st inp).st.pos_target
            ≤ (controllercycle n st inp).st.activesettings.pos_end)
        ∨ (|tickError st inp| ≥ st.activesettings.max_position_error
          ∧ (controllercycle n st inp).st.pos_target = (inp.ENCODER_VALUE : ℚ))))
    ∧ ((tickStick st inp).st.controllerstatus.safemode ≠ OPERATIONAL →
      tickTarget st inp
        = st.pos_target + ((tickStick st inp).value : ℚ) * st.activesettings.stick_speed_factor)
    ∧ (controllercycle n st inp).st.pos_target = (controllercycle n st inp).st.pos_target_old
    ∧ (|tickError st inp| < st.activesettings.max_position_error →
      (controllercycle n st inp).st.pos_target = tickTarget st inp)
    ∧ tickError st inp = tickTarget st inp - encoderPos inp
    ∧ (controllercycle n st inp).st.controllerstatus.safemode
        = (tickStick st inp).st.controllerstatus.safemode
    ∧ (controllercycle n st inp).st.activesettings = (tickStick st inp).st.activesettings := by
  have hf := tickStick_cycleFrame st inp
  have hg := fixed_gains _ _ hf.1
  obtain ⟨_, _, _, _, _, c6, c7, _⟩ := controllercycle_absolute n st inp hmode
  have hset := (controllercycle_frame n st inp).1
  have hdiv : |tickError st inp| ≥ st.activesettings.max_position_error →
      (controllercycle n st inp).st.pos_target = (inp.ENCODER_VALUE : ℚ)
      ∧ (controllercycle n st inp).st.pos_target_old = (inp.ENCODER_VALUE : ℚ) := by
    intro he
    have he2 : |trackingError (tickStick st inp).st (encoderPos inp) (tickStick st inp).value|
        ≥ (tickStick st inp).st.activesettings.max_position_error := by
      rw [hg.2.2.2.1]; exact he
    obtain ⟨_, _, _, _, p5, p6, _⟩ := positionLoop_diverged _ inp _ _ he2
    exact ⟨c6.trans p5, c7.trans p6⟩
  have htrk : |tickError st inp| < st.activesettings.max_position_error →
      (controllercycle n st inp).st.pos_target = tickTarget st inp
      ∧ (controllercycle n st inp).st.pos_target_old = tickTarget st inp := by
    intro he
    have he2 : |trackingError (tickStick st inp).st (encoderPos inp) (tickStick st inp).value|
        < (tickStick st inp).st.activesettings.max_position_error := by
      rw [hg.2.2.2.1]; exact he
    obtain ⟨_, _, _, _, p5, p6, _⟩ := positionLoop_tracking _ inp _ _ he2
    exact ⟨c6.trans p5, c7.trans p6⟩
  refine ⟨?_, ?_, ?_, fun he => (htrk he).1, rfl, controllercycle_safemode n st inp, hset⟩
  · intro hsm hord
    have hcl := advancedTarget_clamped (tickStick st inp).st (tickStick st inp).value hsm hord
    refine ⟨hcl, ?_⟩
    rcases lt_or_le |tickError st inp| st.activesettings.max_position_error with he | he
    · left
      rw [(htrk he).1, hset]
      exact hcl
    · exact Or.inr ⟨he, (hdiv he).1⟩
  · intro hsm
    have h := advancedTarget_unclamped (tickStick st inp).st (tickStick st inp).value hsm
    unfold tickTarget
    rw [h, hf.2.2.2.2.2.2.1, hg.2.2.2.2.1]
  · rcases lt_or_le |tickError st inp| st.activesettings.max_position_error with he | he
    · rw [(htrk he).1, (htrk he).2]
    · rw [(hdiv he).1, (hdiv he).2]

theorem C19_target_clamped_witness :
    (controllercycle 100 (trackingState OPERATIONAL absoluteSettings 995 995)
        (stickInputs 1700 995)).st.pos_target = 1000
    ∧ (controllercycle 100 (trackingState PROGRAMMING absoluteSettings 998 998)
        (programmingInputs 1700 998)).st.pos_target = 998 + 5 * 1 := by
  have h1 := C19_target_clamped 100 (trackingState OPERATIONAL absoluteSettings 995 995)
    (stickInputs 1700 995) (by decide)
  have h2 := C19_target_clamped 100 (trackingState PROGRAMMING absoluteSettings 998 998)
    (programmingInputs 1700 998) (by decide)
  refine ⟨?_, ?_⟩
  · have hr := (h1.1 (by decide!) (by decide!)).1
    have ht := h1.2.2.2.1 (by decide!)
    rw [ht]
    exact le_antisymm (hr.2.trans (by decide!)) (by decide!)
  · rw [h2.2.2.2.1 (by decide!), h2.2.1 (by decide!)]
    decide!

/-- C20: the PID step, over exact rationals with `Ta = 0.02`. For every tick in
ABSOLUTE_POSITION mode with `|e| < max_position_error`, `e = pos_target - pos`:
`esum' = esum + e`, `y = P*e + I*Ta*esum' + (D/Ta)*(e - ealt)`, `ealt' = e`, `yalt' = y`, and
`esc_output` is `y` truncated and cast to int16 if `esc_direction = 1`, the truncation of
`-y` otherwise (the truncation itself where it fits int16); the PWM is the image of
`esc_output`. With `e = 0` and `esum = ealt = 0` this gives `y = 0`, `esc_output = 0` and
`pwm = esc_neutral_pos`. -/
theorem C20_pid_step (n : Nat) (st : State) (inp : Inputs)
    (hmode : st.activesettings.mode = MODE_ABSOLUTE_POSITION)
    (he : |tickError st inp| < st.activesettings.max_position_error) :
    Ta = 2 / 100
    ∧ (controllercycle n st inp).st.esum = st.esum + tickError st inp
    ∧ (controllercycle n st inp).st.yalt
        = st.activesettings.P * tickError st inp
          + st.activesettings.I * Ta * (st.esum + tickError st inp)
          + (st.activesettings.D / Ta) * (tickError st inp - st.ealt)
    ∧ (controllercycle n st inp).st.ealt = tickError st inp
    ∧ (controllercycle n st inp).esc_output
        = (if (controllercycle n st inp).st.activesettings.esc_direction = 1
            then int16 (truncate (controllercycle n st inp).st.yalt)
            else int16 (truncate (-(controllercycle n st inp).st.yalt)))
    ∧ ((controllercycle n st inp).st.activesettings.esc_direction = 1 →
        -32768 ≤ truncate (controllercycle n st inp).st.yalt →
        truncate (controllercycle n st inp).st.yalt ≤ 32767 →
        (controllercycle n st inp).esc_output = truncate (controllercycle n st inp).st.yalt)
    ∧ ((controllercycle n st inp).st.activesettings.esc_direction ≠ 1 →
        -32768 ≤ truncate (-(controllercycle n st inp).st.yalt) →
        truncate (-(controllercycle n st inp).st.yalt) ≤ 32767 →
        (controllercycle n st inp).esc_output
          = truncate (-(controllercycle n st inp).st.yalt))
    ∧ (controllercycle n st inp).TIM3_CCR3
        = pwm (controllercycle n st inp).st.activesettings (controllercycle n st inp).esc_output
    ∧ (tickError st inp = 0 → st.esum = 0 → st.ealt = 0 →
        (controllercycle n st inp).st.yalt = 0
        ∧ (controllercycle n st inp).esc_output = 0
        ∧ (controllercycle n st inp).TIM3_CCR3 = st.activesettings.esc_neutral_pos) := by
  have hf := tickStick_cycleFrame st inp
  have hg := fixed_gains _ _ hf.1
  obtain ⟨c1, c2, c3, c4, c5, _, _, _⟩ := controllercycle_absolute n st inp hmode
  have hset := (controllercycle_frame n st inp).1
  have he2 : |trackingError (tickStick st inp).st (encoderPos inp) (tickStick st inp).value|
      < (tickStick st inp).st.activesettings.max_position_error := by
    rw [hg.2.2.2.1]; exact he
  obtain ⟨p1, p2, p3, p4, _, _, _⟩ := positionLoop_tracking _ inp _ _ he2
  have hy : (controllercycle n st inp).st.yalt
      = st.activesettings.P * tickError st inp
        + st.activesettings.I * Ta * (st.esum + tickError st inp)
        + (st.activesettings.D / Ta) * (tickError st inp - st.ealt) := by
    rw [c5, p4]
    unfold pidOutput
    rw [hg.1, hg.2.1, hg.2.2.1, hf.2.2.2.2.1, hf.2.2.2.1]
    rfl
  have hout : (controllercycle n st inp).esc_output
      = (if (controllercycle n st inp).st.activesettings.esc_direction = 1
          then int16 (truncate (controllercycle n st inp).st.yalt)
          else int16 (truncate (-(controllercycle n st inp).st.yalt))) := by
    rw [c1, p1, c5, p4, hset]
  have hpwm : (controllercycle n st inp).TIM3_CCR3
      = pwm (controllercycle n st inp).st.activesettings (controllercycle n st inp).esc_output := by
    rw [c2, c1, hset]
  refine ⟨rfl, ?_, hy, c4.trans p3, hout, ?_, ?_, hpwm, ?_⟩
  · rw [c3, p2, hf.2.2.2.2.1]
    rfl
  · intro hd h1 h2
    rw [hout, if_pos hd, int16_of_fits _ h1 h2]
  · intro hd h1 h2
    rw [hout, if_neg hd, int16_of_fits _ h1 h2]
  · intro h0 hes hea
    have hy0 : (controllercycle n st inp).st.yalt = 0 := by
      rw [hy, h0, hes, hea]
      simp
    have ho0 : (controllercycle n st inp).esc_output = 0 := by
      rw [hout, hy0]
      simp [truncate_zero, int16_zero]
    refine ⟨hy0, ho0, ?_⟩
    rw [hpwm, ho0, pwm_zero, hset]
    exact hg.2.2.2.2.2

theorem C20_pid_step_witness :
    (controllercycle 100 (trackingState OPERATIONAL absoluteSettings 500 500)
        (stickInputs 1500 500)).st.yalt = 0
    ∧ (controllercycle 100 (trackingState OPERATIONAL absoluteSettings 500 500)
        (stickInputs 1500 500)).esc_output = 0
    ∧ (controllercycle 100 (trackingState OPERATIONAL absoluteSettings 500 500)
        (stickInputs 1500 500)).TIM3_CCR3 = 1500
    ∧ (controllercycle 100 (trackingState OPERATIONAL absoluteSettings 500 480)
        (stickInputs 1500 480)).esc_output = 20 := by
  have h := (C20_pid_step 100 (trackingState OPERATIONAL absoluteSettings 500 500)
    (stickInputs 1500 500) (by decide) (by decide!)).2.2.2.2.2.2.2.2
    (by decide!) (by decide!) (by decide!)
  have h2 := (C20_pid_step 100 (trackingState OPERATIONAL absoluteSettings 500 480)
    (stickInputs 1500 480) (by decide) (by decide!)).2.2.2.2.1
  exact ⟨h.1, h.2.1, h.2.2.trans (by decide), h2.trans (by decide!)⟩

/-! ## C21: the PWM mapping -/

theorem fixed_esc (a b : Settings) (h : a.fixed = b.fixed) :
    a.esc_neutral_pos = b.esc_neutral_pos ∧ a.esc_neutral_range = b.esc_neutral_range
    ∧ a.esc_scale = b.esc_scale := by
  refine ⟨?_, ?_, ?_⟩
  · show a.fixed.esc_neutral_pos = b.fixed.esc_neutral_pos
    rw [h]
  · show a.fixed.esc_neutral_range = b.fixed.esc_neutral_range
    rw [h]
  · show a.fixed.esc_scale = b.fixed.esc_scale
    rw [h]

/-- The value a tick assigns to the ESC register is the PWM mapping of its `esc_output`
under the settings the tick ends with, and a sample written to the trace holds the content
of the register. -/
theorem controllercycle_pwm (n : Nat) (st : State) (inp : Inputs) :
    (controllercycle n st inp).TIM3_CCR3
        = pwm (controllercycle n st inp).st.activesettings (controllercycle n st inp).esc_output
    ∧ ∀ i smp, (controllercycle n st inp).sample = some (i, smp) →
        smp.esc = escRegister (controllercycle n st inp).TIM3_CCR3 := by
  have hs := (controllercycle_frame n st inp).1
  have ho := (outputStage_frame (tickStick st inp).st inp ((int32 inp.ENCODER_VALUE : Int) : ℚ)
    (tickStick st inp).value).1
  refine ⟨?_, ?_⟩
  · rw [hs, ← ho]
    rfl
  · intro i smp h
    simp only [controllercycle] at h ⊢
    split_ifs at h
    simp only [Option.some.injEq, Prod.mk.injEq] at h
    rw [← h.2]

/-- C21 as amended: the PWM mapping into the 16 bit register. With `esc_scale != 0`, the ESC
register holds after a tick, modulo 65536, `esc_neutral_pos + esc_neutral_range +
esc_output / esc_scale` if `esc_output > 0`, `esc_neutral_pos - esc_neutral_range +
esc_output / esc_scale` if `esc_output < 0`, and `esc_neutral_pos` if `esc_output = 0`
(truncating division; the three settings are those at the start of the tick). It holds
exactly that value when the value lies in 0..65535; a negative mapped value wraps and the
register differs from it. The sample written to the trace holds the register content. -/
theorem C21_pwm_mapping (n : Nat) (st : State) (inp : Inputs)
    (_hscale : st.activesettings.esc_scale ≠ 0) :
    escRegister (controllercycle n st inp).TIM3_CCR3
        = uint16 (if (controllercycle n st inp).esc_output > 0 then
            st.activesettings.esc_neutral_pos + st.activesettings.esc_neutral_range
              + Int.tdiv (controllercycle n st inp).esc_output st.activesettings.esc_scale
          else if (controllercycle n st inp).esc_output < 0 then
            st.activesettings.esc_neutral_pos - st.activesettings.esc_neutral_range
              + Int.tdiv (controllercycle n st inp).esc_output st.activesettings.esc_scale
          else st.activesettings.esc_neutral_pos)
    ∧ ((controllercycle n st inp).esc_output > 0 →
      0 ≤ st.activesettings.esc_neutral_pos + st.activesettings.esc_neutral_range
          + Int.tdiv (controllercycle n st inp).esc_output st.activesettings.esc_scale →
      st.activesettings.esc_neutral_pos + st.activesettings.esc_neutral_range
          + Int.tdiv (controllercycle n st inp).esc_output st.activesettings.esc_scale ≤ 65535 →
      escRegister (controllercycle n st inp).TIM3_CCR3
        = st.activesettings.esc_neutral_pos + st.activesettings.esc_neutral_range
          + Int.tdiv (controllercycle n st inp).esc_output st.activesettings.esc_scale)
    ∧ ((controllercycle n st inp).esc_output < 0 →
      0 ≤ st.activesettings.esc_neutral_pos - st.activesettings.esc_neutral_range
          + Int.tdiv (controllercycle n st inp).esc_output st.activesettings.esc_scale →
      st.activesettings.esc_neutral_pos - st.activesettings.esc_neutral_range
          + Int.tdiv (controllercycle n st inp).esc_output st.activesettings.esc_scale ≤ 65535 →
      escRegister (controllercycle n st inp).TIM3_CCR3
        = st.activesettings.esc_neutral_pos - st.activesettings.esc_neutral_range
          + Int.tdiv (controllercycle n st inp).esc_output st.activesettings.esc_scale)
    ∧ ((controllercycle n st inp).esc_output = 0 →
      0 ≤ st.activesettings.esc_neutral_pos → st.activesettings.esc_neutral_pos ≤ 65535 →
      escRegister (controllercycle n st inp).TIM3_CCR3 = st.activesettings.esc_neutral_pos)
    ∧ ((controllercycle n st inp).esc_output < 0 →
      st.activesettings.esc_neutral_pos - st.activesettings.esc_neutral_range
          + Int.tdiv (controllercycle n st inp).esc_output st.activesettings.esc_scale < 0 →
      escRegister (controllercycle n st inp).TIM3_CCR3
        ≠ st.activesettings.esc_neutral_pos - st.activesettings.esc_neutral_range
          + Int.tdiv (controllercycle n st inp).esc_output st.activesettings.esc_scale)
    ∧ (0 ≤ escRegister (controllercycle n st inp).TIM3_CCR3
      ∧ escRegister (controllercycle n st inp).TIM3_CCR3 ≤ 65535)
    ∧ (∀ i smp, (controllercycle n st inp).sample = some (i, smp) →
        smp.esc = escRegister (controllercycle n st inp).TIM3_CCR3) := by
  obtain ⟨hp, hsmp⟩ := controllercycle_pwm n st inp
  have hf := fixed_esc _ _ ((controllercycle_frame n st inp).1 ▸ (tickStick_cycleFrame st inp).1)
  have hall : (controllercycle n st inp).TIM3_CCR3
      = (if (controllercycle n st inp).esc_output > 0 then
            st.activesettings.esc_neutral_pos + st.activesettings.esc_neutral_range
              + Int.tdiv (controllercycle n st inp).esc_output st.activesettings.esc_scale
          else if (controllercycle n st inp).esc_output < 0 then
            st.activesettings.esc_neutral_pos - st.activesettings.esc_neutral_range
              + Int.tdiv (controllercycle n st inp).esc_output st.activesettings.esc_scale
          else st.activesettings.esc_neutral_pos) := by
    rw [hp, pwm, hf.1, hf.2.1, hf.2.2]
  have hfit : ∀ x : Int, 0 ≤ x → x ≤ 65535 → uint16 x = x := by
    intro x h0 h1
    unfold uint16
    omega
  have hrange : ∀ x : Int, 0 ≤ uint16 x ∧ uint16 x ≤ 65535 := by
    intro x
    unfold uint16
    omega
  refine ⟨by rw [hall]; rfl, ?_, ?_, ?_, ?_, hrange _, hsmp⟩
  · intro h h0 h1
    rw [hall, if_pos h]
    exact hfit _ h0 h1
  · intro h h0 h1
    have hn : ¬ (controllercycle n st inp).esc_output > 0 := by omega
    rw [hall, if_neg hn, if_pos h]
    exact hfit _ h0 h1
  · intro h h0 h1
    have hn : ¬ (controllercycle n st inp).esc_output > 0 := by omega
    have hm : ¬ (controllercycle n st inp).esc_output < 0 := by omega
    rw [hall, if_neg hn, if_neg hm]
    exact hfit _ h0 h1
  · intro h hneg heq
    have hn : ¬ (controllercycle n st inp).esc_output > 0 := by omega
    rw [hall, if_neg hn, if_pos h] at heq
    have := (hrange (st.activesettings.esc_neutral_pos - st.activesettings.esc_neutral_range
      + Int.tdiv (controllercycle n st inp).esc_output st.activesettings.esc_scale)).1
    unfold escRegister at heq
    omega

/-- Witness of C21 as amended: stick forward, backward and neutral in ENDPOINT mode give the
register contents 1531, 1469 and 1500. -/
theorem C21_pwm_mapping_witness :
    escRegister (controllercycle 100 (operationalState exampleSettings 500 0)
        (stickInputs 1700 500)).TIM3_CCR3 = 1500 + 30 + Int.tdiv 10 10
    ∧ escRegister (controllercycle 100 (operationalState exampleSettings 500 0)
        (stickInputs 1300 500)).TIM3_CCR3 = 1500 - 30 + Int.tdiv (-10) 10
    ∧ escRegister (controllercycle 100 (operationalState exampleSettings 500 0)
        (stickInputs 1500 500)).TIM3_CCR3 = 1500 := by
  have h1 := (C21_pwm_mapping 100 (operationalState exampleSettings 500 0)
    (stickInputs 1700 500) (by decide)).2.1 (by decide!) (by decide!) (by decide!)
  have h2 := (C21_pwm_mapping 100 (operationalState exampleSettings 500 0)
    (stickInputs 1300 500) (by decide)).2.2.1 (by decide!) (by decide!) (by decide!)
  have h3 := (C21_pwm_mapping 100 (operationalState exampleSettings 500 0)
    (stickInputs 1500 500) (by decide)).2.2.2.1 (by decide!) (by decide) (by decide)
  exact ⟨h1.trans (by decide!), h2.trans (by decide!), h3.trans (by decide)⟩

/-- Counterexample to C21: LIMITER mode with `esc_scale = 1` and `stick_max_speed = 500`,
the stick held at full reverse (duty 1000) with `stick_last_value = -4800`. The tick has
`esc_output = -4800`, the mapped value `1500 - 30 + (-4800) / 1` is -3330, and the unsigned
register holds 62206. -/
theorem C21_pwm_mapping_counterexample :
    (stateIn OPERATIONAL
        { exampleSettings with mode := MODE_LIMITER, esc_scale := 1, stick_max_speed := 500 }
        0 (-4800)).activesettings.esc_scale ≠ 0
    ∧ (controllercycle 100 (stateIn OPERATIONAL
        { exampleSettings with mode := MODE_LIMITER, esc_scale := 1, stick_max_speed := 500 }
        0 (-4800)) (stickInputs 1000 0)).esc_output = -4800
    ∧ (1500 : Int) - 30 + Int.tdiv (-4800) 1 = -3330
    ∧ escRegister (controllercycle 100 (stateIn OPERATIONAL
        { exampleSettings with mode := MODE_LIMITER, esc_scale := 1, stick_max_speed := 500 }
        0 (-4800)) (stickInputs 1000 0)).TIM3_CCR3 = 62206
    ∧ escRegister (controllercycle 100 (stateIn OPERATIONAL
        { exampleSettings with mode := MODE_LIMITER, esc_scale := 1, stick_max_speed := 500 }
        0 (-4800)) (stickInputs 1000 0)).TIM3_CCR3
      ≠ exampleSettings.esc_neutral_pos - exampleSettings.esc_neutral_range
        + Int.tdiv (-4800) 1 := by
  decide!

/-! ## C22: the head of the trace ring -/

theorem tickStick_cyclemonitor_position (st : State) (inp : Inputs) :
    (tickStick st inp).st.controllerstatus.cyclemonitor_position
      = st.controllerstatus.cyclemonitor_position :=
  (tickStick_cycleFrame st inp).2.1

/-- The trace head and the sample of a tick: an active tick writes its sample at the old
head and advances the head with the wrap of line 726, an idle tick does neither. -/
theorem controllercycle_trace (n : Nat) (st : State) (inp : Inputs) :
    (tickActive n st inp →
      (controllercycle n st inp).st.controllerstatus.cyclemonitor_position
          = nextSamplePosition n st.controllerstatus.cyclemonitor_position
      ∧ ∃ smp, (controllercycle n st inp).sample
          = some (st.controllerstatus.cyclemonitor_position, smp))
    ∧ (¬ tickActive n st inp →
      (controllercycle n st inp).st.controllerstatus.cyclemonitor_position
          = st.controllerstatus.cyclemonitor_position
      ∧ (controllercycle n st inp).sample = none) := by
  have hp := (outputStage_frame (tickStick st inp).st inp ((int32 inp.ENCODER_VALUE : Int) : ℚ)
    (tickStick st inp).value).2.2.2.2
  rw [tickStick_cyclemonitor_position] at hp
  constructor
  · intro h
    simp only [tickActive, controllercycle] at h
    simp only [controllercycle, decide_eq_true_eq, if_pos h, hp]
    exact ⟨trivial, _, rfl⟩
  · intro h
    simp only [tickActive, controllercycle] at h
    simp only [controllercycle, decide_eq_true_eq, if_neg h, hp]
    exact ⟨trivial, trivial⟩

/-- C22: what the code does to the head of the trace ring. An active tick (encoder moved or
`esc_output != 0`) writes its sample at the old head and moves the head to `position + 1`,
wrapping to 0 only when `position + 1 > CYCLEMONITOR_SAMPLE_COUNT`; an idle tick leaves the
head. So from a head `<= CYCLEMONITOR_SAMPLE_COUNT` the head stays
`<= CYCLEMONITOR_SAMPLE_COUNT` and steps as `(position + 1) mod (CYCLEMONITOR_SAMPLE_COUNT + 1)`;
from `position = CYCLEMONITOR_SAMPLE_COUNT - 1` an active tick leaves the head at
`CYCLEMONITOR_SAMPLE_COUNT`, which is neither `< CYCLEMONITOR_SAMPLE_COUNT` nor
`(position + 1) mod CYCLEMONITOR_SAMPLE_COUNT`, and the next active tick writes its sample at
index `CYCLEMONITOR_SAMPLE_COUNT`. -/
theorem C22_trace_head_overrun (n : Nat) (st : State) (inp : Inputs) :
    (tickActive n st inp →
      (controllercycle n st inp).st.controllerstatus.cyclemonitor_position
          = (if st.controllerstatus.cyclemonitor_position + 1 > n then 0
              else st.controllerstatus.cyclemonitor_position + 1)
      ∧ ∃ smp, (controllercycle n st inp).sample
          = some (st.controllerstatus.cyclemonitor_position, smp))
    ∧ (¬ tickActive n st inp →
      (controllercycle n st inp).st.controllerstatus.cyclemonitor_position
          = st.controllerstatus.cyclemonitor_position
      ∧ (controllercycle n st inp).sample = none)
    ∧ (st.controllerstatus.cyclemonitor_position ≤ n →
      (controllercycle n st inp).st.controllerstatus.cyclemonitor_position ≤ n)
    ∧ (st.controllerstatus.cyclemonitor_position ≤ n → tickActive n st inp →
      (controllercycle n st inp).st.controllerstatus.cyclemonitor_position
          = (st.controllerstatus.cyclemonitor_position + 1) % (n + 1))
    ∧ (st.controllerstatus.cyclemonitor_position + 1 = n → tickActive n st inp →
      (controllercycle n st inp).st.controllerstatus.cyclemonitor_position = n
      ∧ ¬ (controllercycle n st inp).st.controllerstatus.cyclemonitor_position < n
      ∧ (controllercycle n st inp).st.controllerstatus.cyclemonitor_position
          ≠ (st.controllerstatus.cyclemonitor_position + 1) % n)
    ∧ (st.controllerstatus.cyclemonitor_position = n → tickActive n st inp →
      ∃ smp, (controllercycle n st inp).sample = some (n, smp)) := by
  obtain ⟨ha, hi⟩ := controllercycle_trace n st inp
  unfold nextSamplePosition at ha
  refine ⟨ha, hi, ?_, ?_, ?_, ?_⟩
  · intro hle
    by_cases h : tickActive n st inp
    · rw [(ha h).1]
      split_ifs <;> omega
    · rw [(hi h).1]
      exact hle
  · intro hle h
    rw [(ha h).1]
    split_ifs with h1
    · have : st.controllerstatus.cyclemonitor_position + 1 = n + 1 := by omega
      rw [this, Nat.mod_self]
    · rw [Nat.mod_eq_of_lt (by omega)]
  · intro hn h
    have h1 : ¬ st.controllerstatus.cyclemonitor_position + 1 > n := by omega
    rw [(ha h).1, if_neg h1, hn, Nat.mod_self]
    refine ⟨rfl, lt_irrefl n, ?_⟩
    omega
  · intro hn h
    obtain ⟨smp, hs⟩ := (ha h).2
    exact ⟨smp, by rw [hs, hn]⟩

/-- Instance of the overrun with `CYCLEMONITOR_SAMPLE_COUNT = 100`: from head 99 a tick in
which the encoder moved leaves the head at 100, and the following such tick writes its
sample at index 100 and wraps the head to 0. -/
theorem C22_trace_head_overrun_witness :
    (controllercycle 100 (tracingState 99 500)
        (stickInputs 1500 501)).st.controllerstatus.cyclemonitor_position = 100
    ∧ (∃ smp, (controllercycle 100
        (controllercycle 100 (tracingState 99 500) (stickInputs 1500 501)).st
        (stickInputs 1500 502)).sample = some (100, smp))
    ∧ (controllercycle 100
        (controllercycle 100 (tracingState 99 500) (stickInputs 1500 501)).st
        (stickInputs 1500 502)).st.controllerstatus.cyclemonitor_position = 0 := by
  have h1 := (C22_trace_head_overrun 100 (tracingState 99 500) (stickInputs 1500 501)).2.2.2.2.1
    (by decide) (by decide!)
  have h2 := (C22_trace_head_overrun 100
    (controllercycle 100 (tracingState 99 500) (stickInputs 1500 501)).st
    (stickInputs 1500 502)).1 (by decide!)
  rw [h1.1] at h2
  exact ⟨h1.1, h2.2, h2.1.trans (by decide)⟩

/-! ## C25: the brake-distance estimate -/

theorem abs_d_eq_abs (v : ℚ) : abs_d v = |v| := by
  unfold abs_d
  split_ifs with h
  · exact (abs_of_neg h).symm
  · exact (abs_of_nonneg (not_lt.mp h)).symm

theorem tdiv_small (a b : Int) (h : |a| < |b|) : Int.tdiv a b = 0 := by
  rcases le_total 0 a with ha | ha <;> rcases le_total 0 b with hb | hb
  · rw [abs_of_nonneg ha, abs_of_nonneg hb] at h
    exact Int.tdiv_eq_zero_of_lt ha h
  · rw [abs_of_nonneg ha, abs_of_nonpos hb] at h
    have := Int.tdiv_eq_zero_of_lt ha h
    rw [Int.tdiv_neg] at this
    omega
  · rw [abs_of_nonpos ha, abs_of_nonneg hb] at h
    have := Int.tdiv_eq_zero_of_lt (by omega : 0 ≤ -a) h
    rw [Int.neg_tdiv] at this
    omega
  · rw [abs_of_nonpos ha, abs_of_nonpos hb] at h
    have := Int.tdiv_eq_zero_of_lt (by omega : 0 ≤ -a) h
    rw [Int.neg_tdiv, Int.tdiv_neg] at this
    omega

/-- C25: the brake-distance estimate. For every tick with `stick_max_accel != 0` the brake
distance handed to `stickCycle` and stored in the trace is `speed_current * time_to_stop / 2`
with `speed_current = |pos_current_old - pos_current|` (the int32 difference) and
`time_to_stop = |stick_last_value / stick_max_accel|` (truncating integer division). It is not
negative, and it is 0 when the encoder did not move since the previous tick, when the
filtered stick is 0, and more generally when `|stick_last_value| < |stick_max_accel|`. -/
theorem C25_brake_distance (n : Nat) (st : State) (inp : Inputs)
    (_hacc : st.activesettings.stick_max_accel ≠ 0) :
    (controllercycle n st inp).speed_current
        = |((int32 (st.pos_current_old - int32 inp.ENCODER_VALUE) : Int) : ℚ)|
    ∧ (-2147483648 ≤ st.pos_current_old - int32 inp.ENCODER_VALUE
        ∧ st.pos_current_old - int32 inp.ENCODER_VALUE ≤ 2147483647 →
      (controllercycle n st inp).speed_current
        = |(st.pos_current_old : ℚ) - ((int32 inp.ENCODER_VALUE : Int) : ℚ)|)
    ∧ (controllercycle n st inp).distance_to_stop
        = (controllercycle n st inp).speed_current
          * |((Int.tdiv st.stick_last_value st.activesettings.stick_max_accel : Int) : ℚ)| / 2
    ∧ tickStick st inp
        = stickCycle (resetMonitor st) inp (referencePos st inp)
            (controllercycle n st inp).distance_to_stop
    ∧ (∀ i smp, (controllercycle n st inp).sample = some (i, smp) →
        smp.distance_to_stop = (controllercycle n st inp).distance_to_stop)
    ∧ 0 ≤ (controllercycle n st inp).distance_to_stop
    ∧ (int32 inp.ENCODER_VALUE = st.pos_current_old →
        (controllercycle n st inp).distance_to_stop = 0)
    ∧ (st.stick_last_value = 0 → (controllercycle n st inp).distance_to_stop = 0)
    ∧ (|st.stick_last_value| < |st.activesettings.stick_max_accel| →
        (controllercycle n st inp).distance_to_stop = 0) := by
  have hsp : (controllercycle n st inp).speed_current
      = |((int32 (st.pos_current_old - int32 inp.ENCODER_VALUE) : Int) : ℚ)| := by
    show speedCurrent st inp = _
    rw [speedCurrent, abs_d_eq_abs]
  have hd : (controllercycle n st inp).distance_to_stop
      = (controllercycle n st inp).speed_current
        * |((Int.tdiv st.stick_last_value st.activesettings.stick_max_accel : Int) : ℚ)| / 2 := by
    show distanceToStop st inp = speedCurrent st inp * _ / 2
    simp only [distanceToStop, getStick, abs_d_eq_abs]
  refine ⟨hsp, ?_, hd, rfl, ?_, distanceToStop_nonneg st inp, ?_, ?_, ?_⟩
  · intro hfit
    rw [hsp]
    have : int32 (st.pos_current_old - int32 inp.ENCODER_VALUE)
        = st.pos_current_old - int32 inp.ENCODER_VALUE := by
      unfold int32 at hfit ⊢
      omega
    rw [this]
    push_cast
    rfl
  · intro i smp h
    simp only [controllercycle] at h ⊢
    split_ifs at h
    simp only [Option.some.injEq, Prod.mk.injEq] at h
    rw [← h.2]
  · intro h
    rw [hd, hsp, h, sub_self]
    simp [int32]
  · intro h
    rw [hd, h]
    simp
  · intro h
    have h0 : Int.tdiv st.stick_last_value st.activesettings.stick_max_accel = 0 :=
      tdiv_small _ _ h
    rw [hd, h0]
    simp

theorem C25_brake_distance_witness :
    (controllercycle 100 (operationalState exampleSettings 400 100)
        (stickInputs 1700 500)).distance_to_stop = 100 * 10 / 2
    ∧ (controllercycle 100 (operationalState exampleSettings 400 5)
        (stickInputs 1700 500)).distance_to_stop = 0 := by
  have h1 := C25_brake_distance 100 (operationalState exampleSettings 400 100)
    (stickInputs 1700 500) (by decide)
  have h2 := (C25_brake_distance 100 (operationalState exampleSettings 400 5)
    (stickInputs 1700 500) (by decide)).2.2.2.2.2.2.2.2 (by decide)
  exact ⟨h1.2.2.1.trans (by decide!), h2⟩

/-! ## C23, C24: potentiometers and direction -/

theorem guardFrame_beforeTail (st s : State) (inp : Inputs)
    (h : GuardFrame (selfHealed (stickStart st inp).2) s) : BeforeTail st inp s := by
  obtain ⟨g1, g2, g3, _, g5, g6, g7, g8⟩ := selfHealed_guardFrame (stickStart st inp).2
  obtain ⟨f1, f2, _, _⟩ := stickStart_fields st inp
  have ha := stickStart_activesettings st inp
  have hi : (selfHealed (stickStart st inp).2).stickintegral
      = (stickStart st inp).2.stickintegral := by
    simp only [selfHealed, orderEndpoints]
    split_ifs <;> rfl
  refine ⟨⟨?_, ?_, ?_⟩, ?_, ?_, ?_, ?_, ?_⟩
  · rw [h.1, g5, ha]
  · rw [h.1, g6, ha]
  · rw [h.1, g7, ha]
  · rw [h.1, g8, ha]
  · rw [h.2.2.2.2.2.2.2.2.2.2.2, hi]
  · rw [h.2.1, g1]
  · rw [h.2.2.2.2.2.2.2.2.2.1, g2, f1]
  · rw [h.2.2.2.2.2.2.2.2.2.2.1, g3, f2]

/-- The two kinds of path through `stickCycle`, with what the filters hand on. -/
theorem stickCycle_beforeTail (st : State) (inp : Inputs) (pos b : ℚ) :
    ((stickCycle st inp pos b).exit ≠ completed ∧ guardActive st
      ∧ BeforeTail st inp (stickCycle st inp pos b).st)
    ∨ ((stickCycle st inp pos b).exit = completed
      ∧ ∃ s, BeforeTail st inp s
        ∧ (stickCycle st inp pos b).st = stickTail inp pos (stickCycle st inp pos b).value s) := by
  apply stickCycle_of_filter st inp pos b
    (fun r => (r.exit ≠ completed ∧ guardActive st ∧ BeforeTail st inp r.st)
      ∨ (r.exit = completed ∧ ∃ s, BeforeTail st inp s ∧ r.st = stickTail inp pos r.value s))
  exact (stickFilter_guardFrame _ pos b _ _).mono
    (fun s e h => Or.inl ⟨h.2.2, (stickStart_guardActive st inp).mp h.2.1,
      guardFrame_beforeTail st s inp h.1⟩)
    (fun v s h => Or.inr ⟨rfl, s, guardFrame_beforeTail st s inp h, rfl⟩)

theorem maxAccelPoti_spec (st c : State) (inp : Inputs) (hk : CapsKept st c) :
    (maxAccelPoti c inp).activesettings.stick_max_accel
        = (if getMaxAccelPoti st inp ≠ 0 ∧ getMaxAccelPoti st inp
              > st.activesettings.stick_neutral_pos + st.activesettings.stick_neutral_range
            then 1 + Int.tdiv (Int.tdiv (getMaxAccelPoti st inp
              - st.activesettings.stick_neutral_pos - st.activesettings.stick_neutral_range)
              st.activesettings.esc_scale) 2
            else st.activesettings.stick_max_accel)
    ∧ (maxAccelPoti c inp).activesettings.stick_max_speed = st.activesettings.stick_max_speed
    ∧ (maxAccelPoti c inp).activesettings.fixed = st.activesettings.fixed := by
  obtain ⟨h1, h2, _, _, _, _, h7⟩ := fixed_fields _ _ hk.1
  have hr := (switch_congr c st inp hk.1).2.2.1
  have hkeep : (maxAccelPoti c inp).activesettings.stick_max_speed
      = c.activesettings.stick_max_speed
      ∧ (maxAccelPoti c inp).activesettings.fixed = c.activesettings.fixed := by
    simp only [maxAccelPoti]
    split_ifs <;> exact ⟨rfl, rfl⟩
  refine ⟨?_, hkeep.1.trans hk.2.2, hkeep.2.trans hk.1⟩
  simp only [maxAccelPoti, hr, h1, h2, h7]
  split_ifs
  · rfl
  · exact hk.2.1

theorem maxSpeedPoti_spec (st c : State) (inp : Inputs)
    (hf : c.activesettings.fixed = st.activesettings.fixed) :
    (maxSpeedPoti c inp).activesettings.stick_max_speed
        = (if getMaxSpeedPoti st inp ≠ 0 ∧ getMaxSpeedPoti st inp
              > st.activesettings.stick_neutral_pos + st.activesettings.stick_neutral_range
            then 1 + Int.tdiv ((getMaxSpeedPoti st inp
              - st.activesettings.stick_neutral_pos - st.activesettings.stick_neutral_range) * 10)
              st.activesettings.esc_scale
            else c.activesettings.stick_max_speed)
    ∧ (maxSpeedPoti c inp).activesettings.stick_max_accel = c.activesettings.stick_max_accel
    ∧ (maxSpeedPoti c inp).activesettings.fixed = st.activesettings.fixed := by
  obtain ⟨h1, h2, _, _, _, _, h7⟩ := fixed_fields _ _ hf
  have hr := (switch_congr c st inp hf).2.2.2
  have hkeep : (maxSpeedPoti c inp).activesettings.stick_max_accel
      = c.activesettings.stick_max_accel
      ∧ (maxSpeedPoti c inp).activesettings.fixed = c.activesettings.fixed := by
    simp only [maxSpeedPoti]
    split_ifs <;> exact ⟨rfl, rfl⟩
  refine ⟨?_, hkeep.1, hkeep.2.trans hf⟩
  simp only [maxSpeedPoti, hr, h1, h2, h7]
  split_ifs <;> rfl

/-- The caps after the part of `stickCycle` that follows the filters. -/
theorem stickTail_caps (st s : State) (inp : Inputs) (pos : ℚ) (v : Int)
    (hk : CapsKept st s) :
    (stickTail inp pos v s).activesettings.stick_max_accel
        = (if getMaxAccelPoti st inp ≠ 0 ∧ getMaxAccelPoti st inp
              > st.activesettings.stick_neutral_pos + st.activesettings.stick_neutral_range
            then 1 + Int.tdiv (Int.tdiv (getMaxAccelPoti st inp
              - st.activesettings.stick_neutral_pos - st.activesettings.stick_neutral_range)
              st.activesettings.esc_scale) 2
            else st.activesettings.stick_max_accel)
    ∧ (stickTail inp pos v s).activesettings.stick_max_speed
        = (if getMaxSpeedPoti st inp ≠ 0 ∧ getMaxSpeedPoti st inp
              > st.activesettings.stick_neutral_pos + st.activesettings.stick_neutral_range
            then 1 + Int.tdiv ((getMaxSpeedPoti st inp
              - st.activesettings.stick_neutral_pos - st.activesettings.stick_neutral_range) * 10)
              st.activesettings.esc_scale
            else st.activesettings.stick_max_speed) := by
  have h0 : CapsKept st { s with stick_last_value := v } := hk
  have h1 := capsKept_trans (capsKept_trans h0 (programmingSwitch_capsKept _ inp))
    (endPointSwitch_capsKept _ inp)
  obtain ⟨a1, a2, a3⟩ := maxAccelPoti_spec st _ inp h1
  obtain ⟨b1, b2, _⟩ := maxSpeedPoti_spec st _ inp a3
  have hg := guessDirection_capsKept
    (maxSpeedPoti (maxAccelPoti (endPointSwitch
      (programmingSwitch { s with stick_last_value := v } inp) inp) inp) inp) pos
  unfold stickTail
  refine ⟨?_, ?_⟩
  · rw [hg.2.1, b2, a1]
  · rw [hg.2.2, b1, a2]

/-- C23: the potentiometer ingest. For every completed `stickCycle` with `esc_scale > 0` and
threshold `T = stick_neutral_pos + stick_neutral_range`: if the max-accel channel reads
`x != 0` with `x > T`, `stick_max_accel` becomes `1 + ((x - T) / esc_scale / 2)`, otherwise it
is unchanged; if the max-speed channel reads `x != 0` with `x > T`, `stick_max_speed` becomes
`1 + ((x - T) * 10 / esc_scale)`, otherwise it is unchanged (truncating division). A value
written by the ingest is at least 1. -/
theorem C23_potentiometer_ingest (st : State) (inp : Inputs) (pos brakedistance : ℚ)
    (hc : (stickCycle st inp pos brakedistance).exit = completed)
    (hscale : 0 < st.activesettings.esc_scale) :
    (stickCycle st inp pos brakedistance).st.activesettings.stick_max_accel
        = (if getMaxAccelPoti st inp ≠ 0 ∧ getMaxAccelPoti st inp
              > st.activesettings.stick_neutral_pos + st.activesettings.stick_neutral_range
            then 1 + Int.tdiv (Int.tdiv (getMaxAccelPoti st inp
              - (st.activesettings.stick_neutral_pos + st.activesettings.stick_neutral_range))
              st.activesettings.esc_scale) 2
            else st.activesettings.stick_max_accel)
    ∧ (stickCycle st inp pos brakedistance).st.activesettings.stick_max_speed
        = (if getMaxSpeedPoti st inp ≠ 0 ∧ getMaxSpeedPoti st inp
              > st.activesettings.stick_neutral_pos + st.activesettings.stick_neutral_range
            then 1 + Int.tdiv ((getMaxSpeedPoti st inp
              - (st.activesettings.stick_neutral_pos + st.activesettings.stick_neutral_range))
              * 10) st.activesettings.esc_scale
            else st.activesettings.stick_max_speed)
    ∧ (getMaxAccelPoti st inp ≠ 0 ∧ getMaxAccelPoti st inp
          > st.activesettings.stick_neutral_pos + st.activesettings.stick_neutral_range →
        1 ≤ (stickCycle st inp pos brakedistance).st.activesettings.stick_max_accel)
    ∧ (getMaxSpeedPoti st inp ≠ 0 ∧ getMaxSpeedPoti st inp
          > st.activesettings.stick_neutral_pos + st.activesettings.stick_neutral_range →
        1 ≤ (stickCycle st inp pos brakedistance).st.activesettings.stick_max_speed) := by
  rcases stickCycle_beforeTail st inp pos brakedistance with ⟨hn, _⟩ | ⟨_, s, hs, hst⟩
  · exact absurd hc hn
  · obtain ⟨ha, hv⟩ := stickTail_caps st s inp pos
      (stickCycle st inp pos brakedistance).value hs.1
    rw [hst, ha, hv, sub_sub, sub_sub]
    refine ⟨rfl, rfl, ?_, ?_⟩
    · intro hx
      rw [if_pos hx]
      have h1 : 0 ≤ Int.tdiv (Int.tdiv (getMaxAccelPoti st inp
          - (st.activesettings.stick_neutral_pos + st.activesettings.stick_neutral_range))
          st.activesettings.esc_scale) 2 :=
        Int.tdiv_nonneg (Int.tdiv_nonneg (by omega) (le_of_lt hscale)) (by decide)
      omega
    · intro hx
      rw [if_pos hx]
      have h1 : 0 ≤ Int.tdiv ((getMaxSpeedPoti st inp
          - (st.activesettings.stick_neutral_pos + st.activesettings.stick_neutral_range)) * 10)
          st.activesettings.esc_scale :=
        Int.tdiv_nonneg (by omega) (le_of_lt hscale)
      omega

theorem C23_potentiometer_ingest_witness :
    (stickCycle (operationalState exampleSettings 500 0)
        { stickInputs 1500 500 with getDuty := channels 1500 1500 0 1800 1700 } 500
        0).st.activesettings.stick_max_accel = 1 + Int.tdiv (Int.tdiv (1800 - 1520) 10) 2
    ∧ (stickCycle (operationalState exampleSettings 500 0)
        { stickInputs 1500 500 with getDuty := channels 1500 1500 0 1800 1700 } 500
        0).st.activesettings.stick_max_speed = 1 + Int.tdiv ((1700 - 1520) * 10) 10
    ∧ (stickCycle (operationalState exampleSettings 500 0)
        { stickInputs 1500 500 with getDuty := channels 1500 1500 0 1520 0 } 500
        0).st.activesettings.stick_max_accel = 10 := by
  have h1 := C23_potentiometer_ingest (operationalState exampleSettings 500 0)
    { stickInputs 1500 500 with getDuty := channels 1500 1500 0 1800 1700 } 500 0
    (by decide!) (by decide)
  have h2 := C23_potentiometer_ingest (operationalState exampleSettings 500 0)
    { stickInputs 1500 500 with getDuty := channels 1500 1500 0 1520 0 } 500 0
    (by decide!) (by decide)
  exact ⟨h1.1.trans (by decide), h1.2.1.trans (by decide), h2.1.trans (by decide)⟩

theorem guessDirection_spec (c : State) (pos : ℚ) :
    (guessDirection c pos).activesettings.esc_direction
        = (if c.activesettings.esc_direction = 0 ∧ |pos| > 500 then
            (if (c.stickintegral > 0 ∧ pos > 0) ∨ (c.stickintegral < 0 ∧ pos < 0) then 1 else -1)
          else c.activesettings.esc_direction)
    ∧ (guessDirection c pos).stickintegral = c.stickintegral := by
  have habs : |pos| > 500 ↔ (pos > 500 ∨ pos < -500) := by
    rw [gt_iff_lt, lt_abs]
    constructor
    · rintro (h | h)
      · exact Or.inl h
      · exact Or.inr (by linarith)
    · rintro (h | h)
      · exact Or.inl h
      · exact Or.inr (by linarith)
  simp only [guessDirection, habs]
  split_ifs <;> simp_all

theorem switches_direction (c : State) (inp : Inputs) :
    ((programmingSwitch c inp).activesettings.esc_direction = c.activesettings.esc_direction
      ∧ (programmingSwitch c inp).stickintegral = c.stickintegral)
    ∧ ((endPointSwitch c inp).activesettings.esc_direction = c.activesettings.esc_direction
      ∧ (endPointSwitch c inp).stickintegral = c.stickintegral)
    ∧ ((maxAccelPoti c inp).activesettings.esc_direction = c.activesettings.esc_direction
      ∧ (maxAccelPoti c inp).stickintegral = c.stickintegral)
    ∧ ((maxSpeedPoti c inp).activesettings.esc_direction = c.activesettings.esc_direction
      ∧ (maxSpeedPoti c inp).stickintegral = c.stickintegral) := by
  refine ⟨?_, ?_, ?_, ?_⟩
  · simp only [programmingSwitch]; split_ifs <;> exact ⟨rfl, rfl⟩
  · simp only [endPointSwitch]; split_ifs <;> exact ⟨rfl, rfl⟩
  · simp only [maxAccelPoti]; split_ifs <;> exact ⟨rfl, rfl⟩
  · simp only [maxSpeedPoti]; split_ifs <;> exact ⟨rfl, rfl⟩

/-- The motor direction and the stick integral after the part of `stickCycle` that follows
the filters. -/
theorem stickTail_direction (inp : Inputs) (pos : ℚ) (v : Int) (s : State) :
    (stickTail inp pos v s).activesettings.esc_direction
        = (if s.activesettings.esc_direction = 0 ∧ |pos| > 500 then
            (if (s.stickintegral > 0 ∧ pos > 0) ∨ (s.stickintegral < 0 ∧ pos < 0) then 1 else -1)
          else s.activesettings.esc_direction)
    ∧ (stickTail inp pos v s).stickintegral = s.stickintegral := by
  obtain ⟨p1, p2⟩ := (switches_direction { s with stick_last_value := v } inp).1
  obtain ⟨e1, e2⟩ := (switches_direction
    (programmingSwitch { s with stick_last_value := v } inp) inp).2.1
  obtain ⟨a1, a2⟩ := (switches_direction
    (endPointSwitch (programmingSwitch { s with stick_last_value := v } inp) inp) inp).2.2.1
  obtain ⟨v1, v2⟩ := (switches_direction
    (maxAccelPoti (endPointSwitch (programmingSwitch { s with stick_last_value := v } inp)
      inp) inp) inp).2.2.2
  obtain ⟨g1, g2⟩ := guessDirection_spec
    (maxSpeedPoti (maxAccelPoti (endPointSwitch
      (programmingSwitch { s with stick_last_value := v } inp) inp) inp) inp) pos
  have hd := ((v1.trans a1).trans e1).trans p1
  have hi := ((v2.trans a2).trans e2).trans p2
  unfold stickTail
  rw [g1, g2, hd, hi]
  exact ⟨rfl, rfl⟩

/-- A tick does not revise a motor direction that is set. -/
theorem controllercycle_direction (n : Nat) (st : State) (inp : Inputs)
    (h : st.activesettings.esc_direction ≠ 0) :
    (controllercycle n st inp).st.activesettings.esc_direction
      = st.activesettings.esc_direction := by
  rw [(controllercycle_frame n st inp).1]
  unfold tickStick
  rcases stickCycle_beforeTail (resetMonitor st) inp (referencePos st inp)
    (distanceToStop st inp) with ⟨_, _, hb⟩ | ⟨_, s, hs, hst⟩
  · exact hb.2.1
  · have hne : ¬(s.activesettings.esc_direction = 0 ∧ |referencePos st inp| > 500) := by
      intro hh
      exact h (hs.2.1 ▸ hh.1)
    rw [hst, (stickTail_direction inp _ _ s).1, if_neg hne]
    exact hs.2.1

theorem runTicks_direction (n : Nat) (ticks : List Inputs) (st : State)
    (h : st.activesettings.esc_direction ≠ 0) :
    (runTicks n ticks st).activesettings.esc_direction = st.activesettings.esc_direction := by
  induction ticks generalizing st with
  | nil => rfl
  | cons t rest ih =>
    have h1 := controllercycle_direction n st t h
    show (runTicks n rest (controllercycle n st t).st).activesettings.esc_direction = _
    rw [ih _ (by rw [h1]; exact h), h1]

/-- C24: direction inference. For every completed `stickCycle` called with reference
position `pos`: if `esc_direction = 0` and `|pos| > 500`, afterwards `esc_direction` is +1
when `stickintegral` (with this call's stick reading added) and `pos` are both `> 0` or both
`< 0`, and -1 otherwise, also for `stickintegral = 0`; if `esc_direction != 0` or
`|pos| <= 500` it is unchanged. A direction that is set is not revised by any run of ticks. -/
theorem C24_direction_inference (n : Nat) (st : State) (inp : Inputs) (pos brakedistance : ℚ)
    (ticks : List Inputs)
    (hc : (stickCycle st inp pos brakedistance).exit = completed) :
    (stickCycle st inp pos brakedistance).st.activesettings.esc_direction
        = (if st.activesettings.esc_direction = 0 ∧ |pos| > 500 then
            (if ((stickCycle st inp pos brakedistance).st.stickintegral > 0 ∧ pos > 0)
                ∨ ((stickCycle st inp pos brakedistance).st.stickintegral < 0 ∧ pos < 0)
              then 1 else -1)
          else st.activesettings.esc_direction)
    ∧ (stickCycle st inp pos brakedistance).st.stickintegral
        = int32 (st.stickintegral + (getStickPositionRaw st inp).1)
    ∧ (st.activesettings.esc_direction = 0 → |pos| > 500 →
        (stickCycle st inp pos brakedistance).st.stickintegral = 0 →
        (stickCycle st inp pos brakedistance).st.activesettings.esc_direction = -1)
    ∧ (st.activesettings.esc_direction ≠ 0 ∨ |pos| ≤ 500 →
        (stickCycle st inp pos brakedistance).st.activesettings.esc_direction
          = st.activesettings.esc_direction)
    ∧ (st.activesettings.esc_direction ≠ 0 →
        (runTicks n ticks st).activesettings.esc_direction = st.activesettings.esc_direction) := by
  rcases stickCycle_beforeTail st inp pos brakedistance with ⟨hn, _⟩ | ⟨_, s, hs, hst⟩
  · exact absurd hc hn
  · obtain ⟨d1, d2⟩ := stickTail_direction inp pos (stickCycle st inp pos brakedistance).value s
    have hi : (stickCycle st inp pos brakedistance).st.stickintegral = s.stickintegral := by
      rw [hst, d2]
    have hd : (stickCycle st inp pos brakedistance).st.activesettings.esc_direction
        = (if st.activesettings.esc_direction = 0 ∧ |pos| > 500 then
            (if ((stickCycle st inp pos brakedistance).st.stickintegral > 0 ∧ pos > 0)
                ∨ ((stickCycle st inp pos brakedistance).st.stickintegral < 0 ∧ pos < 0)
              then 1 else -1)
          else st.activesettings.esc_direction) := by
      rw [hi, hst, d1, hs.2.1]
    have hint : s.stickintegral = int32 (st.stickintegral + (getStickPositionRaw st inp).1) := by
      rw [hs.2.2.1]
      rcases getStickPositionRaw_state st inp with h | ⟨_, h⟩ <;> simp [stickStart, h]
    refine ⟨hd, hi.trans hint, ?_, ?_, fun h => runTicks_direction n ticks st h⟩
    · intro h0 hp hz
      have hno : ¬(((stickCycle st inp pos brakedistance).st.stickintegral > 0 ∧ pos > 0)
          ∨ ((stickCycle st inp pos brakedistance).st.stickintegral < 0 ∧ pos < 0)) := by
        rw [hz]
        simp
      rw [hd, if_pos ⟨h0, hp⟩, if_neg hno]
    · intro h
      have hne : ¬(st.activesettings.esc_direction = 0 ∧ |pos| > 500) := by
        rintro ⟨h0, hp⟩
        rcases h with h | h
        · exact h h0
        · exact absurd hp (not_lt.mpr h)
      rw [hd, if_neg hne]

theorem C24_direction_inference_witness :
    (stickCycle (operationalState { exampleSettings with esc_direction := 0 } 600 0)
        (stickInputs 1700 600) 600 0).st.activesettings.esc_direction = 1
    ∧ (stickCycle (operationalState { exampleSettings with esc_direction := 0 } 600 0)
        (stickInputs 1300 600) 600 0).st.activesettings.esc_direction = -1
    ∧ (stickCycle (operationalState { exampleSettings with esc_direction := 0 } 600 0)
        (stickInputs 1500 600) 600 0).st.activesettings.esc_direction = -1 := by
  have h1 := (C24_direction_inference 100
    (operationalState { exampleSettings with esc_direction := 0 } 600 0)
    (stickInputs 1700 600) 600 0 [] (by decide!)).1
  have h2 := (C24_direction_inference 100
    (operationalState { exampleSettings with esc_direction := 0 } 600 0)
    (stickInputs 1300 600) 600 0 [] (by decide!)).1
  have h3 := (C24_direction_inference 100
    (operationalState { exampleSettings with esc_direction := 0 } 600 0)
    (stickInputs 1500 600) 600 0 [] (by decide!)).2.2.1 (by decide) (by decide!) (by decide!)
  exact ⟨h1.trans (by decide!), h2.trans (by decide!), h3⟩
/-! ## C27: a failsafe return skips the mode logic -/

/-- After a failsafe return the safemode, the click counter, the edge memory, the caps and
the motor direction are those at entry, and the safemode is OPERATIONAL. -/
theorem stickCycle_returned_frozen (st : State) (inp : Inputs) (pos b : ℚ)
    (hr : (stickCycle st inp pos b).exit ≠ completed) :
    st.controllerstatus.safemode = OPERATIONAL
    ∧ (stickCycle st inp pos b).st.controllerstatus.safemode = st.controllerstatus.safemode
    ∧ (stickCycle st inp pos b).st.endpointclicks = st.endpointclicks
    ∧ (stickCycle st inp pos b).st.lastendpointswitch = st.lastendpointswitch
    ∧ (stickCycle st inp pos b).st.activesettings.stick_max_accel
        = st.activesettings.stick_max_accel
    ∧ (stickCycle st inp pos b).st.activesettings.stick_max_speed
        = st.activesettings.stick_max_speed
    ∧ (stickCycle st inp pos b).st.activesettings.esc_direction
        = st.activesettings.esc_direction := by
  rcases stickCycle_beforeTail st inp pos b with ⟨_, hg, hb⟩ | ⟨hc, _⟩
  · obtain ⟨hk, hd, _, hs, hcl, hl⟩ := hb
    have hop : st.controllerstatus.safemode = OPERATIONAL := hg.1
    refine ⟨hop, ?_, hcl, hl, hk.2.1, hk.2.2, hd⟩
    rw [hs, stickStart_safemode_operational st inp hop, hop]
  · exact absurd hc hr

/-- The same for the tick that makes the call. -/
theorem controllercycle_returned_frozen (n : Nat) (st : State) (inp : Inputs)
    (hr : (tickStick st inp).exit ≠ completed) :
    st.controllerstatus.safemode = OPERATIONAL
    ∧ (controllercycle n st inp).st.controllerstatus.safemode = st.controllerstatus.safemode
    ∧ (controllercycle n st inp).st.endpointclicks = st.endpointclicks
    ∧ (controllercycle n st inp).st.lastendpointswitch = st.lastendpointswitch
    ∧ (controllercycle n st inp).st.activesettings.stick_max_accel
        = st.activesettings.stick_max_accel
    ∧ (controllercycle n st inp).st.activesettings.stick_max_speed
        = st.activesettings.stick_max_speed
    ∧ (controllercycle n st inp).st.activesettings.esc_direction
        = st.activesettings.esc_direction := by
  obtain ⟨f1, f2, f3, _⟩ := controllercycle_frame n st inp
  obtain ⟨h0, h1, h2, h3, h4, h5, h6⟩ := stickCycle_returned_frozen (resetMonitor st) inp
    (referencePos st inp) (distanceToStop st inp) hr
  rw [controllercycle_safemode, f1, f2, f3]
  exact ⟨h0, h1, h2, h3, h4, h5, h6⟩

theorem runTicks_frozen (n : Nat) (ticks : List Inputs) (st : State)
    (h : allFailsafe n ticks st) :
    (runTicks n ticks st).controllerstatus.safemode = st.controllerstatus.safemode
    ∧ (runTicks n ticks st).endpointclicks = st.endpointclicks
    ∧ (runTicks n ticks st).lastendpointswitch = st.lastendpointswitch
    ∧ (runTicks n ticks st).activesettings.stick_max_accel = st.activesettings.stick_max_accel
    ∧ (runTicks n ticks st).activesettings.stick_max_speed = st.activesettings.stick_max_speed
    ∧ (runTicks n ticks st).activesettings.esc_direction
        = st.activesettings.esc_direction := by
  induction ticks generalizing st with
  | nil => exact ⟨rfl, rfl, rfl, rfl, rfl, rfl⟩
  | cons t rest ih =>
    obtain ⟨_, c1, c2, c3, c4, c5, c6⟩ := controllercycle_returned_frozen n st t h.1
    obtain ⟨i1, i2, i3, i4, i5, i6⟩ := ih (controllercycle n st t).st h.2
    exact ⟨i1.trans c1, i2.trans c2, i3.trans c3, i4.trans c4, i5.trans c5, i6.trans c6⟩

/-- C27: a failsafe return freezes the mode logic. For every call of `stickCycle` that
returns through a hard-failsafe or an emergency-brake branch, for every reading of the
channels: `safemode` (which is OPERATIONAL), `endpointclicks`, `lastendpointswitch`,
`stick_max_accel`, `stick_max_speed` and `esc_direction` after the call are those before it.
The same holds for the state after any run of ticks that all take such a return. -/
theorem C27_failsafe_freezes (n : Nat) (st : State) (inp : Inputs) (pos brakedistance : ℚ)
    (hr : (stickCycle st inp pos brakedistance).exit = hard_failsafe
      ∨ (stickCycle st inp pos brakedistance).exit = emergency_brake) :
    (stickCycle st inp pos brakedistance).st.controllerstatus.safemode
        = st.controllerstatus.safemode
    ∧ st.controllerstatus.safemode = OPERATIONAL
    ∧ (stickCycle st inp pos brakedistance).st.endpointclicks = st.endpointclicks
    ∧ (stickCycle st inp pos brakedistance).st.lastendpointswitch = st.lastendpointswitch
    ∧ (stickCycle st inp pos brakedistance).st.activesettings.stick_max_accel
        = st.activesettings.stick_max_accel
    ∧ (stickCycle st inp pos brakedistance).st.activesettings.stick_max_speed
        = st.activesettings.stick_max_speed
    ∧ (stickCycle st inp pos brakedistance).st.activesettings.esc_direction
        = st.activesettings.esc_direction
    ∧ (∀ ticks : List Inputs, allFailsafe n ticks st →
        (runTicks n ticks st).controllerstatus.safemode = OPERATIONAL
        ∧ (runTicks n ticks st).endpointclicks = st.endpointclicks
        ∧ (runTicks n ticks st).lastendpointswitch = st.lastendpointswitch
        ∧ (runTicks n ticks st).activesettings.stick_max_accel
            = st.activesettings.stick_max_accel
        ∧ (runTicks n ticks st).activesettings.stick_max_speed
            = st.activesettings.stick_max_speed
        ∧ (runTicks n ticks st).activesettings.esc_direction
            = st.activesettings.esc_direction) := by
  have hne : (stickCycle st inp pos brakedistance).exit ≠ completed := by
    rcases hr with h | h <;> rw [h] <;> decide
  obtain ⟨h0, h1, h2, h3, h4, h5, h6⟩ := stickCycle_returned_frozen st inp pos brakedistance hne
  refine ⟨h1, h0, h2, h3, h4, h5, h6, ?_⟩
  intro ticks hall
  obtain ⟨r1, r2, r3, r4, r5, r6⟩ := runTicks_frozen n ticks st hall
  exact ⟨r1.trans h0, r2, r3, r4, r5, r6⟩

theorem C27_failsafe_freezes_witness :
    (stickCycle (operationalState exampleSettings 1055 0)
        (channelInputs 1700 1000 1800 1800 1800 1060) 1060 0).st.controllerstatus.safemode
      = OPERATIONAL
    ∧ (stickCycle (operationalState exampleSettings 1055 0)
        (channelInputs 1700 1000 1800 1800 1800 1060) 1060 0).st.lastendpointswitch = 0
    ∧ (stickCycle (operationalState exampleSettings 1055 0)
        (channelInputs 1700 1000 1800 1800 1800 1060) 1060 0).st.activesettings.stick_max_accel
      = 10
    ∧ (runTicks 100
        [channelInputs 1700 1000 1800 1800 1800 1060, channelInputs 1700 1000 1000 1800 1800 1060]
        (operationalState exampleSettings 1055 0)).controllerstatus.safemode = OPERATIONAL := by
  have h := C27_failsafe_freezes 100 (operationalState exampleSettings 1055 0)
    (channelInputs 1700 1000 1800 1800 1800 1060) 1060 0 (Or.inl (by decide!))
  exact ⟨h.1.trans (by decide), h.2.2.2.1.trans (by decide), h.2.2.2.2.1.trans (by decide),
    (h.2.2.2.2.2.2.2
      [channelInputs 1700 1000 1800 1800 1800 1060, channelInputs 1700 1000 1000 1800 1800 1060]
      ⟨by decide!, by decide!, trivial⟩).1⟩
/-! ## C26: the endpoint limiter runs in OPERATIONAL safemode and bounded modes only -/

theorem relocated_guardActive (st : State) (ps pe mpe : ℚ) (old : Int) :
    guardActive (relocated st ps pe mpe old) ↔ guardActive st := Iff.rfl

theorem stickStart_relocated (st : State) (ps pe mpe : ℚ) (old enc : Int) (inp : Inputs) :
    (stickStart (relocated st ps pe mpe old) (atEncoder inp enc)).1 = (stickStart st inp).1
    ∧ limited (stickStart (relocated st ps pe mpe old) (atEncoder inp enc)).2
          (stickStart st inp).1
        = limited (stickStart st inp).2 (stickStart st inp).1 := by
  have h1 : (stickStart (relocated st ps pe mpe old) (atEncoder inp enc)).1
      = (stickStart st inp).1 := by
    simp only [stickStart, getStickPositionRaw, rawValue, relocated, atEncoder]
    split_ifs <;> rfl
  refine ⟨h1, ?_⟩
  unfold limited
  rw [stickStart_maxaccel, stickStart_maxspeed, stickStart_stick_last_value,
    stickStart_maxaccel, stickStart_maxspeed, stickStart_stick_last_value]
  rfl

/-- Without the endpoint guard a call of `stickCycle` completes, leaves `monitor` alone and
hands the settings of its entry state to the part after the filters. -/
theorem stickCycle_unguarded_frame (st : State) (inp : Inputs) (pos b : ℚ)
    (h : ¬ guardActive st) :
    (stickCycle st inp pos b).exit = completed
    ∧ (stickCycle st inp pos b).st.stick_last_value = (stickCycle st inp pos b).value
    ∧ (stickCycle st inp pos b).st.controllerstatus.monitor = st.controllerstatus.monitor
    ∧ (stickCycle st inp pos b).st
        = stickTail inp pos (stickCycle st inp pos b).value (stickStart st inp).2
    ∧ (¬ clickAccepted st inp →
        (stickCycle st inp pos b).st.activesettings.pos_start = st.activesettings.pos_start
        ∧ (stickCycle st inp pos b).st.activesettings.pos_end = st.activesettings.pos_end) := by
  have hu := stickCycle_unguarded st inp pos b h
  have hex : (stickCycle st inp pos b).exit = completed := by rw [hu]
  have hst : (stickCycle st inp pos b).st
      = stickTail inp pos (stickCycle st inp pos b).value (stickStart st inp).2 := by
    rw [hu]
  refine ⟨hex, ?_, ?_, hst, ?_⟩
  · rw [hst, stickTail_stick_last_value]
  · rw [hst, stickTail_monitor, stickStart_monitor]
  · intro hk
    have he := (stickCycle_completed_endpoints st inp pos b hex).1
    simp only [programmedEndpoints, if_neg hk, selfHealed, if_neg h, Prod.mk.injEq] at he
    exact ⟨he.1, he.2.1⟩

/-- C26: the endpoint limiter is engaged in OPERATIONAL safemode and bounded modes only. If
the safemode at entry is not OPERATIONAL, or the mode is PASSTHROUGH or LIMITER, two calls
of `stickCycle` that agree on everything but `pos`, `brakedistance`, `pos_start`, `pos_end`,
`max_position_error`, the previous encoder reading and the encoder reading return the same
value and commit the same `stick_last_value`; both run to completion, neither writes
`monitor`, and neither swaps the endpoints: the part after the filters gets the settings of
the entry state, and without an accepted endpoint click `pos_start` and `pos_end` are
unchanged, whatever their order. -/
theorem C26_guard_only_when_bounded (st : State) (inp : Inputs) (pos1 b1 pos2 b2 : ℚ)
    (pos_start pos_end max_position_error : ℚ) (pos_current_old encoder : Int)
    (h : st.controllerstatus.safemode ≠ OPERATIONAL
      ∨ st.activesettings.mode = MODE_PASSTHROUGH ∨ st.activesettings.mode = MODE_LIMITER) :
    (stickCycle (relocated st pos_start pos_end max_position_error pos_current_old)
        (atEncoder inp encoder) pos2 b2).value = (stickCycle st inp pos1 b1).value
    ∧ (stickCycle (relocated st pos_start pos_end max_position_error pos_current_old)
        (atEncoder inp encoder) pos2 b2).st.stick_last_value
        = (stickCycle st inp pos1 b1).st.stick_last_value
    ∧ (stickCycle st inp pos1 b1).st.stick_last_value = (stickCycle st inp pos1 b1).value
    ∧ (stickCycle st inp pos1 b1).exit = completed
    ∧ (stickCycle (relocated st pos_start pos_end max_position_error pos_current_old)
        (atEncoder inp encoder) pos2 b2).exit = completed
    ∧ (stickCycle st inp pos1 b1).st.controllerstatus.monitor = st.controllerstatus.monitor
    ∧ (stickCycle (relocated st pos_start pos_end max_position_error pos_current_old)
        (atEncoder inp encoder) pos2 b2).st.controllerstatus.monitor
        = st.controllerstatus.monitor
    ∧ (stickCycle st inp pos1 b1).st
        = stickTail inp pos1 (stickCycle st inp pos1 b1).value (stickStart st inp).2
    ∧ (stickStart st inp).2.activesettings = st.activesettings
    ∧ (¬ clickAccepted st inp →
        (stickCycle st inp pos1 b1).st.activesettings.pos_start = st.activesettings.pos_start
        ∧ (stickCycle st inp pos1 b1).st.activesettings.pos_end = st.activesettings.pos_end
        ∧ (stickCycle (relocated st pos_start pos_end max_position_error pos_current_old)
            (atEncoder inp encoder) pos2 b2).st.activesettings.pos_start = pos_start
        ∧ (stickCycle (relocated st pos_start pos_end max_position_error pos_current_old)
            (atEncoder inp encoder) pos2 b2).st.activesettings.pos_end = pos_end) := by
  have hg : ¬ guardActive st := by
    rintro ⟨g1, g2, g3⟩
    rcases h with h | h | h
    · exact h g1
    · exact g2 h
    · exact g3 h
  have hg2 : ¬ guardActive (relocated st pos_start pos_end max_position_error pos_current_old) :=
    fun hh => hg ((relocated_guardActive st _ _ _ _).mp hh)
  obtain ⟨a1, a2, a3, a4, a5⟩ := stickCycle_unguarded_frame st inp pos1 b1 hg
  obtain ⟨c1, c2, c3, _, c5⟩ := stickCycle_unguarded_frame
    (relocated st pos_start pos_end max_position_error pos_current_old)
    (atEncoder inp encoder) pos2 b2 hg2
  obtain ⟨s1, s2⟩ := stickStart_relocated st pos_start pos_end max_position_error
    pos_current_old encoder inp
  have hval : (stickCycle (relocated st pos_start pos_end max_position_error pos_current_old)
      (atEncoder inp encoder) pos2 b2).value = (stickCycle st inp pos1 b1).value := by
    rw [stickCycle_unguarded _ _ pos2 b2 hg2, stickCycle_unguarded st inp pos1 b1 hg]
    show (if st.activesettings.mode ≠ MODE_PASSTHROUGH then _ else _)
      = (if st.activesettings.mode ≠ MODE_PASSTHROUGH then _ else _)
    rw [s1, s2]
  refine ⟨hval, ?_, a2, a1, c1, a3, c3, a4, stickStart_activesettings st inp, ?_⟩
  · rw [c2, a2, hval]
  · intro hk
    have hk2 : ¬ clickAccepted
        (relocated st pos_start pos_end max_position_error pos_current_old)
        (atEncoder inp encoder) := hk
    exact ⟨(a5 hk).1, (a5 hk).2, (c5 hk2).1, (c5 hk2).2⟩

theorem C26_guard_only_when_bounded_witness :
    (stickCycle (relocated (stateIn PROGRAMMING exampleSettings 0 0) 800 200 1 990)
        (atEncoder (programmingInputs 1700 0) 1000) 1000 50).value
      = (stickCycle (stateIn PROGRAMMING exampleSettings 0 0) (programmingInputs 1700 0) 0
        0).value
    ∧ (stickCycle (relocated (stateIn PROGRAMMING exampleSettings 0 0) 800 200 1 990)
        (atEncoder (programmingInputs 1700 0) 1000) 1000 50).st.activesettings.pos_start = 800
    ∧ (stickCycle (relocated (stateIn PROGRAMMING exampleSettings 0 0) 800 200 1 990)
        (atEncoder (programmingInputs 1700 0) 1000) 1000 50).exit = completed := by
  have h := C26_guard_only_when_bounded (stateIn PROGRAMMING exampleSettings 0 0)
    (programmingInputs 1700 0) 0 0 1000 50 800 200 1 990 1000 (Or.inl (by decide))
  exact ⟨h.1, (h.2.2.2.2.2.2.2.2.2 (by decide)).2.2.1, h.2.2.2.2.1⟩

end CableCam
